import Mathlib

/-! Socket-interface dispatch layer: `net/socket/inet_sockif.c` and
`net/local/local_sockif.c`.

A shallow embedding of the two family dispatchers.  Every C function of the two
files becomes a Lean function of the same name that takes the socket and the
network state explicitly and returns the C return value together with the
socket and the network state it leaves behind.

* Constants that come from headers which are not part of the sources
  (`SOCK_STREAM`, the `errno` numbers, `sizeof(struct sockaddr_in)`, ...) are
  the fields of `Plat`; the functions are parametric in them.
* Pre-processor conditionals (`#ifdef CONFIG_NET_TCP`, ...) are the Boolean
  fields of `Config`.
* Functions that the two files call but do not define (`tcp_alloc`,
  `usrsock_socket`, `tcp_bind`, ...) are the fields of `BackEnd`; the embedding
  records every call to one of them in `Net.trace`.  `net_lock` and
  `net_unlock` count the nesting depth of the network lock in `Net.lock` and
  are recorded in the trace as well.
* `DEBUGASSERT` is the empty statement of a build without
  `CONFIG_DEBUG_ASSERTIONS`; `nerr`, `nwarn`, `warn` only log.

The bit-field macros of `arch/arm/src/sama5/chip/sam_sfr.h` are embedded as
constants and functions on 32-bit values.
-/

namespace Nuttx

/-! ## Constants, configuration -/

/-- Header constants used by the two source files.  Their numeric values
come from `sys/socket.h`, `netinet/in.h`, `errno.h` and `nuttx/net/net.h`,
none of which is among the sources, so they are parameters. -/
structure Plat where
  SOCK_STREAM : Int
  SOCK_DGRAM : Int
  SOCK_USRSOCK_TYPE : Int
  PF_UNSPEC : Int
  PF_INET : Int
  PF_INET6 : Int
  AF_INET : Int
  AF_INET6 : Int
  AF_LOCAL : Int
  AF_UNSPEC : Int
  IPPROTO_TCP : Int
  IPPROTO_UDP : Int
  ENOMEM : Int
  ENETDOWN : Int
  EPROTONOSUPPORT : Int
  EPFNOSUPPORT : Int
  EAFNOSUPPORT : Int
  EBADF : Int
  ENOSYS : Int
  EISCONN : Int
  EOPNOTSUPP : Int
  EINVAL : Int
  EDESTADDRREQ : Int
  sizeof_sockaddr_in : Nat
  sizeof_sockaddr_in6 : Nat
  sizeof_sa_family_t : Nat
  SF_BOUND : Nat
  SF_CONNECTED : Nat

/-- The `errno` numbers are positive, so that `-Exxx` is "a negated errno
value", the failure result documented for every function of the two files. -/
abbrev Plat.errnoPos (K : Plat) : Prop :=
  0 < K.ENOMEM ∧ 0 < K.ENETDOWN ∧ 0 < K.EPROTONOSUPPORT ∧ 0 < K.EPFNOSUPPORT ∧
  0 < K.EAFNOSUPPORT ∧ 0 < K.EBADF ∧ 0 < K.ENOSYS ∧ 0 < K.EISCONN ∧
  0 < K.EOPNOTSUPP ∧ 0 < K.EINVAL ∧ 0 < K.EDESTADDRREQ

/-- The labels of one `switch` are pairwise different (C refuses duplicate
case labels): the three socket types of `inet_bind`/`inet_send`, and the two
address families of `inet_bind`/`inet_sendto`/`inet_accept`. -/
abbrev Plat.labelsDistinct (K : Plat) : Prop :=
  K.SOCK_STREAM ≠ K.SOCK_DGRAM ∧ K.SOCK_USRSOCK_TYPE ≠ K.SOCK_STREAM ∧
  K.SOCK_USRSOCK_TYPE ≠ K.SOCK_DGRAM ∧ K.AF_INET ≠ K.AF_INET6 ∧ K.PF_INET ≠ K.PF_INET6

/-- Reference values for the constants: the Linux-compatible numbering of the
NuttX headers (`SOCK_STREAM` 1, `PF_UNSPEC` 0, `errno` numbers as in
`errno.h`), a 16-byte `struct sockaddr_in`, a 28-byte `struct sockaddr_in6`
and a 16-bit `sa_family_t`.  Used for concrete evaluations only; every general
theorem is parametric in `Plat`. -/
def refPlat : Plat where
  SOCK_STREAM := 1
  SOCK_DGRAM := 2
  SOCK_USRSOCK_TYPE := 127
  PF_UNSPEC := 0
  PF_INET := 2
  PF_INET6 := 10
  AF_INET := 2
  AF_INET6 := 10
  AF_LOCAL := 1
  AF_UNSPEC := 0
  IPPROTO_TCP := 6
  IPPROTO_UDP := 17
  ENOMEM := 12
  ENETDOWN := 100
  EPROTONOSUPPORT := 93
  EPFNOSUPPORT := 96
  EAFNOSUPPORT := 97
  EBADF := 9
  ENOSYS := 38
  EISCONN := 106
  EOPNOTSUPP := 95
  EINVAL := 22
  EDESTADDRREQ := 89
  sizeof_sockaddr_in := 16
  sizeof_sockaddr_in6 := 28
  sizeof_sa_family_t := 2
  SF_BOUND := 32
  SF_CONNECTED := 64

/-- The pre-processor symbols the two files test.  `true` means "defined". -/
structure Config where
  NET_TCP : Bool
  NET_UDP : Bool
  NET_TCP_HAVE_STACK : Bool
  NET_UDP_HAVE_STACK : Bool
  NET_USRSOCK : Bool
  NET_USRSOCK_TCP : Bool
  NET_USRSOCK_UDP : Bool
  NET_IPv4 : Bool
  NET_IPv6 : Bool
  NET_6LOWPAN : Bool
  NETDEV_MULTINIC : Bool
  NET_TCPBACKLOG : Bool

/-- A build with IPv4, IPv6, TCP and UDP and their native stacks, without the
external provider and without 6LoWPAN. -/
def cfgLocal : Config where
  NET_TCP := true
  NET_UDP := true
  NET_TCP_HAVE_STACK := true
  NET_UDP_HAVE_STACK := true
  NET_USRSOCK := false
  NET_USRSOCK_TCP := false
  NET_USRSOCK_UDP := false
  NET_IPv4 := true
  NET_IPv6 := true
  NET_6LOWPAN := false
  NETDEV_MULTINIC := false
  NET_TCPBACKLOG := true

/-- The build `cfgLocal` with the external provider (usrsock) configured for
both stream and datagram sockets. -/
def cfgUsrsock : Config :=
  { cfgLocal with NET_USRSOCK := true, NET_USRSOCK_TCP := true, NET_USRSOCK_UDP := true }

/-- The build `cfgLocal` without `CONFIG_NET_UDP`. -/
def cfgTcpOnly : Config :=
  { cfgLocal with NET_UDP := false, NET_UDP_HAVE_STACK := false }

/-! ## Data model -/

/-- The fields of `struct socket` that the two files read or write.  `s_conn`
is the address of the connection object (`0` is `NULL`), `s_sockif` identifies
the interface table the socket points to. -/
structure Socket where
  s_domain : Int
  s_type : Int
  s_flags : Nat
  s_conn : Nat
  s_sockif : Nat
  deriving DecidableEq

/-- The fields of a connection structure that the two files read or write:
the reference count (`crefs` of `tcp_conn_s`/`udp_conn_s`, `lc_crefs` of
`local_conn_s`) and the local port of a TCP connection. -/
structure Conn where
  crefs : Nat
  lport : Nat
  deriving DecidableEq

/-- The connection structures, by address. -/
abbrev Heap := Nat → Conn

/-- Write one connection structure. -/
def heap_set (h : Heap) (p : Nat) (c : Conn) : Heap :=
  fun q => if q = p then c else h q

/-- A `struct sockaddr`: the family tag and the remaining bytes. -/
structure Sockaddr where
  sa_family : Int
  sa_data : List Nat
  deriving DecidableEq

/-- The functions the two files call without defining them. -/
inductive Fn where
  | tcp_alloc | udp_alloc | local_alloc | usrsock_socket
  | usrsock_bind | tcp_bind | udp_bind | psock_local_bind
  | psock_local_connect
  | tcp_backlogcreate | tcp_listen
  | psock_tcp_accept | net_startmonitor | psock_close | net_lock | net_unlock
  | psock_6lowpan_tcp_send | psock_tcp_send | psock_6lowpan_udp_send | psock_udp_send
  | usrsock_sendto | psock_6lowpan_udp_sendto | psock_udp_sendto
  | psock_local_send | psock_local_sendto
  deriving DecidableEq

/-- One call of a collaborator: which one, its integer arguments, and what it
returned (a returned pointer is recorded as its address). -/
structure Call where
  fn : Fn
  args : List Int
  ret : Int
  deriving DecidableEq

/-- The network state outside the socket: the connection structures, the
nesting depth of the network lock, and the calls made so far (oldest first). -/
structure Net where
  heap : Heap
  lock : Nat
  trace : List Call

/-- What a collaborator that receives the socket pointer hands back. -/
structure Out where
  ret : Int
  psock : Socket
  heap : Heap

/-- What `psock_tcp_accept` hands back: its result, the listening socket, the
peer address and length it stored (when a buffer was supplied), the
connection it stored through `&newsock->s_conn`, and the heap. -/
structure AcceptOut where
  ret : Int
  psock : Socket
  addr : Option Sockaddr
  addrlen : Nat
  conn : Nat
  heap : Heap

/-- The collaborators, as functions of their C arguments and the heap. -/
structure BackEnd where
  tcp_alloc : Int → Heap → Nat × Heap
  udp_alloc : Int → Heap → Nat × Heap
  local_alloc : Heap → Nat × Heap
  usrsock_socket : Int → Int → Int → Socket → Heap → Out
  usrsock_bind : Nat → Sockaddr → Nat → Heap → Int × Heap
  tcp_bind : Nat → Sockaddr → Heap → Int × Heap
  udp_bind : Nat → Sockaddr → Heap → Int × Heap
  psock_local_bind : Socket → Sockaddr → Nat → Heap → Out
  psock_local_connect : Socket → Sockaddr → Heap → Out
  tcp_backlogcreate : Nat → Int → Heap → Int × Heap
  tcp_listen : Nat → Heap → Int × Heap
  psock_tcp_accept : Socket → Option Sockaddr → Nat → Nat → Heap → AcceptOut
  net_startmonitor : Socket → Heap → Out
  psock_close : Socket → Heap → Out
  psock_6lowpan_tcp_send : Socket → List Nat → Nat → Heap → Out
  psock_tcp_send : Socket → List Nat → Nat → Heap → Out
  psock_6lowpan_udp_send : Socket → List Nat → Nat → Heap → Out
  psock_udp_send : Socket → List Nat → Nat → Heap → Out
  usrsock_sendto : Socket → List Nat → Nat → Option Sockaddr → Nat → Heap → Out
  psock_6lowpan_udp_sendto : Socket → List Nat → Nat → Int → Sockaddr → Nat → Heap → Out
  psock_udp_sendto : Socket → List Nat → Nat → Int → Sockaddr → Nat → Heap → Out
  psock_local_send : Socket → List Nat → Nat → Int → Heap → Out
  psock_local_sendto : Socket → List Nat → Nat → Int → Sockaddr → Nat → Heap → Out

/-- The result of a dispatcher function: the C return value, the socket and
the network state after the call. -/
structure Ret where
  ret : Int
  psock : Socket
  net : Net

/-- The result of `inet_accept`: the C return value, the listening socket, the
output socket, the contents of the address buffer and of `*addrlen`, and the
network state after the call. -/
structure AcceptRet where
  ret : Int
  psock : Socket
  newsock : Socket
  addr : Option Sockaddr
  addrlen : Nat
  net : Net

/-- Record a call and install the heap the collaborator left. -/
def Net.called (n : Net) (c : Call) (h : Heap) : Net :=
  { n with heap := h, trace := n.trace ++ [c] }

/-- The call `net_lock()`: one more level of the network lock. -/
def net_lock (n : Net) : Net :=
  { n with lock := n.lock + 1, trace := n.trace ++ [⟨Fn.net_lock, [], 0⟩] }

/-- The call `net_unlock()`: one level less of the network lock. -/
def net_unlock (n : Net) : Net :=
  { n with lock := n.lock - 1, trace := n.trace ++ [⟨Fn.net_unlock, [], 0⟩] }

/-- The macro `_SS_ISBOUND(s)`: `((s) & _SF_BOUND) != 0`. -/
def SS_ISBOUND (K : Plat) (s : Nat) : Bool := (s &&& K.SF_BOUND) != 0

/-- The macro `_SS_ISCONNECTED(s)`: `((s) & _SF_CONNECTED) != 0`. -/
def SS_ISCONNECTED (K : Plat) (s : Nat) : Bool := (s &&& K.SF_CONNECTED) != 0

/-! ## `inet_sockif.c`: setup -/

/-- The function `inet_tcp_alloc` (lines 102-126). -/
def inet_tcp_alloc (K : Plat) (B : BackEnd) (psock : Socket) (n : Net) : Ret :=
  let a := B.tcp_alloc psock.s_domain n.heap
  let conn := a.1
  let n1 := n.called ⟨Fn.tcp_alloc, [psock.s_domain], conn⟩ a.2
  if conn = 0 then
    ⟨-K.ENOMEM, psock, n1⟩
  else
    ⟨0, { psock with s_conn := conn },
      { n1 with heap := heap_set n1.heap conn { n1.heap conn with crefs := 1 } }⟩

/-- The function `inet_udp_alloc` (lines 138-162). -/
def inet_udp_alloc (K : Plat) (B : BackEnd) (psock : Socket) (n : Net) : Ret :=
  let a := B.udp_alloc psock.s_domain n.heap
  let conn := a.1
  let n1 := n.called ⟨Fn.udp_alloc, [psock.s_domain], conn⟩ a.2
  if conn = 0 then
    ⟨-K.ENOMEM, psock, n1⟩
  else
    ⟨0, { psock with s_conn := conn },
      { n1 with heap := heap_set n1.heap conn { n1.heap conn with crefs := 1 } }⟩

/-- The function `usrsock_socket_setup` (lines 183-221), compiled under
`CONFIG_NET_USRSOCK`. -/
def usrsock_socket_setup (K : Plat) (cfg : Config) (B : BackEnd)
    (domain type protocol : Int) (psock : Socket) (n : Net) : Ret :=
  if domain = K.PF_INET ∨ domain = K.PF_INET6 then
    if cfg.NET_USRSOCK_UDP = false ∧ type = K.SOCK_DGRAM then
      ⟨0, psock, n⟩
    else if cfg.NET_USRSOCK_TCP = false ∧ type = K.SOCK_STREAM then
      ⟨0, psock, n⟩
    else
      let psock1 := { psock with s_type := K.PF_UNSPEC, s_conn := 0 }
      let o := B.usrsock_socket domain type protocol psock1 n.heap
      ⟨o.ret, o.psock, n.called ⟨Fn.usrsock_socket, [domain, type, protocol], o.ret⟩ o.heap⟩
  else
    ⟨0, psock, n⟩

/-- The `switch (psock->s_type)` of `inet_setup` (lines 275-316): the whole of
`inet_setup` when `CONFIG_NET_USRSOCK` is not defined. -/
def inet_setup_switch (K : Plat) (cfg : Config) (B : BackEnd)
    (psock : Socket) (protocol : Int) (n : Net) : Ret :=
  if cfg.NET_TCP = true ∧ psock.s_type = K.SOCK_STREAM then
    if protocol ≠ 0 ∧ protocol ≠ K.IPPROTO_TCP then
      ⟨-K.EPROTONOSUPPORT, psock, n⟩
    else if cfg.NET_TCP_HAVE_STACK then
      inet_tcp_alloc K B psock n
    else
      ⟨-K.ENETDOWN, psock, n⟩
  else if cfg.NET_UDP = true ∧ psock.s_type = K.SOCK_DGRAM then
    if protocol ≠ 0 ∧ protocol ≠ K.IPPROTO_UDP then
      ⟨-K.EPROTONOSUPPORT, psock, n⟩
    else if cfg.NET_UDP_HAVE_STACK then
      inet_udp_alloc K B psock n
    else
      ⟨-K.ENETDOWN, psock, n⟩
  else
    ⟨-K.EPROTONOSUPPORT, psock, n⟩

/-- The function `inet_setup` (lines 245-317).  The names `domain` and `type`
of line 250, which the function does not declare, are read as the domain and
type of the socket being set up.  Line 253 is `if (ret = -ENETDOWN)`: an
assignment, whose value decides the branch. -/
def inet_setup (K : Plat) (cfg : Config) (B : BackEnd)
    (psock : Socket) (protocol : Int) (n : Net) : Ret :=
  if cfg.NET_USRSOCK then
    let r := usrsock_socket_setup K cfg B psock.s_domain psock.s_type protocol psock n
    if r.ret < 0 then
      let ret : Int := -K.ENETDOWN
      if ret ≠ 0 then
        inet_setup_switch K cfg B r.psock protocol r.net
      else
        ⟨ret, r.psock, r.net⟩
    else
      inet_setup_switch K cfg B r.psock protocol r.net
  else
    inet_setup_switch K cfg B psock protocol n

/-! ## `local_sockif.c`: setup -/

/-- The function `local_sockif_alloc` (lines 101-124). -/
def local_sockif_alloc (K : Plat) (B : BackEnd) (psock : Socket) (n : Net) : Ret :=
  let a := B.local_alloc n.heap
  let conn := a.1
  let n1 := n.called ⟨Fn.local_alloc, [], conn⟩ a.2
  if conn = 0 then
    ⟨-K.ENOMEM, psock, n1⟩
  else
    ⟨0, { psock with s_conn := conn },
      { n1 with heap := heap_set n1.heap conn { n1.heap conn with crefs := 1 } }⟩

/-- The function `local_setup` (lines 144-182). -/
def local_setup (K : Plat) (cfg : Config) (B : BackEnd)
    (psock : Socket) (protocol : Int) (n : Net) : Ret :=
  if cfg.NET_TCP = true ∧ psock.s_type = K.SOCK_STREAM then
    if protocol ≠ 0 ∧ protocol ≠ K.IPPROTO_TCP then
      ⟨-K.EPROTONOSUPPORT, psock, n⟩
    else
      local_sockif_alloc K B psock n
  else if cfg.NET_UDP = true ∧ psock.s_type = K.SOCK_DGRAM then
    if protocol ≠ 0 ∧ protocol ≠ K.IPPROTO_UDP then
      ⟨-K.EPROTONOSUPPORT, psock, n⟩
    else
      local_sockif_alloc K B psock n
  else
    ⟨-K.EPROTONOSUPPORT, psock, n⟩

/-! ## `inet_sockif.c`: bind and sendto -/

/-- The function `inet_bind` (lines 339-441).  `s_flags` is an 8-bit field and
`_SF_BOUND` one of its bits, so the bitwise or does not overflow. -/
def inet_bind (K : Plat) (cfg : Config) (B : BackEnd)
    (psock : Socket) (addr : Sockaddr) (addrlen : Nat) (n : Net) : Ret :=
  let minlen : Option Nat :=
    if cfg.NET_IPv4 = true ∧ addr.sa_family = K.AF_INET then some K.sizeof_sockaddr_in
    else if cfg.NET_IPv6 = true ∧ addr.sa_family = K.AF_INET6 then some K.sizeof_sockaddr_in6
    else none
  match minlen with
  | none => ⟨-K.EAFNOSUPPORT, psock, n⟩
  | some minlen =>
    if addrlen < minlen then
      ⟨-K.EBADF, psock, n⟩
    else if cfg.NET_USRSOCK = true ∧ psock.s_type = K.SOCK_USRSOCK_TYPE then
      let o := B.usrsock_bind psock.s_conn addr addrlen n.heap
      ⟨o.1, psock, n.called ⟨Fn.usrsock_bind, [psock.s_conn, addr.sa_family, addrlen], o.1⟩ o.2⟩
    else if cfg.NET_TCP = true ∧ psock.s_type = K.SOCK_STREAM then
      if cfg.NET_TCP_HAVE_STACK then
        let o := B.tcp_bind psock.s_conn addr n.heap
        ⟨o.1,
          if o.1 ≥ 0 then { psock with s_flags := psock.s_flags ||| K.SF_BOUND } else psock,
          n.called ⟨Fn.tcp_bind, [psock.s_conn, addr.sa_family], o.1⟩ o.2⟩
      else
        ⟨-K.ENOSYS, psock, n⟩
    else if cfg.NET_UDP = true ∧ psock.s_type = K.SOCK_DGRAM then
      if cfg.NET_UDP_HAVE_STACK then
        let o := B.udp_bind psock.s_conn addr n.heap
        ⟨o.1,
          if o.1 ≥ 0 then { psock with s_flags := psock.s_flags ||| K.SF_BOUND } else psock,
          n.called ⟨Fn.udp_bind, [psock.s_conn, addr.sa_family], o.1⟩ o.2⟩
      else
        ⟨-K.ENOSYS, psock, n⟩
    else
      ⟨-K.EBADF, psock, n⟩

/-- The function `inet_sendto` (lines 818-899); `toaddr` is the parameter `to`. -/
def inet_sendto (K : Plat) (cfg : Config) (B : BackEnd)
    (psock : Socket) (buf : List Nat) (len : Nat) (flags : Int)
    (toaddr : Sockaddr) (tolen : Nat) (n : Net) : Ret :=
  if cfg.NET_USRSOCK = true ∧ psock.s_type = K.SOCK_USRSOCK_TYPE then
    let o := B.usrsock_sendto psock buf len (some toaddr) tolen n.heap
    ⟨o.ret, o.psock, n.called ⟨Fn.usrsock_sendto, [len, toaddr.sa_family, tolen], o.ret⟩ o.heap⟩
  else
    let minlen : Option Nat :=
      if cfg.NET_IPv4 = true ∧ toaddr.sa_family = K.AF_INET then some K.sizeof_sockaddr_in
      else if cfg.NET_IPv6 = true ∧ toaddr.sa_family = K.AF_INET6 then some K.sizeof_sockaddr_in6
      else none
    match minlen with
    | none => ⟨-K.EAFNOSUPPORT, psock, n⟩
    | some minlen =>
      if tolen < minlen then
        ⟨-K.EBADF, psock, n⟩
      else if cfg.NET_UDP then
        if psock.s_type ≠ K.SOCK_DGRAM then
          ⟨-K.EBADF, psock, n⟩
        else if cfg.NET_6LOWPAN then
          let o := B.psock_6lowpan_udp_sendto psock buf len flags toaddr tolen n.heap
          let n1 := n.called ⟨Fn.psock_6lowpan_udp_sendto, [len, flags, toaddr.sa_family, tolen], o.ret⟩ o.heap
          if cfg.NETDEV_MULTINIC = true ∧ cfg.NET_UDP_HAVE_STACK = true ∧ o.ret < 0 then
            let o2 := B.psock_udp_sendto o.psock buf len flags toaddr tolen n1.heap
            ⟨o2.ret, o2.psock,
              n1.called ⟨Fn.psock_udp_sendto, [len, flags, toaddr.sa_family, tolen], o2.ret⟩ o2.heap⟩
          else
            ⟨o.ret, o.psock, n1⟩
        else if cfg.NET_UDP_HAVE_STACK then
          let o := B.psock_udp_sendto psock buf len flags toaddr tolen n.heap
          ⟨o.ret, o.psock,
            n.called ⟨Fn.psock_udp_sendto, [len, flags, toaddr.sa_family, tolen], o.ret⟩ o.heap⟩
        else
          ⟨-K.ENOSYS, psock, n⟩
      else
        ⟨-K.EISCONN, psock, n⟩

/-! ## `inet_sockif.c`: listen, accept and send -/

/-- The function `inet_listen` (lines 469-531).  `lport` is an unsigned
16-bit field, so `conn->lport <= 0` holds exactly when it is 0. -/
def inet_listen (K : Plat) (cfg : Config) (B : BackEnd)
    (psock : Socket) (backlog : Int) (n : Net) : Ret :=
  if psock.s_type ≠ K.SOCK_STREAM then
    ⟨-K.EOPNOTSUPP, psock, n⟩
  else if cfg.NET_TCP = true ∧ cfg.NET_TCP_HAVE_STACK = true then
    if (n.heap psock.s_conn).lport ≤ 0 then
      ⟨-K.EOPNOTSUPP, psock, n⟩
    else if cfg.NET_TCPBACKLOG then
      let b := B.tcp_backlogcreate psock.s_conn backlog n.heap
      let n1 := n.called ⟨Fn.tcp_backlogcreate, [psock.s_conn, backlog], b.1⟩ b.2
      if b.1 < 0 then
        ⟨b.1, psock, n1⟩
      else
        let l := B.tcp_listen psock.s_conn n1.heap
        ⟨l.1, psock, n1.called ⟨Fn.tcp_listen, [psock.s_conn], l.1⟩ l.2⟩
    else
      let l := B.tcp_listen psock.s_conn n.heap
      ⟨l.1, psock, n.called ⟨Fn.tcp_listen, [psock.s_conn], l.1⟩ l.2⟩
  else
    ⟨-K.EOPNOTSUPP, psock, n⟩

/-- The function `inet_accept` (lines 573-690).  `addr` is `none` for a `NULL`
address buffer, `addrlen` is the value of `*addrlen`.  `DEBUGPANIC` is the
empty statement, like `DEBUGASSERT`. -/
def inet_accept (K : Plat) (cfg : Config) (B : BackEnd)
    (psock : Socket) (addr : Option Sockaddr) (addrlen : Nat) (newsock : Socket)
    (n : Net) : AcceptRet :=
  if psock.s_type ≠ K.SOCK_STREAM then
    ⟨-K.EOPNOTSUPP, psock, newsock, addr, addrlen, n⟩
  else
    let bad : Option Int :=
      if addr.isSome then
        if cfg.NET_IPv4 = true ∧ psock.s_domain = K.PF_INET then
          if addrlen < K.sizeof_sockaddr_in then some (-K.EBADF) else none
        else if cfg.NET_IPv6 = true ∧ psock.s_domain = K.PF_INET6 then
          if addrlen < K.sizeof_sockaddr_in6 then some (-K.EBADF) else none
        else some (-K.EINVAL)
      else none
    match bad with
    | some e => ⟨e, psock, newsock, addr, addrlen, n⟩
    | none =>
      let newsock1 : Socket :=
        { newsock with
          s_domain := psock.s_domain, s_type := K.SOCK_STREAM, s_sockif := psock.s_sockif }
      if cfg.NET_TCP = true ∧ cfg.NET_TCP_HAVE_STACK = true then
        let n1 := net_lock n
        let a := B.psock_tcp_accept psock addr addrlen newsock1.s_conn n1.heap
        let n2 := n1.called ⟨Fn.psock_tcp_accept, [addrlen], a.ret⟩ a.heap
        let newsock2 : Socket := { newsock1 with s_conn := a.conn }
        if a.ret < 0 then
          ⟨a.ret, a.psock, newsock2, a.addr, a.addrlen, net_unlock n2⟩
        else
          let m := B.net_startmonitor newsock2 n2.heap
          let n3 := n2.called ⟨Fn.net_startmonitor, [], m.ret⟩ m.heap
          if m.ret < 0 then
            let c := B.psock_close m.psock n3.heap
            let n4 := n3.called ⟨Fn.psock_close, [], c.ret⟩ c.heap
            ⟨m.ret, a.psock, c.psock, a.addr, a.addrlen, net_unlock n4⟩
          else
            ⟨0, a.psock, m.psock, a.addr, a.addrlen, net_unlock n3⟩
      else
        ⟨-K.EOPNOTSUPP, psock, newsock1, addr, addrlen, n⟩

set_option linter.unusedVariables false in
/-- The function `inet_send` (lines 712-794).  The parameter `flags` is not
used by the C function either. -/
def inet_send (K : Plat) (cfg : Config) (B : BackEnd)
    (psock : Socket) (buf : List Nat) (len : Nat) (flags : Int) (n : Net) : Ret :=
  if cfg.NET_TCP = true ∧ psock.s_type = K.SOCK_STREAM then
    if cfg.NET_6LOWPAN then
      let o := B.psock_6lowpan_tcp_send psock buf len n.heap
      let n1 := n.called ⟨Fn.psock_6lowpan_tcp_send, [len], o.ret⟩ o.heap
      if cfg.NETDEV_MULTINIC = true ∧ cfg.NET_TCP_HAVE_STACK = true ∧ o.ret < 0 then
        let o2 := B.psock_tcp_send o.psock buf len n1.heap
        ⟨o2.ret, o2.psock, n1.called ⟨Fn.psock_tcp_send, [len], o2.ret⟩ o2.heap⟩
      else
        ⟨o.ret, o.psock, n1⟩
    else if cfg.NET_TCP_HAVE_STACK then
      let o := B.psock_tcp_send psock buf len n.heap
      ⟨o.ret, o.psock, n.called ⟨Fn.psock_tcp_send, [len], o.ret⟩ o.heap⟩
    else
      ⟨-K.ENOSYS, psock, n⟩
  else if cfg.NET_UDP = true ∧ psock.s_type = K.SOCK_DGRAM then
    if cfg.NET_6LOWPAN then
      let o := B.psock_6lowpan_udp_send psock buf len n.heap
      let n1 := n.called ⟨Fn.psock_6lowpan_udp_send, [len], o.ret⟩ o.heap
      if cfg.NETDEV_MULTINIC = true ∧ cfg.NET_UDP_HAVE_STACK = true ∧ o.ret < 0 then
        let o2 := B.psock_udp_send o.psock buf len n1.heap
        ⟨o2.ret, o2.psock, n1.called ⟨Fn.psock_udp_send, [len], o2.ret⟩ o2.heap⟩
      else
        ⟨o.ret, o.psock, n1⟩
    else if cfg.NET_UDP_HAVE_STACK then
      let o := B.psock_udp_send psock buf len n.heap
      ⟨o.ret, o.psock, n.called ⟨Fn.psock_udp_send, [len], o.ret⟩ o.heap⟩
    else
      ⟨-K.ENOSYS, psock, n⟩
  else if cfg.NET_USRSOCK = true ∧ psock.s_type = K.SOCK_USRSOCK_TYPE then
    let o := B.usrsock_sendto psock buf len none 0 n.heap
    ⟨o.ret, o.psock, n.called ⟨Fn.usrsock_sendto, [len, 0], o.ret⟩ o.heap⟩
  else
    ⟨-K.EDESTADDRREQ, psock, n⟩

/-! ## `local_sockif.c`: bind, connect, send and sendto -/

/-- The function `local_bind` (lines 204-252).  Line 224 tests
`defined(ONFIG_NET_TCP) || defined(CONFIG_NET_UDP)`; no build defines
`ONFIG_NET_TCP`, so the two case labels are compiled exactly when
`CONFIG_NET_UDP` is defined.  Line 234, `ret psock_local_bind(...)`, is read
as the assignment `ret = psock_local_bind(...)`. -/
def local_bind (K : Plat) (cfg : Config) (B : BackEnd)
    (psock : Socket) (addr : Sockaddr) (addrlen : Nat) (n : Net) : Ret :=
  if addr.sa_family ≠ K.AF_LOCAL ∨ addrlen < K.sizeof_sa_family_t then
    ⟨-K.EBADF, psock, n⟩
  else if cfg.NET_UDP = true ∧
      ((cfg.NET_TCP = true ∧ psock.s_type = K.SOCK_STREAM) ∨
       (cfg.NET_UDP = true ∧ psock.s_type = K.SOCK_DGRAM)) then
    let o := B.psock_local_bind psock addr addrlen n.heap
    ⟨o.ret,
      if o.ret ≥ 0 then { o.psock with s_flags := o.psock.s_flags ||| K.SF_BOUND } else o.psock,
      n.called ⟨Fn.psock_local_bind, [addr.sa_family, addrlen], o.ret⟩ o.heap⟩
  else
    ⟨-K.EBADF, psock, n⟩

/-- The function `local_connect` (lines 286-330). -/
def local_connect (K : Plat) (cfg : Config) (B : BackEnd)
    (psock : Socket) (addr : Sockaddr) (addrlen : Nat) (n : Net) : Ret :=
  if addr.sa_family ≠ K.AF_LOCAL ∨ addrlen < K.sizeof_sa_family_t then
    ⟨-K.EBADF, psock, n⟩
  else if cfg.NET_TCP = true ∧ psock.s_type = K.SOCK_STREAM then
    if SS_ISCONNECTED K psock.s_flags then
      ⟨-K.EISCONN, psock, n⟩
    else
      let o := B.psock_local_connect psock addr n.heap
      ⟨o.ret, o.psock, n.called ⟨Fn.psock_local_connect, [addr.sa_family], o.ret⟩ o.heap⟩
  else if cfg.NET_UDP = true ∧ psock.s_type = K.SOCK_DGRAM then
    let o := B.psock_local_connect psock addr n.heap
    ⟨o.ret, o.psock, n.called ⟨Fn.psock_local_connect, [addr.sa_family], o.ret⟩ o.heap⟩
  else
    ⟨-K.EBADF, psock, n⟩

/-- The function `local_send` (lines 351-390). -/
def local_send (K : Plat) (cfg : Config) (B : BackEnd)
    (psock : Socket) (buf : List Nat) (len : Nat) (flags : Int) (n : Net) : Ret :=
  if cfg.NET_TCP = true ∧ psock.s_type = K.SOCK_STREAM then
    let o := B.psock_local_send psock buf len flags n.heap
    ⟨o.ret, o.psock, n.called ⟨Fn.psock_local_send, [len, flags], o.ret⟩ o.heap⟩
  else if cfg.NET_UDP = true ∧ psock.s_type = K.SOCK_DGRAM then
    ⟨-K.ENOSYS, psock, n⟩
  else
    ⟨-K.EDESTADDRREQ, psock, n⟩

/-- The function `local_sendto` (lines 413-445); `toaddr` is the parameter `to`. -/
def local_sendto (K : Plat) (cfg : Config) (B : BackEnd)
    (psock : Socket) (buf : List Nat) (len : Nat) (flags : Int)
    (toaddr : Sockaddr) (tolen : Nat) (n : Net) : Ret :=
  if toaddr.sa_family ≠ K.AF_LOCAL ∨ tolen < K.sizeof_sa_family_t then
    ⟨-K.EAFNOSUPPORT, psock, n⟩
  else if cfg.NET_UDP then
    if psock.s_type ≠ K.SOCK_DGRAM then
      ⟨-K.EISCONN, psock, n⟩
    else
      let o := B.psock_local_sendto psock buf len flags toaddr tolen n.heap
      ⟨o.ret, o.psock,
        n.called ⟨Fn.psock_local_sendto, [len, flags, toaddr.sa_family, tolen], o.ret⟩ o.heap⟩
  else
    ⟨-K.EISCONN, psock, n⟩

/-! ## Concrete collaborators and states for evaluation -/

/-- A heap in which every connection structure is zeroed. -/
def heap0 : Heap := fun _ => ⟨0, 0⟩

/-- The initial network state: zeroed heap, lock free, no call made. -/
def net0 : Net := ⟨heap0, 0, []⟩

/-- Collaborators that all succeed: the allocators hand out the structure at
address 7, the provider claims the socket (it stores the external-provider
type and its connection at address 9), every other call returns 0 and
changes nothing. -/
def beOK : BackEnd where
  tcp_alloc := fun _ h => (7, h)
  udp_alloc := fun _ h => (7, h)
  local_alloc := fun h => (7, h)
  usrsock_socket := fun _ _ _ s h =>
    ⟨0, { s with s_type := refPlat.SOCK_USRSOCK_TYPE, s_conn := 9 }, h⟩
  usrsock_bind := fun _ _ _ h => (0, h)
  tcp_bind := fun _ _ h => (0, h)
  udp_bind := fun _ _ h => (0, h)
  psock_local_bind := fun s _ _ h => ⟨0, s, h⟩
  psock_local_connect := fun s _ h => ⟨0, s, h⟩
  tcp_backlogcreate := fun _ _ h => (0, h)
  tcp_listen := fun _ h => (0, h)
  psock_tcp_accept := fun s a l _ h => ⟨0, s, a, l, 8, h⟩
  net_startmonitor := fun s h => ⟨0, s, h⟩
  psock_close := fun s h => ⟨0, s, h⟩
  psock_6lowpan_tcp_send := fun s _ l h => ⟨l, s, h⟩
  psock_tcp_send := fun s _ l h => ⟨l, s, h⟩
  psock_6lowpan_udp_send := fun s _ l h => ⟨l, s, h⟩
  psock_udp_send := fun s _ l h => ⟨l, s, h⟩
  usrsock_sendto := fun s _ l _ _ h => ⟨l, s, h⟩
  psock_6lowpan_udp_sendto := fun s _ l _ _ _ h => ⟨l, s, h⟩
  psock_udp_sendto := fun s _ l _ _ _ h => ⟨l, s, h⟩
  psock_local_send := fun s _ l _ h => ⟨l, s, h⟩
  psock_local_sendto := fun s _ l _ _ _ h => ⟨l, s, h⟩

/-- The collaborators `beOK` with every allocator out of structures. -/
def beNoMem : BackEnd :=
  { beOK with
    tcp_alloc := fun _ h => (0, h)
    udp_alloc := fun _ h => (0, h)
    local_alloc := fun h => (0, h) }

/-- The collaborators `beOK` with a provider that fails with the result `e`
and touches neither the socket nor the heap. -/
def beProvider (e : Int) : BackEnd :=
  { beOK with usrsock_socket := fun _ _ _ s h => ⟨e, s, h⟩ }

/-- A fresh IPv4 socket of the given type: no flags, no connection, interface
table 1. -/
def sockInet (type : Int) : Socket := ⟨refPlat.PF_INET, type, 0, 0, 1⟩

/-- A fresh local socket of the given type, interface table 2. -/
def sockLocal (type : Int) : Socket := ⟨1, type, 0, 0, 2⟩

/-- An IPv4 address record. -/
def addrV4 : Sockaddr := ⟨refPlat.AF_INET, [0, 80, 10, 0, 0, 1]⟩

/-- A local (Unix-domain) address record. -/
def addrLocal : Sockaddr := ⟨refPlat.AF_LOCAL, [47, 116, 109, 112]⟩

/-- An address record that carries only the "unspecified" family tag. -/
def addrUnspec : Sockaddr := ⟨refPlat.AF_UNSPEC, []⟩

/-- A network state in which every connection structure is referenced once
and bound to local port 80. -/
def netBound : Net := ⟨fun _ => ⟨1, 80⟩, 0, []⟩

/-- An IPv4 stream socket, marked bound, with the connection at address 7. -/
def sockBound : Socket := ⟨refPlat.PF_INET, refPlat.SOCK_STREAM, refPlat.SF_BOUND, 7, 1⟩

/-- A connected local datagram socket with the connection at address 7. -/
def sockLocalDgram : Socket :=
  ⟨1, refPlat.SOCK_DGRAM, refPlat.SF_CONNECTED, 7, 2⟩

/-- An output socket before `accept`: every field zero. -/
def sockBlank : Socket := ⟨0, 0, 0, 0, 0⟩

/-- The collaborators `beOK` with a backlog creation that fails with -12. -/
def beBacklogFail : BackEnd :=
  { beOK with tcp_backlogcreate := fun _ _ h => (-12, h) }

/-- The collaborators `beOK` with a `tcp_listen` that fails with -98. -/
def beListenFail : BackEnd :=
  { beOK with tcp_listen := fun _ h => (-98, h) }

/-- The collaborators `beOK` with a `psock_tcp_accept` that fails with -11. -/
def beAcceptFail : BackEnd :=
  { beOK with psock_tcp_accept := fun s a l c h => ⟨-11, s, a, l, c, h⟩ }

/-- The collaborators `beOK` with a `net_startmonitor` that fails with -107. -/
def beMonitorFail : BackEnd :=
  { beOK with net_startmonitor := fun s h => ⟨-107, s, h⟩ }

/-- The collaborators `beOK` with 6LoWPAN sends that fail with -101. -/
def be6loFail : BackEnd :=
  { beOK with
    psock_6lowpan_tcp_send := fun s _ _ h => ⟨-101, s, h⟩
    psock_6lowpan_udp_send := fun s _ _ h => ⟨-101, s, h⟩
    psock_6lowpan_udp_sendto := fun s _ _ _ _ _ h => ⟨-101, s, h⟩ }

/-- The build `cfgLocal` with TCP and UDP enabled but without their native
stacks. -/
def cfgNoStack : Config :=
  { cfgLocal with NET_TCP_HAVE_STACK := false, NET_UDP_HAVE_STACK := false }

/-- The build `cfgLocal` with the 6LoWPAN encoding next to the native stacks
(multi-NIC). -/
def cfg6lo : Config :=
  { cfgLocal with NET_6LOWPAN := true, NETDEV_MULTINIC := true }

/-! ## Statement vocabulary -/

/-- A connection structure has just been attached: the socket's connection
pointer is not `NULL`, it is the pointer returned by the last call made, that
call was to one of the allocators `allocs`, and the structure's reference
count is 1. -/
def AttachedFresh (allocs : List Fn) (r : Ret) : Prop :=
  r.psock.s_conn ≠ 0 ∧
  (∃ c, r.net.trace.getLast? = some c ∧ c.fn ∈ allocs ∧ c.ret = r.psock.s_conn) ∧
  (r.net.heap r.psock.s_conn).crefs = 1

/-- The two outcomes of setup: success with a freshly attached
connection structure, or a negative result. -/
def SetupOutcome (allocs : List Fn) (r : Ret) : Prop :=
  (r.ret = 0 ∧ AttachedFresh allocs r) ∨ r.ret < 0

/-- The address test of the inet dispatcher in the words of the
specification: the family tag is one of the dispatcher's families (of those
the build configures) and the length is at least that family's minimum. -/
def inetAddrOk (K : Plat) (cfg : Config) (family : Int) (len : Nat) : Prop :=
  (cfg.NET_IPv4 = true ∧ family = K.AF_INET ∧ K.sizeof_sockaddr_in ≤ len) ∨
  (cfg.NET_IPv6 = true ∧ family = K.AF_INET6 ∧ K.sizeof_sockaddr_in6 ≤ len)

/-- The address test of the local dispatcher in the words of the
specification: the family tag is `AF_LOCAL` and the length covers the tag. -/
def localAddrOk (K : Plat) (family : Int) (len : Nat) : Prop :=
  family = K.AF_LOCAL ∧ K.sizeof_sa_family_t ≤ len

/-- The precondition checks of `inet_accept` in the words of the
specification: the listening socket is a stream socket and, when an address
buffer is supplied, its declared capacity is at least the size of the address
structure of the socket's family. -/
def acceptChecksPass (K : Plat) (cfg : Config) (psock : Socket) (addr : Option Sockaddr)
    (addrlen : Nat) : Prop :=
  psock.s_type = K.SOCK_STREAM ∧
  (addr = none ∨
    (cfg.NET_IPv4 = true ∧ psock.s_domain = K.PF_INET ∧ K.sizeof_sockaddr_in ≤ addrlen) ∨
    (cfg.NET_IPv6 = true ∧ psock.s_domain = K.PF_INET6 ∧ K.sizeof_sockaddr_in6 ≤ addrlen))

/-- The output socket as `inet_accept` initialises it (lines 639-641) once
the connection `conn` has been stored through `&newsock->s_conn`. -/
def acceptedSocket (K : Plat) (psock newsock : Socket) (conn : Nat) : Socket :=
  { newsock with
    s_domain := psock.s_domain, s_type := K.SOCK_STREAM, s_sockif := psock.s_sockif,
    s_conn := conn }

/-- A stream socket whose connection structure has no bound local port
(`lport <= 0`), in the words of the specification a socket that was never
bound. -/
def unboundStream (K : Plat) (psock : Socket) (n : Net) : Prop :=
  psock.s_type = K.SOCK_STREAM ∧ psock.s_conn ≠ 0 ∧ (n.heap psock.s_conn).lport ≤ 0

/-- A stream socket whose connection structure has a bound local port. -/
def boundStream (K : Plat) (psock : Socket) (n : Net) : Prop :=
  psock.s_type = K.SOCK_STREAM ∧ psock.s_conn ≠ 0 ∧ 0 < (n.heap psock.s_conn).lport

/-- The critical section of `inet_accept` (lines 649-680), entered with the
output socket's family, type and interface table already set: `net_lock`,
`psock_tcp_accept`, then `net_startmonitor`, then `psock_close` after a failed
registration, and `net_unlock` on each of the three exits. -/
def inet_accept_locked (K : Plat) (B : BackEnd) (psock : Socket) (addr : Option Sockaddr)
    (addrlen : Nat) (newsock : Socket) (n : Net) : AcceptRet :=
  let a := B.psock_tcp_accept psock addr addrlen newsock.s_conn n.heap
  let ns := acceptedSocket K psock newsock a.conn
  let n2 := (net_lock n).called ⟨Fn.psock_tcp_accept, [addrlen], a.ret⟩ a.heap
  let m := B.net_startmonitor ns a.heap
  let n3 := n2.called ⟨Fn.net_startmonitor, [], m.ret⟩ m.heap
  let c := B.psock_close m.psock m.heap
  let n4 := n3.called ⟨Fn.psock_close, [], c.ret⟩ c.heap
  if a.ret < 0 then ⟨a.ret, a.psock, ns, a.addr, a.addrlen, net_unlock n2⟩
  else if m.ret < 0 then ⟨m.ret, a.psock, c.psock, a.addr, a.addrlen, net_unlock n4⟩
  else ⟨0, a.psock, m.psock, a.addr, a.addrlen, net_unlock n3⟩

/-- What `psock_tcp_accept` hands back when `inet_accept` calls it. -/
def acceptOut (B : BackEnd) (psock : Socket) (addr : Option Sockaddr) (addrlen : Nat)
    (newsock : Socket) (n : Net) : AcceptOut :=
  B.psock_tcp_accept psock addr addrlen newsock.s_conn n.heap

/-- What `net_startmonitor` hands back when `inet_accept` calls it on the
initialised output socket after `psock_tcp_accept`. -/
def monitorOut (K : Plat) (B : BackEnd) (psock : Socket) (addr : Option Sockaddr)
    (addrlen : Nat) (newsock : Socket) (n : Net) : Out :=
  B.net_startmonitor
    (acceptedSocket K psock newsock (acceptOut B psock addr addrlen newsock n).conn)
    (acceptOut B psock addr addrlen newsock n).heap

/-- What `psock_close` hands back when `inet_accept` calls it on the output
socket after a failed `net_startmonitor`. -/
def closeOut (K : Plat) (B : BackEnd) (psock : Socket) (addr : Option Sockaddr)
    (addrlen : Nat) (newsock : Socket) (n : Net) : Out :=
  B.psock_close (monitorOut K B psock addr addrlen newsock n).psock
    (monitorOut K B psock addr addrlen newsock n).heap

/-- Replay of a list of calls on the lock counter, from depth `d`: `net_lock`
adds one level, `net_unlock` removes one and is an error at depth 0, a call
of a function in `guarded` is an error at depth 0.  The result is the final
depth, or `none` after an error. -/
def lockReplay (guarded : List Fn) : Nat → List Call → Option Nat
  | d, [] => some d
  | d, c :: cs =>
    if c.fn = Fn.net_lock then lockReplay guarded (d + 1) cs
    else if c.fn = Fn.net_unlock then
      if d = 0 then none else lockReplay guarded (d - 1) cs
    else if c.fn ∈ guarded ∧ d = 0 then none
    else lockReplay guarded d cs

/-- The address validation of `inet_bind` (lines 345-370): `some e` when the
function returns `e` at this step, `none` when it goes on to the switch on the
socket type. -/
def inet_bind_validate (K : Plat) (cfg : Config) (addr : Sockaddr) (addrlen : Nat) :
    Option Int :=
  let minlen : Option Nat :=
    if cfg.NET_IPv4 = true ∧ addr.sa_family = K.AF_INET then some K.sizeof_sockaddr_in
    else if cfg.NET_IPv6 = true ∧ addr.sa_family = K.AF_INET6 then some K.sizeof_sockaddr_in6
    else none
  match minlen with
  | none => some (-K.EAFNOSUPPORT)
  | some minlen => if addrlen < minlen then some (-K.EBADF) else none

/-- The address validation of `inet_sendto` (lines 835-860), which runs for
every socket that is not of the external-provider type: `some e` when the
function returns `e` at this step, `none` when it goes on. -/
def inet_sendto_validate (K : Plat) (cfg : Config) (toaddr : Sockaddr) (tolen : Nat) :
    Option Int :=
  let minlen : Option Nat :=
    if cfg.NET_IPv4 = true ∧ toaddr.sa_family = K.AF_INET then some K.sizeof_sockaddr_in
    else if cfg.NET_IPv6 = true ∧ toaddr.sa_family = K.AF_INET6 then
      some K.sizeof_sockaddr_in6
    else none
  match minlen with
  | none => some (-K.EAFNOSUPPORT)
  | some minlen => if tolen < minlen then some (-K.EBADF) else none

/-- The address validation of `local_bind` (lines 209-216). -/
def local_bind_validate (K : Plat) (addr : Sockaddr) (addrlen : Nat) : Option Int :=
  if addr.sa_family ≠ K.AF_LOCAL ∨ addrlen < K.sizeof_sa_family_t then some (-K.EBADF)
  else none

/-- The address validation of `local_sendto` (lines 419-426). -/
def local_sendto_validate (K : Plat) (toaddr : Sockaddr) (tolen : Nat) : Option Int :=
  if toaddr.sa_family ≠ K.AF_LOCAL ∨ tolen < K.sizeof_sa_family_t then
    some (-K.EAFNOSUPPORT)
  else none

/-- The `switch (psock->s_type)` of `inet_bind` (lines 372-441): what the
function does once the address has passed validation. -/
def inet_bind_switch (K : Plat) (cfg : Config) (B : BackEnd)
    (psock : Socket) (addr : Sockaddr) (addrlen : Nat) (n : Net) : Ret :=
  if cfg.NET_USRSOCK = true ∧ psock.s_type = K.SOCK_USRSOCK_TYPE then
    let o := B.usrsock_bind psock.s_conn addr addrlen n.heap
    ⟨o.1, psock, n.called ⟨Fn.usrsock_bind, [psock.s_conn, addr.sa_family, addrlen], o.1⟩ o.2⟩
  else if cfg.NET_TCP = true ∧ psock.s_type = K.SOCK_STREAM then
    if cfg.NET_TCP_HAVE_STACK then
      let o := B.tcp_bind psock.s_conn addr n.heap
      ⟨o.1,
        if o.1 ≥ 0 then { psock with s_flags := psock.s_flags ||| K.SF_BOUND } else psock,
        n.called ⟨Fn.tcp_bind, [psock.s_conn, addr.sa_family], o.1⟩ o.2⟩
    else
      ⟨-K.ENOSYS, psock, n⟩
  else if cfg.NET_UDP = true ∧ psock.s_type = K.SOCK_DGRAM then
    if cfg.NET_UDP_HAVE_STACK then
      let o := B.udp_bind psock.s_conn addr n.heap
      ⟨o.1,
        if o.1 ≥ 0 then { psock with s_flags := psock.s_flags ||| K.SF_BOUND } else psock,
        n.called ⟨Fn.udp_bind, [psock.s_conn, addr.sa_family], o.1⟩ o.2⟩
    else
      ⟨-K.ENOSYS, psock, n⟩
  else
    ⟨-K.EBADF, psock, n⟩

/-- The part of `inet_sendto` after the address validation (lines 862-895): the
test of the socket type and the send. -/
def inet_sendto_switch (K : Plat) (cfg : Config) (B : BackEnd)
    (psock : Socket) (buf : List Nat) (len : Nat) (flags : Int)
    (toaddr : Sockaddr) (tolen : Nat) (n : Net) : Ret :=
  if cfg.NET_UDP then
    if psock.s_type ≠ K.SOCK_DGRAM then
      ⟨-K.EBADF, psock, n⟩
    else if cfg.NET_6LOWPAN then
      let o := B.psock_6lowpan_udp_sendto psock buf len flags toaddr tolen n.heap
      let n1 := n.called ⟨Fn.psock_6lowpan_udp_sendto, [len, flags, toaddr.sa_family, tolen], o.ret⟩ o.heap
      if cfg.NETDEV_MULTINIC = true ∧ cfg.NET_UDP_HAVE_STACK = true ∧ o.ret < 0 then
        let o2 := B.psock_udp_sendto o.psock buf len flags toaddr tolen n1.heap
        ⟨o2.ret, o2.psock,
          n1.called ⟨Fn.psock_udp_sendto, [len, flags, toaddr.sa_family, tolen], o2.ret⟩ o2.heap⟩
      else
        ⟨o.ret, o.psock, n1⟩
    else if cfg.NET_UDP_HAVE_STACK then
      let o := B.psock_udp_sendto psock buf len flags toaddr tolen n.heap
      ⟨o.ret, o.psock,
        n.called ⟨Fn.psock_udp_sendto, [len, flags, toaddr.sa_family, tolen], o.ret⟩ o.heap⟩
    else
      ⟨-K.ENOSYS, psock, n⟩
  else
    ⟨-K.EISCONN, psock, n⟩

/-- The `switch (psock->s_type)` of `local_bind` (lines 218-252), with the
readings of lines 224 and 234 given at `local_bind`. -/
def local_bind_switch (K : Plat) (cfg : Config) (B : BackEnd)
    (psock : Socket) (addr : Sockaddr) (addrlen : Nat) (n : Net) : Ret :=
  if cfg.NET_UDP = true ∧
      ((cfg.NET_TCP = true ∧ psock.s_type = K.SOCK_STREAM) ∨
       (cfg.NET_UDP = true ∧ psock.s_type = K.SOCK_DGRAM)) then
    let o := B.psock_local_bind psock addr addrlen n.heap
    ⟨o.ret,
      if o.ret ≥ 0 then { o.psock with s_flags := o.psock.s_flags ||| K.SF_BOUND } else o.psock,
      n.called ⟨Fn.psock_local_bind, [addr.sa_family, addrlen], o.ret⟩ o.heap⟩
  else
    ⟨-K.EBADF, psock, n⟩

/-- The part of `local_sendto` after the address validation (lines 428-444). -/
def local_sendto_switch (K : Plat) (cfg : Config) (B : BackEnd)
    (psock : Socket) (buf : List Nat) (len : Nat) (flags : Int)
    (toaddr : Sockaddr) (tolen : Nat) (n : Net) : Ret :=
  if cfg.NET_UDP then
    if psock.s_type ≠ K.SOCK_DGRAM then
      ⟨-K.EISCONN, psock, n⟩
    else
      let o := B.psock_local_sendto psock buf len flags toaddr tolen n.heap
      ⟨o.ret, o.psock,
        n.called ⟨Fn.psock_local_sendto, [len, flags, toaddr.sa_family, tolen], o.ret⟩ o.heap⟩
  else
    ⟨-K.EISCONN, psock, n⟩

/-- Frame condition on the collaborators that receive a socket pointer: none
of them writes the socket's interface-table reference `s_sockif`. -/
def keepsSockif (B : BackEnd) : Prop :=
  (∀ d t p s h, (B.usrsock_socket d t p s h).psock.s_sockif = s.s_sockif) ∧
  (∀ s a l h, (B.psock_local_bind s a l h).psock.s_sockif = s.s_sockif) ∧
  (∀ s a h, (B.psock_local_connect s a h).psock.s_sockif = s.s_sockif) ∧
  (∀ s a l c h, (B.psock_tcp_accept s a l c h).psock.s_sockif = s.s_sockif) ∧
  (∀ s h, (B.net_startmonitor s h).psock.s_sockif = s.s_sockif) ∧
  (∀ s h, (B.psock_close s h).psock.s_sockif = s.s_sockif) ∧
  (∀ s b l h, (B.psock_6lowpan_tcp_send s b l h).psock.s_sockif = s.s_sockif) ∧
  (∀ s b l h, (B.psock_tcp_send s b l h).psock.s_sockif = s.s_sockif) ∧
  (∀ s b l h, (B.psock_6lowpan_udp_send s b l h).psock.s_sockif = s.s_sockif) ∧
  (∀ s b l h, (B.psock_udp_send s b l h).psock.s_sockif = s.s_sockif) ∧
  (∀ s b l a t h, (B.usrsock_sendto s b l a t h).psock.s_sockif = s.s_sockif) ∧
  (∀ s b l f a t h, (B.psock_6lowpan_udp_sendto s b l f a t h).psock.s_sockif = s.s_sockif) ∧
  (∀ s b l f a t h, (B.psock_udp_sendto s b l f a t h).psock.s_sockif = s.s_sockif) ∧
  (∀ s b l f h, (B.psock_local_send s b l f h).psock.s_sockif = s.s_sockif) ∧
  (∀ s b l f a t h, (B.psock_local_sendto s b l f a t h).psock.s_sockif = s.s_sockif)

/-! ## `arch/arm/src/sama5/chip/sam_sfr.h`: register bit fields

The register values are of type `uint32_t`: natural numbers below `2 ^ 32`.
The macros of the UTMI trimming registers are compiled under `ATSAMA5D4`; each
one is given here as what it expands to when it is compiled. -/

/-- Conversion to `uint32_t`. -/
def u32 (x : Nat) : Nat := x % 2 ^ 32

/-- The C operator `<<` on 32-bit operands. -/
def shl32 (x s : Nat) : Nat := u32 (x <<< s)

/-- The C operator `~` on a 32-bit operand. -/
def not32 (x : Nat) : Nat := (2 ^ 32 - 1) ^^^ u32 x

/-- Line 141. -/
def SFR_UTMIHSTRIM_SQUELCH_SHIFT : Nat := 0

/-- Line 142. -/
def SFR_UTMIHSTRIM_SQUELCH_MASK : Nat := shl32 7 SFR_UTMIHSTRIM_SQUELCH_SHIFT

/-- Line 143. -/
def SFR_UTMIHSTRIM_SQUELCH (n : Nat) : Nat := shl32 (u32 n) SFR_UTMIHSTRIM_SQUELCH_SHIFT

/-- Line 144. -/
def SFR_UTMIHSTRIM_DISC_SHIFT : Nat := 4

/-- Line 145. -/
def SFR_UTMIHSTRIM_DISC_MASK : Nat := shl32 7 SFR_UTMIHSTRIM_DISC_SHIFT

/-- Line 146. -/
def SFR_UTMIHSTRIM_DISC (n : Nat) : Nat := shl32 (u32 n) SFR_UTMIHSTRIM_DISC_SHIFT

/-- Line 147. -/
def SFR_UTMIHSTRIM_SLOPE0_SHIFT : Nat := 8

/-- Line 148. -/
def SFR_UTMIHSTRIM_SLOPE0_MASK : Nat := shl32 7 SFR_UTMIHSTRIM_SLOPE0_SHIFT

/-- Line 149. -/
def SFR_UTMIHSTRIM_SLOPE0 (n : Nat) : Nat := shl32 (u32 n) SFR_UTMIHSTRIM_SLOPE0_SHIFT

/-- Line 150. -/
def SFR_UTMIHSTRIM_SLOPE1_SHIFT : Nat := 12

/-- Line 151. -/
def SFR_UTMIHSTRIM_SLOPE1_MASK : Nat := shl32 7 SFR_UTMIHSTRIM_SLOPE1_SHIFT

/-- Line 152. -/
def SFR_UTMIHSTRIM_SLOPE1 (n : Nat) : Nat := shl32 (u32 n) SFR_UTMIHSTRIM_SLOPE1_SHIFT

/-- Line 153. -/
def SFR_UTMIHSTRIM_SLOPE2_SHIFT : Nat := 16

/-- Line 154. -/
def SFR_UTMIHSTRIM_SLOPE2_MASK : Nat := shl32 7 SFR_UTMIHSTRIM_SLOPE2_SHIFT

/-- Line 155. -/
def SFR_UTMIHSTRIM_SLOPE2 (n : Nat) : Nat := shl32 (u32 n) SFR_UTMIHSTRIM_SLOPE2_SHIFT

/-- Line 161, commented "Bits 0-2". -/
def SFR_UTMIFSTRIM_RISE_SHIFT : Nat := 0

/-- Line 162: `(7 << SFR_UTMIHSTRIM_SLOPE2_SHIFT)`. -/
def SFR_UTMIFSTRIM_RISE_MASK : Nat := shl32 7 SFR_UTMIHSTRIM_SLOPE2_SHIFT

/-- Line 163: `((uint32_t)(n) << SFR_UTMIHSTRIM_SLOPE2_SHIFT)`. -/
def SFR_UTMIFSTRIM_RISE (n : Nat) : Nat := shl32 (u32 n) SFR_UTMIHSTRIM_SLOPE2_SHIFT

/-- Line 164, commented "Bits 4-6". -/
def SFR_UTMIFSTRIM_FALL_SHIFT : Nat := 4

/-- Line 165: `(7 << SFR_UTMIHSTRIM_SLOPE2_SHIFT)`. -/
def SFR_UTMIFSTRIM_FALL_MASK : Nat := shl32 7 SFR_UTMIHSTRIM_SLOPE2_SHIFT

/-- Line 166: `((uint32_t)(n) << SFR_UTMIHSTRIM_SLOPE2_SHIFT)`. -/
def SFR_UTMIFSTRIM_FALL (n : Nat) : Nat := shl32 (u32 n) SFR_UTMIHSTRIM_SLOPE2_SHIFT

/-- Line 167, commented "Bits 8-9". -/
def SFR_UTMIFSTRIM_XCVR_SHIFT : Nat := 8

/-- Line 168: `(3 << SFR_UTMIHSTRIM_SLOPE2_SHIFT)`. -/
def SFR_UTMIFSTRIM_XCVR_MASK : Nat := shl32 3 SFR_UTMIHSTRIM_SLOPE2_SHIFT

/-- Line 169: `((uint32_t)(n) << SFR_UTMIHSTRIM_SLOPE2_SHIFT)`. -/
def SFR_UTMIFSTRIM_XCVR (n : Nat) : Nat := shl32 (u32 n) SFR_UTMIHSTRIM_SLOPE2_SHIFT

/-- Line 170, commented "Bits 16-18". -/
def SFR_UTMIFSTRIM_ZN_SHIFT : Nat := 16

/-- Line 171: `(7 << SFR_UTMIHSTRIM_SLOPE2_SHIFT)`. -/
def SFR_UTMIFSTRIM_ZN_MASK : Nat := shl32 7 SFR_UTMIHSTRIM_SLOPE2_SHIFT

/-- Line 172: `((uint32_t)(n) << SFR_UTMIHSTRIM_SLOPE2_SHIFT)`. -/
def SFR_UTMIFSTRIM_ZN (n : Nat) : Nat := shl32 (u32 n) SFR_UTMIHSTRIM_SLOPE2_SHIFT

/-- Line 173, commented "Bits 20-22". -/
def SFR_UTMIFSTRIM_ZP_SHIFT : Nat := 20

/-- Line 174: `(7 << SFR_UTMIHSTRIM_SLOPE2_SHIFT)`. -/
def SFR_UTMIFSTRIM_ZP_MASK : Nat := shl32 7 SFR_UTMIHSTRIM_SLOPE2_SHIFT

/-- Line 175: `((uint32_t)(n) << SFR_UTMIHSTRIM_SLOPE2_SHIFT)`. -/
def SFR_UTMIFSTRIM_ZP (n : Nat) : Nat := shl32 (u32 n) SFR_UTMIHSTRIM_SLOPE2_SHIFT

/-- Line 196. -/
def SFR_EBICFG_DRIVE0_SHIFT : Nat := 0

/-- Line 197. -/
def SFR_EBICFG_DRIVE0_MASK : Nat := shl32 3 SFR_EBICFG_DRIVE0_SHIFT

/-- Line 198: `((n) << SFR_EBICFG_DRIVE0_SHIFT)`.  The macro has no cast; the
argument is read as a 32-bit value. -/
def SFR_EBICFG_DRIVE0 (n : Nat) : Nat := shl32 (u32 n) SFR_EBICFG_DRIVE0_SHIFT

/-- Line 199. -/
def SFR_EBICFG_PULL0_SHIFT : Nat := 2

/-- Line 200. -/
def SFR_EBICFG_PULL0_MASK : Nat := shl32 3 SFR_EBICFG_PULL0_SHIFT

/-- Line 201, with the argument read as for `SFR_EBICFG_DRIVE0`. -/
def SFR_EBICFG_PULL0 (n : Nat) : Nat := shl32 (u32 n) SFR_EBICFG_PULL0_SHIFT

/-- Line 202: `(1 << 4)`. -/
def SFR_EBICFG_SCH0 : Nat := shl32 1 4

/-- Line 203. -/
def SFR_EBICFG_DRIVE1_SHIFT : Nat := 8

/-- Line 204. -/
def SFR_EBICFG_DRIVE1_MASK : Nat := shl32 3 SFR_EBICFG_DRIVE1_SHIFT

/-- Line 205, with the argument read as for `SFR_EBICFG_DRIVE0`. -/
def SFR_EBICFG_DRIVE1 (n : Nat) : Nat := shl32 (u32 n) SFR_EBICFG_DRIVE1_SHIFT

/-- Line 206. -/
def SFR_EBICFG_PULL1_SHIFT : Nat := 10

/-- Line 207. -/
def SFR_EBICFG_PULL1_MASK : Nat := shl32 3 SFR_EBICFG_PULL1_SHIFT

/-- Line 208, with the argument read as for `SFR_EBICFG_DRIVE0`. -/
def SFR_EBICFG_PULL1 (n : Nat) : Nat := shl32 (u32 n) SFR_EBICFG_PULL1_SHIFT

/-- Line 209: `(1 << 12)`. -/
def SFR_EBICFG_SCH1 : Nat := shl32 1 12

/-! ## Lemmas -/

theorem lor_land_self_right (a b : Nat) : (a ||| b) &&& b = b := by
  apply Nat.eq_of_testBit_eq
  intro i
  simp only [Nat.testBit_land, Nat.testBit_lor]
  cases a.testBit i <;> cases b.testBit i <;> rfl

theorem inet_tcp_alloc_fail (K : Plat) (B : BackEnd) (psock : Socket) (n : Net)
    (h : (B.tcp_alloc psock.s_domain n.heap).1 = 0) :
    inet_tcp_alloc K B psock n =
      ⟨-K.ENOMEM, psock,
        n.called ⟨Fn.tcp_alloc, [psock.s_domain], 0⟩ (B.tcp_alloc psock.s_domain n.heap).2⟩ := by
  simp [inet_tcp_alloc, h]

theorem inet_udp_alloc_fail (K : Plat) (B : BackEnd) (psock : Socket) (n : Net)
    (h : (B.udp_alloc psock.s_domain n.heap).1 = 0) :
    inet_udp_alloc K B psock n =
      ⟨-K.ENOMEM, psock,
        n.called ⟨Fn.udp_alloc, [psock.s_domain], 0⟩ (B.udp_alloc psock.s_domain n.heap).2⟩ := by
  simp [inet_udp_alloc, h]

theorem local_sockif_alloc_fail (K : Plat) (B : BackEnd) (psock : Socket) (n : Net)
    (h : (B.local_alloc n.heap).1 = 0) :
    local_sockif_alloc K B psock n =
      ⟨-K.ENOMEM, psock, n.called ⟨Fn.local_alloc, [], 0⟩ (B.local_alloc n.heap).2⟩ := by
  simp [local_sockif_alloc, h]

theorem inet_tcp_alloc_outcome (K : Plat) (B : BackEnd) (psock : Socket) (n : Net)
    (hK : 0 < K.ENOMEM) :
    SetupOutcome [Fn.tcp_alloc, Fn.udp_alloc] (inet_tcp_alloc K B psock n) := by
  by_cases h : (B.tcp_alloc psock.s_domain n.heap).1 = 0
  · right
    rw [inet_tcp_alloc_fail K B psock n h]
    simpa using hK
  · left
    simp [AttachedFresh, inet_tcp_alloc, Net.called, heap_set, h]

theorem inet_udp_alloc_outcome (K : Plat) (B : BackEnd) (psock : Socket) (n : Net)
    (hK : 0 < K.ENOMEM) :
    SetupOutcome [Fn.tcp_alloc, Fn.udp_alloc] (inet_udp_alloc K B psock n) := by
  by_cases h : (B.udp_alloc psock.s_domain n.heap).1 = 0
  · right
    rw [inet_udp_alloc_fail K B psock n h]
    simpa using hK
  · left
    simp [AttachedFresh, inet_udp_alloc, Net.called, heap_set, h]

theorem local_sockif_alloc_outcome (K : Plat) (B : BackEnd) (psock : Socket) (n : Net)
    (hK : 0 < K.ENOMEM) :
    SetupOutcome [Fn.local_alloc] (local_sockif_alloc K B psock n) := by
  by_cases h : (B.local_alloc n.heap).1 = 0
  · right
    rw [local_sockif_alloc_fail K B psock n h]
    simpa using hK
  · left
    simp [AttachedFresh, local_sockif_alloc, Net.called, heap_set, h]

theorem inet_setup_switch_outcome (K : Plat) (cfg : Config) (B : BackEnd) (psock : Socket)
    (protocol : Int) (n : Net) (hK : K.errnoPos) :
    SetupOutcome [Fn.tcp_alloc, Fn.udp_alloc] (inet_setup_switch K cfg B psock protocol n) := by
  obtain ⟨h1, h2, h3, -⟩ := hK
  unfold inet_setup_switch
  split_ifs
  all_goals first
    | exact inet_tcp_alloc_outcome K B psock n h1
    | exact inet_udp_alloc_outcome K B psock n h1
    | (right; simpa using h3)
    | (right; simpa using h2)

/-- The provider prelude of `inet_setup` never returns by itself: whatever
`usrsock_socket_setup` returns, `inet_setup` continues with the `switch` on
the socket that `usrsock_socket_setup` left. -/
theorem inet_setup_falls_through (K : Plat) (cfg : Config) (B : BackEnd) (psock : Socket)
    (protocol : Int) (n : Net) (hE : 0 < K.ENETDOWN) (hU : cfg.NET_USRSOCK = true) :
    inet_setup K cfg B psock protocol n =
      inet_setup_switch K cfg B
        (usrsock_socket_setup K cfg B psock.s_domain psock.s_type protocol psock n).psock protocol
        (usrsock_socket_setup K cfg B psock.s_domain psock.s_type protocol psock n).net := by
  have hne : -K.ENETDOWN ≠ 0 := by omega
  simp [inet_setup, hU, hne]

theorem inet_setup_no_provider (K : Plat) (cfg : Config) (B : BackEnd) (psock : Socket)
    (protocol : Int) (n : Net) (hU : cfg.NET_USRSOCK = false) :
    inet_setup K cfg B psock protocol n = inet_setup_switch K cfg B psock protocol n := by
  simp [inet_setup, hU]

/-! ## Claims -/

/-- C1: for every socket and protocol, `inet_setup` and `local_setup` have
exactly two outcomes: they return 0 and then the socket's connection pointer is
the non-null pointer just returned by the allocator (the last call made) and
that structure's reference count is 1, or they return a negative value. -/
theorem setup_success_or_negative (K : Plat) (cfg : Config) (B : BackEnd) (psock : Socket)
    (protocol : Int) (n : Net) (hK : K.errnoPos) :
    SetupOutcome [Fn.tcp_alloc, Fn.udp_alloc] (inet_setup K cfg B psock protocol n) ∧
    SetupOutcome [Fn.local_alloc] (local_setup K cfg B psock protocol n) := by
  constructor
  · cases hU : cfg.NET_USRSOCK
    · rw [inet_setup_no_provider K cfg B psock protocol n hU]
      exact inet_setup_switch_outcome K cfg B psock protocol n hK
    · rw [inet_setup_falls_through K cfg B psock protocol n hK.2.1 hU]
      exact inet_setup_switch_outcome K cfg B _ protocol _ hK
  · obtain ⟨h1, h2, h3, -⟩ := hK
    unfold local_setup
    split_ifs
    all_goals first
      | exact local_sockif_alloc_outcome K B psock n h1
      | (right; simpa using h3)

theorem setup_success_or_negative_witness :
    refPlat.errnoPos ∧
    (SetupOutcome [Fn.tcp_alloc, Fn.udp_alloc]
        (inet_setup refPlat cfgLocal beOK (sockInet 1) 0 net0) ∧
      SetupOutcome [Fn.local_alloc] (local_setup refPlat cfgLocal beOK (sockInet 1) 0 net0)) :=
  ⟨by decide, setup_success_or_negative refPlat cfgLocal beOK (sockInet 1) 0 net0 (by decide)⟩

/-- C2: in a build without the external provider, `inet_setup` on a stream
socket goes on to the allocation step exactly when the protocol is 0 or
`IPPROTO_TCP`, and on a datagram socket exactly when it is 0 or `IPPROTO_UDP`;
so does `local_setup`.  With any other protocol number the result is
`-EPROTONOSUPPORT` and the socket (its connection pointer included) and the
network state (the call trace included: no allocator call) are unchanged. -/
theorem setup_protocol_check (K : Plat) (cfg : Config) (B : BackEnd) (psock : Socket)
    (protocol : Int) (n : Net) (hL : K.SOCK_STREAM ≠ K.SOCK_DGRAM) :
    (cfg.NET_TCP = true → psock.s_type = K.SOCK_STREAM →
      ((protocol = 0 ∨ protocol = K.IPPROTO_TCP) →
        (cfg.NET_USRSOCK = false → inet_setup K cfg B psock protocol n =
          if cfg.NET_TCP_HAVE_STACK = true then inet_tcp_alloc K B psock n
          else ⟨-K.ENETDOWN, psock, n⟩) ∧
        local_setup K cfg B psock protocol n = local_sockif_alloc K B psock n) ∧
      (¬(protocol = 0 ∨ protocol = K.IPPROTO_TCP) →
        (cfg.NET_USRSOCK = false →
          inet_setup K cfg B psock protocol n = ⟨-K.EPROTONOSUPPORT, psock, n⟩) ∧
        local_setup K cfg B psock protocol n = ⟨-K.EPROTONOSUPPORT, psock, n⟩)) ∧
    (cfg.NET_UDP = true → psock.s_type = K.SOCK_DGRAM →
      ((protocol = 0 ∨ protocol = K.IPPROTO_UDP) →
        (cfg.NET_USRSOCK = false → inet_setup K cfg B psock protocol n =
          if cfg.NET_UDP_HAVE_STACK = true then inet_udp_alloc K B psock n
          else ⟨-K.ENETDOWN, psock, n⟩) ∧
        local_setup K cfg B psock protocol n = local_sockif_alloc K B psock n) ∧
      (¬(protocol = 0 ∨ protocol = K.IPPROTO_UDP) →
        (cfg.NET_USRSOCK = false →
          inet_setup K cfg B psock protocol n = ⟨-K.EPROTONOSUPPORT, psock, n⟩) ∧
        local_setup K cfg B psock protocol n = ⟨-K.EPROTONOSUPPORT, psock, n⟩)) := by
  refine ⟨fun hT hS => ⟨fun hp => ⟨fun hU => ?_, ?_⟩, fun hp => ⟨fun hU => ?_, ?_⟩⟩,
    fun hD hS => ⟨fun hp => ⟨fun hU => ?_, ?_⟩, fun hp => ⟨fun hU => ?_, ?_⟩⟩⟩
  · rw [inet_setup_no_provider K cfg B psock protocol n hU]
    rcases hp with hp | hp <;> simp [inet_setup_switch, hT, hS, hp]
  · rcases hp with hp | hp <;> simp [local_setup, hT, hS, hp]
  · rw [inet_setup_no_provider K cfg B psock protocol n hU]
    push_neg at hp
    simp [inet_setup_switch, hT, hS, hp.1, hp.2]
  · push_neg at hp
    simp [local_setup, hT, hS, hp.1, hp.2]
  · rw [inet_setup_no_provider K cfg B psock protocol n hU]
    rcases hp with hp | hp <;> simp [inet_setup_switch, hD, hS, hp, hL.symm]
  · rcases hp with hp | hp <;> simp [local_setup, hD, hS, hp, hL.symm]
  · rw [inet_setup_no_provider K cfg B psock protocol n hU]
    push_neg at hp
    simp [inet_setup_switch, hD, hS, hp.1, hp.2, hL.symm]
  · push_neg at hp
    simp [local_setup, hD, hS, hp.1, hp.2, hL.symm]

theorem setup_protocol_check_witness :
    refPlat.SOCK_STREAM ≠ refPlat.SOCK_DGRAM ∧
    inet_setup refPlat cfgLocal beOK (sockInet 1) 99 net0 =
      ⟨-refPlat.EPROTONOSUPPORT, sockInet 1, net0⟩ ∧
    local_setup refPlat cfgLocal beOK (sockInet 1) 99 net0 =
      ⟨-refPlat.EPROTONOSUPPORT, sockInet 1, net0⟩ ∧
    inet_setup refPlat cfgLocal beOK (sockInet 2) 17 net0 =
      inet_udp_alloc refPlat beOK (sockInet 2) net0 :=
  have h := setup_protocol_check refPlat cfgLocal beOK (sockInet 1) 99 net0 (by decide)
  have g := setup_protocol_check refPlat cfgLocal beOK (sockInet 2) 17 net0 (by decide)
  ⟨by decide, ((h.1 rfl rfl).2 (by decide)).1 rfl, ((h.1 rfl rfl).2 (by decide)).2,
    ((g.2 rfl rfl).1 (by decide)).1 rfl⟩

/-- C3 (as amended): for every socket whose type is neither stream nor
datagram, `inet_setup` (in a build without the external provider) and
`local_setup` return `-EPROTONOSUPPORT` and leave the socket and the network
state unchanged: the very value returned for a bad protocol number on a
supported type. -/
theorem setup_unsupported_type (K : Plat) (cfg : Config) (B : BackEnd) (psock : Socket)
    (protocol : Int) (n : Net)
    (hS : psock.s_type ≠ K.SOCK_STREAM) (hD : psock.s_type ≠ K.SOCK_DGRAM) :
    (cfg.NET_USRSOCK = false →
      inet_setup K cfg B psock protocol n = ⟨-K.EPROTONOSUPPORT, psock, n⟩) ∧
    local_setup K cfg B psock protocol n = ⟨-K.EPROTONOSUPPORT, psock, n⟩ := by
  constructor
  · intro hU
    rw [inet_setup_no_provider K cfg B psock protocol n hU]
    simp [inet_setup_switch, hS, hD]
  · simp [local_setup, hS, hD]

theorem setup_unsupported_type_witness :
    (sockInet 3).s_type ≠ refPlat.SOCK_STREAM ∧ (sockInet 3).s_type ≠ refPlat.SOCK_DGRAM ∧
    inet_setup refPlat cfgLocal beOK (sockInet 3) 0 net0 =
      ⟨-refPlat.EPROTONOSUPPORT, sockInet 3, net0⟩ ∧
    local_setup refPlat cfgLocal beOK (sockInet 3) 0 net0 =
      ⟨-refPlat.EPROTONOSUPPORT, sockInet 3, net0⟩ :=
  have h := setup_unsupported_type refPlat cfgLocal beOK (sockInet 3) 0 net0
    (by decide) (by decide)
  ⟨by decide, by decide, h.1 rfl, h.2⟩

/-- C3 (counterexample): a socket of type 3 (`SOCK_RAW`), neither stream nor
datagram: `inet_setup` and `local_setup` return `-EPROTONOSUPPORT` (-93), not
`-EPFNOSUPPORT` (-96). -/
theorem setup_unsupported_type_not_EPFNOSUPPORT :
    (sockInet 3).s_type ≠ refPlat.SOCK_STREAM ∧ (sockInet 3).s_type ≠ refPlat.SOCK_DGRAM ∧
    (inet_setup refPlat cfgLocal beOK (sockInet 3) 0 net0).ret = -refPlat.EPROTONOSUPPORT ∧
    (inet_setup refPlat cfgLocal beOK (sockInet 3) 0 net0).ret ≠ -refPlat.EPFNOSUPPORT ∧
    (local_setup refPlat cfgLocal beOK (sockLocal 3) 0 net0).ret = -refPlat.EPROTONOSUPPORT ∧
    (local_setup refPlat cfgLocal beOK (sockLocal 3) 0 net0).ret ≠ -refPlat.EPFNOSUPPORT := by
  decide

/-- C4: for a supported (type, protocol) pair whose allocator returns `NULL`,
`inet_setup` (in a build without the external provider and with the native
stack) and `local_setup` return `-ENOMEM`, leave the socket unchanged, and the
trace grows by exactly one call, the allocator's: there is no second attempt. -/
theorem setup_alloc_failure (K : Plat) (cfg : Config) (B : BackEnd) (psock : Socket)
    (protocol : Int) (n : Net) (hL : K.SOCK_STREAM ≠ K.SOCK_DGRAM) :
    (cfg.NET_TCP = true → psock.s_type = K.SOCK_STREAM →
      (protocol = 0 ∨ protocol = K.IPPROTO_TCP) →
      (cfg.NET_USRSOCK = false → cfg.NET_TCP_HAVE_STACK = true →
        (B.tcp_alloc psock.s_domain n.heap).1 = 0 →
        inet_setup K cfg B psock protocol n =
          ⟨-K.ENOMEM, psock,
            ⟨(B.tcp_alloc psock.s_domain n.heap).2, n.lock,
              n.trace ++ [⟨Fn.tcp_alloc, [psock.s_domain], 0⟩]⟩⟩) ∧
      ((B.local_alloc n.heap).1 = 0 →
        local_setup K cfg B psock protocol n =
          ⟨-K.ENOMEM, psock,
            ⟨(B.local_alloc n.heap).2, n.lock, n.trace ++ [⟨Fn.local_alloc, [], 0⟩]⟩⟩)) ∧
    (cfg.NET_UDP = true → psock.s_type = K.SOCK_DGRAM →
      (protocol = 0 ∨ protocol = K.IPPROTO_UDP) →
      (cfg.NET_USRSOCK = false → cfg.NET_UDP_HAVE_STACK = true →
        (B.udp_alloc psock.s_domain n.heap).1 = 0 →
        inet_setup K cfg B psock protocol n =
          ⟨-K.ENOMEM, psock,
            ⟨(B.udp_alloc psock.s_domain n.heap).2, n.lock,
              n.trace ++ [⟨Fn.udp_alloc, [psock.s_domain], 0⟩]⟩⟩) ∧
      ((B.local_alloc n.heap).1 = 0 →
        local_setup K cfg B psock protocol n =
          ⟨-K.ENOMEM, psock,
            ⟨(B.local_alloc n.heap).2, n.lock, n.trace ++ [⟨Fn.local_alloc, [], 0⟩]⟩⟩)) := by
  refine ⟨fun hT hS hp => ⟨fun hU hH ha => ?_, fun ha => ?_⟩,
    fun hD hS hp => ⟨fun hU hH ha => ?_, fun ha => ?_⟩⟩
  · have e : inet_setup K cfg B psock protocol n = inet_tcp_alloc K B psock n := by
      rw [inet_setup_no_provider K cfg B psock protocol n hU]
      rcases hp with hp | hp <;> simp [inet_setup_switch, hT, hS, hp, hH]
    rw [e, inet_tcp_alloc_fail K B psock n ha]
    rfl
  · have e : local_setup K cfg B psock protocol n = local_sockif_alloc K B psock n := by
      rcases hp with hp | hp <;> simp [local_setup, hT, hS, hp]
    rw [e, local_sockif_alloc_fail K B psock n ha]
    rfl
  · have e : inet_setup K cfg B psock protocol n = inet_udp_alloc K B psock n := by
      rw [inet_setup_no_provider K cfg B psock protocol n hU]
      rcases hp with hp | hp <;> simp [inet_setup_switch, hD, hS, hp, hH, hL.symm]
    rw [e, inet_udp_alloc_fail K B psock n ha]
    rfl
  · have e : local_setup K cfg B psock protocol n = local_sockif_alloc K B psock n := by
      rcases hp with hp | hp <;> simp [local_setup, hD, hS, hp, hL.symm]
    rw [e, local_sockif_alloc_fail K B psock n ha]
    rfl

theorem setup_alloc_failure_witness :
    refPlat.SOCK_STREAM ≠ refPlat.SOCK_DGRAM ∧
    (beNoMem.tcp_alloc (sockInet 1).s_domain net0.heap).1 = 0 ∧
    (beNoMem.local_alloc net0.heap).1 = 0 ∧
    inet_setup refPlat cfgLocal beNoMem (sockInet 1) 0 net0 =
      ⟨-refPlat.ENOMEM, sockInet 1, ⟨heap0, 0, [⟨Fn.tcp_alloc, [2], 0⟩]⟩⟩ ∧
    local_setup refPlat cfgLocal beNoMem (sockInet 1) 0 net0 =
      ⟨-refPlat.ENOMEM, sockInet 1, ⟨heap0, 0, [⟨Fn.local_alloc, [], 0⟩]⟩⟩ :=
  have h := (setup_alloc_failure refPlat cfgLocal beNoMem (sockInet 1) 0 net0 (by decide)).1
    rfl rfl (Or.inl rfl)
  ⟨by decide, rfl, rfl, h.1 rfl rfl rfl, h.2 rfl⟩

/-- What `usrsock_socket_setup` does when it consults the provider: an INET or
INET6 request of a type the provider is configured for. -/
theorem usrsock_socket_setup_consulted (K : Plat) (cfg : Config) (B : BackEnd)
    (domain type protocol : Int) (psock : Socket) (n : Net)
    (hdom : domain = K.PF_INET ∨ domain = K.PF_INET6)
    (hudp : cfg.NET_USRSOCK_UDP = true) (htcp : cfg.NET_USRSOCK_TCP = true) :
    usrsock_socket_setup K cfg B domain type protocol psock n =
      ⟨(B.usrsock_socket domain type protocol
          { psock with s_type := K.PF_UNSPEC, s_conn := 0 } n.heap).ret,
        (B.usrsock_socket domain type protocol
          { psock with s_type := K.PF_UNSPEC, s_conn := 0 } n.heap).psock,
        n.called ⟨Fn.usrsock_socket, [domain, type, protocol],
          (B.usrsock_socket domain type protocol
            { psock with s_type := K.PF_UNSPEC, s_conn := 0 } n.heap).ret⟩
          (B.usrsock_socket domain type protocol
            { psock with s_type := K.PF_UNSPEC, s_conn := 0 } n.heap).heap⟩ := by
  simp [usrsock_socket_setup, hdom, hudp, htcp]

/-- Whatever the provider returns (success, "not running", any other
failure): when it has been consulted and the socket type it leaves is neither
stream nor datagram, `inet_setup` returns `-EPROTONOSUPPORT` and calls no
local allocator. -/
theorem inet_setup_after_provider (K : Plat) (cfg : Config) (B : BackEnd) (psock : Socket)
    (protocol : Int) (n : Net) (hE : 0 < K.ENETDOWN) (hU : cfg.NET_USRSOCK = true)
    (hdom : psock.s_domain = K.PF_INET ∨ psock.s_domain = K.PF_INET6)
    (hudp : cfg.NET_USRSOCK_UDP = true) (htcp : cfg.NET_USRSOCK_TCP = true)
    (hS : (B.usrsock_socket psock.s_domain psock.s_type protocol
        { psock with s_type := K.PF_UNSPEC, s_conn := 0 } n.heap).psock.s_type ≠ K.SOCK_STREAM)
    (hD : (B.usrsock_socket psock.s_domain psock.s_type protocol
        { psock with s_type := K.PF_UNSPEC, s_conn := 0 } n.heap).psock.s_type ≠ K.SOCK_DGRAM) :
    (inet_setup K cfg B psock protocol n).ret = -K.EPROTONOSUPPORT ∧
    (inet_setup K cfg B psock protocol n).net.trace =
      n.trace ++ [⟨Fn.usrsock_socket, [psock.s_domain, psock.s_type, protocol],
        (B.usrsock_socket psock.s_domain psock.s_type protocol
          { psock with s_type := K.PF_UNSPEC, s_conn := 0 } n.heap).ret⟩] := by
  rw [inet_setup_falls_through K cfg B psock protocol n hE hU,
    usrsock_socket_setup_consulted K cfg B _ _ protocol psock n hdom hudp htcp]
  simp [inet_setup_switch, hS, hD, Net.called]

/-- In a build with the external provider, whatever the provider returned and
did to the socket: `inet_setup` returns 0 only after `tcp_alloc` or
`udp_alloc` has handed out the connection that ends up attached, that is, only
as a success of the local stack. -/
theorem inet_setup_success_is_local (K : Plat) (cfg : Config) (B : BackEnd) (psock : Socket)
    (protocol : Int) (n : Net) (hK : K.errnoPos) (hU : cfg.NET_USRSOCK = true)
    (h0 : (inet_setup K cfg B psock protocol n).ret = 0) :
    AttachedFresh [Fn.tcp_alloc, Fn.udp_alloc] (inet_setup K cfg B psock protocol n) := by
  rw [inet_setup_falls_through K cfg B psock protocol n hK.2.1 hU] at h0 ⊢
  rcases inet_setup_switch_outcome K cfg B _ protocol _ hK with h | h
  · exact h.2
  · omega

/-- C5 (the code at the failing input): the provider is configured, is
consulted for an IPv4 stream socket and fails with -12 (`-ENOMEM`), which is
not `-ENETDOWN` (-100).  `inet_setup` does not return -12: line 253 assigns
`-ENETDOWN` to `ret` instead of comparing, the `else` branch with
`return ret` is never taken, and the call runs on into the `switch` of the
local stack, whose result (-93 here) is returned. -/
theorem inet_setup_provider_error_not_propagated :
    (inet_setup refPlat cfgUsrsock (beProvider (-12)) (sockInet 1) 0 net0).ret = -93 ∧
    (inet_setup refPlat cfgUsrsock (beProvider (-12)) (sockInet 1) 0 net0).ret ≠ -12 ∧
    (inet_setup refPlat cfgUsrsock (beProvider (-12)) (sockInet 1) 0 net0).net.trace =
      [⟨Fn.usrsock_socket, [2, 1, 0], -12⟩] ∧
    inet_setup refPlat cfgUsrsock (beProvider (-12)) (sockInet 1) 0 net0 =
      inet_setup_switch refPlat cfgUsrsock (beProvider (-12))
        (usrsock_socket_setup refPlat cfgUsrsock (beProvider (-12)) 2 1 0 (sockInet 1) net0).psock
        0
        (usrsock_socket_setup refPlat cfgUsrsock (beProvider (-12)) 2 1 0 (sockInet 1) net0).net :=
  ⟨by decide, by decide, by decide, rfl⟩

/-- C6 (the code at the failing input): the provider is configured and claims
an IPv4 stream socket: it returns 0 and stores the external-provider type
(127) and its own connection (address 9) in the socket.  `inet_setup` does not
return success: nothing returns after the provider's success, the call runs
on into the `switch` on the socket type, which is no longer stream or
datagram, and `-EPROTONOSUPPORT` (-93) is returned.  No local allocator is
called. -/
theorem inet_setup_provider_claim_reports_error :
    (inet_setup refPlat cfgUsrsock beOK (sockInet 1) 0 net0).ret = -93 ∧
    (inet_setup refPlat cfgUsrsock beOK (sockInet 1) 0 net0).psock =
      ⟨2, 127, 0, 9, 1⟩ ∧
    (inet_setup refPlat cfgUsrsock beOK (sockInet 1) 0 net0).net.trace =
      [⟨Fn.usrsock_socket, [2, 1, 0], 0⟩] := by
  decide

theorem inet_bind_invalid (K : Plat) (cfg : Config) (B : BackEnd) (psock : Socket)
    (addr : Sockaddr) (addrlen : Nat) (n : Net) (hA : K.AF_INET ≠ K.AF_INET6)
    (hbad : ¬inetAddrOk K cfg addr.sa_family addrlen) :
    inet_bind K cfg B psock addr addrlen n =
      ⟨if (cfg.NET_IPv4 = true ∧ addr.sa_family = K.AF_INET) ∨
          (cfg.NET_IPv6 = true ∧ addr.sa_family = K.AF_INET6) then -K.EBADF
        else -K.EAFNOSUPPORT, psock, n⟩ := by
  unfold inetAddrOk at hbad
  by_cases h4 : cfg.NET_IPv4 = true ∧ addr.sa_family = K.AF_INET
  · have hlen : addrlen < K.sizeof_sockaddr_in := by
      by_contra hc
      exact hbad (Or.inl ⟨h4.1, h4.2, Nat.le_of_not_lt hc⟩)
    simp [inet_bind, h4, hlen]
  · by_cases h6 : cfg.NET_IPv6 = true ∧ addr.sa_family = K.AF_INET6
    · have hlen : addrlen < K.sizeof_sockaddr_in6 := by
        by_contra hc
        exact hbad (Or.inr ⟨h6.1, h6.2, Nat.le_of_not_lt hc⟩)
      simp [inet_bind, h6, hlen, hA, hA.symm]
    · simp [inet_bind, h4, h6]

theorem inet_sendto_invalid (K : Plat) (cfg : Config) (B : BackEnd) (psock : Socket)
    (buf : List Nat) (len : Nat) (flags : Int)
    (addr : Sockaddr) (addrlen : Nat) (n : Net) (hA : K.AF_INET ≠ K.AF_INET6)
    (hT : psock.s_type ≠ K.SOCK_USRSOCK_TYPE)
    (hbad : ¬inetAddrOk K cfg addr.sa_family addrlen) :
    inet_sendto K cfg B psock buf len flags addr addrlen n =
      ⟨if (cfg.NET_IPv4 = true ∧ addr.sa_family = K.AF_INET) ∨
          (cfg.NET_IPv6 = true ∧ addr.sa_family = K.AF_INET6) then -K.EBADF
        else -K.EAFNOSUPPORT, psock, n⟩ := by
  unfold inetAddrOk at hbad
  by_cases h4 : cfg.NET_IPv4 = true ∧ addr.sa_family = K.AF_INET
  · have hlen : addrlen < K.sizeof_sockaddr_in := by
      by_contra hc
      exact hbad (Or.inl ⟨h4.1, h4.2, Nat.le_of_not_lt hc⟩)
    simp [inet_sendto, h4, hlen, hT]
  · by_cases h6 : cfg.NET_IPv6 = true ∧ addr.sa_family = K.AF_INET6
    · have hlen : addrlen < K.sizeof_sockaddr_in6 := by
        by_contra hc
        exact hbad (Or.inr ⟨h6.1, h6.2, Nat.le_of_not_lt hc⟩)
      simp [inet_sendto, h6, hlen, hT, hA, hA.symm]
    · simp [inet_sendto, h4, h6, hT]

theorem local_invalid_cond (K : Plat) (family : Int) (len : Nat)
    (hbad : ¬localAddrOk K family len) :
    family ≠ K.AF_LOCAL ∨ len < K.sizeof_sa_family_t := by
  unfold localAddrOk at hbad
  by_cases h : family = K.AF_LOCAL
  · right
    by_contra hc
    exact hbad ⟨h, Nat.le_of_not_lt hc⟩
  · left; exact h
theorem local_bind_invalid (K : Plat) (cfg : Config) (B : BackEnd) (psock : Socket)
    (addr : Sockaddr) (addrlen : Nat) (n : Net)
    (hbad : addr.sa_family ≠ K.AF_LOCAL ∨ addrlen < K.sizeof_sa_family_t) :
    local_bind K cfg B psock addr addrlen n = ⟨-K.EBADF, psock, n⟩ := by
  simp only [local_bind, if_pos hbad]

theorem local_connect_invalid (K : Plat) (cfg : Config) (B : BackEnd) (psock : Socket)
    (addr : Sockaddr) (addrlen : Nat) (n : Net)
    (hbad : addr.sa_family ≠ K.AF_LOCAL ∨ addrlen < K.sizeof_sa_family_t) :
    local_connect K cfg B psock addr addrlen n = ⟨-K.EBADF, psock, n⟩ := by
  simp only [local_connect, if_pos hbad]

theorem local_sendto_invalid (K : Plat) (cfg : Config) (B : BackEnd) (psock : Socket)
    (buf : List Nat) (len : Nat) (flags : Int) (addr : Sockaddr) (addrlen : Nat) (n : Net)
    (hbad : addr.sa_family ≠ K.AF_LOCAL ∨ addrlen < K.sizeof_sa_family_t) :
    local_sendto K cfg B psock buf len flags addr addrlen n = ⟨-K.EAFNOSUPPORT, psock, n⟩ := by
  simp only [local_sendto, if_pos hbad]

theorem SS_ISBOUND_lor (K : Plat) (f : Nat) (hB : K.SF_BOUND ≠ 0) :
    SS_ISBOUND K (f ||| K.SF_BOUND) = true := by
  simp [SS_ISBOUND, lor_land_self_right, hB]

/-- C8: for every socket that is not of the external-provider type, every
family tag and every length that fail the dispatcher's address test (the tag is
not one of the dispatcher's families, or the length is below the family's
minimum), `inet_bind`, `inet_sendto`, `local_bind`, `local_connect` and
`local_sendto` each return one negative value for all addresses with that tag
and length, whatever their other bytes, and return the socket and the network
state (heap, lock, call trace) they were given: no collaborator is called,
the flags and the connection pointer are unchanged. -/
theorem invalid_address_rejected (K : Plat) (cfg : Config) (B : BackEnd) (psock : Socket)
    (buf : List Nat) (len : Nat) (flags : Int) (family : Int) (addrlen : Nat) (n : Net)
    (hK : K.errnoPos) (hA : K.AF_INET ≠ K.AF_INET6)
    (hT : psock.s_type ≠ K.SOCK_USRSOCK_TYPE) :
    (¬inetAddrOk K cfg family addrlen →
      (∃ e : Int, e < 0 ∧ ∀ a : Sockaddr, a.sa_family = family →
        inet_bind K cfg B psock a addrlen n = ⟨e, psock, n⟩) ∧
      (∃ e : Int, e < 0 ∧ ∀ a : Sockaddr, a.sa_family = family →
        inet_sendto K cfg B psock buf len flags a addrlen n = ⟨e, psock, n⟩)) ∧
    (¬localAddrOk K family addrlen →
      (∃ e : Int, e < 0 ∧ ∀ a : Sockaddr, a.sa_family = family →
        local_bind K cfg B psock a addrlen n = ⟨e, psock, n⟩) ∧
      (∃ e : Int, e < 0 ∧ ∀ a : Sockaddr, a.sa_family = family →
        local_connect K cfg B psock a addrlen n = ⟨e, psock, n⟩) ∧
      (∃ e : Int, e < 0 ∧ ∀ a : Sockaddr, a.sa_family = family →
        local_sendto K cfg B psock buf len flags a addrlen n = ⟨e, psock, n⟩)) := by
  obtain ⟨-, -, -, -, hAF, hBADF, -⟩ := hK
  have hneg : (if (cfg.NET_IPv4 = true ∧ family = K.AF_INET) ∨
      (cfg.NET_IPv6 = true ∧ family = K.AF_INET6) then -K.EBADF else -K.EAFNOSUPPORT) < 0 := by
    split_ifs <;> omega
  constructor
  · intro hbad
    refine ⟨⟨_, hneg, fun a ha => ?_⟩, ⟨_, hneg, fun a ha => ?_⟩⟩
    · subst ha
      exact inet_bind_invalid K cfg B psock a addrlen n hA hbad
    · subst ha
      exact inet_sendto_invalid K cfg B psock buf len flags a addrlen n hA hT hbad
  · intro hbad
    have hc := local_invalid_cond K family addrlen hbad
    refine ⟨⟨-K.EBADF, by omega, fun a ha => ?_⟩, ⟨-K.EBADF, by omega, fun a ha => ?_⟩,
      ⟨-K.EAFNOSUPPORT, by omega, fun a ha => ?_⟩⟩
    · subst ha
      exact local_bind_invalid K cfg B psock a addrlen n hc
    · subst ha
      exact local_connect_invalid K cfg B psock a addrlen n hc
    · subst ha
      exact local_sendto_invalid K cfg B psock buf len flags a addrlen n hc

theorem invalid_address_rejected_witness :
    refPlat.errnoPos ∧ refPlat.AF_INET ≠ refPlat.AF_INET6 ∧
    (sockInet 1).s_type ≠ refPlat.SOCK_USRSOCK_TYPE ∧
    ¬inetAddrOk refPlat cfgLocal 2 3 ∧ ¬localAddrOk refPlat 2 3 ∧
    (∃ e : Int, e < 0 ∧ ∀ a : Sockaddr, a.sa_family = 2 →
      inet_bind refPlat cfgLocal beOK (sockInet 1) a 3 net0 = ⟨e, sockInet 1, net0⟩) ∧
    (∃ e : Int, e < 0 ∧ ∀ a : Sockaddr, a.sa_family = 2 →
      local_connect refPlat cfgLocal beOK (sockInet 1) a 3 net0 = ⟨e, sockInet 1, net0⟩) :=
  have hi : ¬inetAddrOk refPlat cfgLocal 2 3 := by unfold inetAddrOk; decide
  have hl : ¬localAddrOk refPlat 2 3 := by unfold localAddrOk; decide
  have h := invalid_address_rejected refPlat cfgLocal beOK (sockInet 1) [] 0 0 2 3 net0
    (by decide) (by decide) (by decide)
  ⟨by decide, by decide, by decide, hi, hl, (h.1 hi).1, (h.2 hl).2.1⟩

/-- C9 (counterexample): `local_bind` on a stream socket with an `AF_INET`
address of 16 bytes, that is a family mismatch and no short length, returns
`-EBADF` (-9), the value of the length error, not `-EAFNOSUPPORT` (-97). -/
theorem local_bind_family_mismatch_not_EAFNOSUPPORT :
    addrV4.sa_family ≠ refPlat.AF_LOCAL ∧ ¬(16 < refPlat.sizeof_sa_family_t) ∧
    (local_bind refPlat cfgLocal beOK (sockLocal 1) addrV4 16 net0).ret = -refPlat.EBADF ∧
    (local_bind refPlat cfgLocal beOK (sockLocal 1) addrV4 16 net0).ret ≠
      -refPlat.EAFNOSUPPORT ∧
    (local_bind refPlat cfgLocal beOK (sockLocal 1) addrLocal 1 net0).ret = -refPlat.EBADF := by
  decide

/-- C9 (as amended): `inet_bind` rejects an address whose family tag is not
one of the configured inet families with `-EAFNOSUPPORT`, for every length,
and an address of a configured family that is shorter than that family's
address structure with `-EBADF`; `local_bind` rejects both a family tag other than
`AF_LOCAL` and a length below `sizeof(sa_family_t)` with the one value
`-EBADF`; `inet_bind` after `inet_setup` with protocol 0, with an `AF_INET`
address of length 3, returns `-EBADF` when `struct sockaddr_in` is longer than
3 bytes.  A rejected call returns the socket and network state it was given. -/
theorem bind_validation_errors (K : Plat) (cfg : Config) (B : BackEnd) (psock : Socket)
    (addr : Sockaddr) (addrlen : Nat) (n : Net) (hA : K.AF_INET ≠ K.AF_INET6) :
    (¬((cfg.NET_IPv4 = true ∧ addr.sa_family = K.AF_INET) ∨
        (cfg.NET_IPv6 = true ∧ addr.sa_family = K.AF_INET6)) →
      inet_bind K cfg B psock addr addrlen n = ⟨-K.EAFNOSUPPORT, psock, n⟩) ∧
    (cfg.NET_IPv4 = true → addr.sa_family = K.AF_INET → addrlen < K.sizeof_sockaddr_in →
      inet_bind K cfg B psock addr addrlen n = ⟨-K.EBADF, psock, n⟩) ∧
    (cfg.NET_IPv6 = true → addr.sa_family = K.AF_INET6 → addrlen < K.sizeof_sockaddr_in6 →
      inet_bind K cfg B psock addr addrlen n = ⟨-K.EBADF, psock, n⟩) ∧
    (addr.sa_family ≠ K.AF_LOCAL ∨ addrlen < K.sizeof_sa_family_t →
      local_bind K cfg B psock addr addrlen n = ⟨-K.EBADF, psock, n⟩) ∧
    (cfg.NET_IPv4 = true → addr.sa_family = K.AF_INET → 3 < K.sizeof_sockaddr_in →
      (inet_bind K cfg B (inet_setup K cfg B psock 0 n).psock addr 3
        (inet_setup K cfg B psock 0 n).net).ret = -K.EBADF) := by
  refine ⟨fun h => ?_, fun h4 hf hl => ?_, fun h6 hf hl => ?_, fun h => ?_, fun h4 hf hl => ?_⟩
  · push_neg at h
    have h4 : ¬(cfg.NET_IPv4 = true ∧ addr.sa_family = K.AF_INET) := fun c => h.1 c.1 c.2
    have h6 : ¬(cfg.NET_IPv6 = true ∧ addr.sa_family = K.AF_INET6) := fun c => h.2 c.1 c.2
    simp [inet_bind, h4, h6]
  · simp [inet_bind, h4, hf, hl]
  · simp [inet_bind, h6, hf, hl, hA, hA.symm]
  · exact local_bind_invalid K cfg B psock addr addrlen n h
  · simp [inet_bind, h4, hf, hl]

theorem bind_validation_errors_witness :
    refPlat.AF_INET ≠ refPlat.AF_INET6 ∧
    inet_bind refPlat cfgLocal beOK (sockInet 1) addrLocal 16 net0 =
      ⟨-refPlat.EAFNOSUPPORT, sockInet 1, net0⟩ ∧
    inet_bind refPlat cfgLocal beOK (sockInet 1) addrV4 3 net0 =
      ⟨-refPlat.EBADF, sockInet 1, net0⟩ ∧
    local_bind refPlat cfgLocal beOK (sockLocal 1) addrV4 16 net0 =
      ⟨-refPlat.EBADF, sockLocal 1, net0⟩ ∧
    (inet_bind refPlat cfgLocal beOK (inet_setup refPlat cfgLocal beOK (sockInet 1) 0 net0).psock
      addrV4 3 (inet_setup refPlat cfgLocal beOK (sockInet 1) 0 net0).net).ret =
      -refPlat.EBADF :=
  ⟨by decide,
    (bind_validation_errors refPlat cfgLocal beOK (sockInet 1) addrLocal 16 net0
      (by decide)).1 (by decide),
    (bind_validation_errors refPlat cfgLocal beOK (sockInet 1) addrV4 3 net0
      (by decide)).2.1 rfl rfl (by decide),
    (bind_validation_errors refPlat cfgLocal beOK (sockLocal 1) addrV4 16 net0
      (by decide)).2.2.2.1 (Or.inl (by decide)),
    (bind_validation_errors refPlat cfgLocal beOK (sockInet 1) addrV4 3 net0
      (by decide)).2.2.2.2 rfl rfl (by decide)⟩
theorem bound_after (K : Plat) (f : Nat) (ret : Int) (hB : K.SF_BOUND ≠ 0) :
    SS_ISBOUND K (if ret ≥ 0 then f ||| K.SF_BOUND else f) = true ↔
      (SS_ISBOUND K f = true ∨ 0 ≤ ret) := by
  by_cases h : 0 ≤ ret
  · simp [h, SS_ISBOUND_lor K f hB]
  · simp [h]

/-- C10 (counterexample): `inet_bind` on a socket of the external-provider
type (127) with a valid IPv4 address; the provider's bind returns 0.
`inet_bind` returns 0, and the bound flag, clear before the call, is still
clear after it. -/
theorem inet_bind_usrsock_not_marked_bound :
    inetAddrOk refPlat cfgUsrsock addrV4.sa_family 16 ∧
    (inet_bind refPlat cfgUsrsock beOK ⟨2, 127, 0, 9, 1⟩ addrV4 16 net0).ret = 0 ∧
    (inet_bind refPlat cfgUsrsock beOK ⟨2, 127, 0, 9, 1⟩ addrV4 16 net0).net.trace =
      [⟨Fn.usrsock_bind, [9, 2, 16], 0⟩] ∧
    SS_ISBOUND refPlat
      (inet_bind refPlat cfgUsrsock beOK ⟨2, 127, 0, 9, 1⟩ addrV4 16 net0).psock.s_flags =
      false := by
  refine ⟨?_, ?_⟩
  · unfold inetAddrOk; decide
  · decide

/-- C10 (as amended): for an address that passes validation, `inet_bind` on a
stream (datagram) socket with the native stack compiled in returns exactly
the result of `tcp_bind` (`udp_bind`), and `local_bind` on a stream or
datagram socket, in a build that defines `CONFIG_NET_UDP`, returns exactly the
result of `psock_local_bind`; in these cases the bound flag is set after the
call if and only if it was set in the socket as the back end left it or the
result is non-negative, and after a negative result the socket is the one the
back end left.  On a socket of the external-provider type `inet_bind` returns
exactly the result of `usrsock_bind` and leaves the socket, its flags
included, unchanged. -/
theorem bind_result_and_bound_flag (K : Plat) (cfg : Config) (B : BackEnd) (psock : Socket)
    (addr : Sockaddr) (addrlen : Nat) (n : Net) (hL : K.labelsDistinct)
    (hB : K.SF_BOUND ≠ 0) :
    (inetAddrOk K cfg addr.sa_family addrlen →
      (cfg.NET_TCP = true → cfg.NET_TCP_HAVE_STACK = true → psock.s_type = K.SOCK_STREAM →
        (inet_bind K cfg B psock addr addrlen n).ret = (B.tcp_bind psock.s_conn addr n.heap).1 ∧
        (SS_ISBOUND K (inet_bind K cfg B psock addr addrlen n).psock.s_flags = true ↔
          (SS_ISBOUND K psock.s_flags = true ∨
            0 ≤ (inet_bind K cfg B psock addr addrlen n).ret)) ∧
        ((inet_bind K cfg B psock addr addrlen n).ret < 0 →
          (inet_bind K cfg B psock addr addrlen n).psock = psock)) ∧
      (cfg.NET_UDP = true → cfg.NET_UDP_HAVE_STACK = true → psock.s_type = K.SOCK_DGRAM →
        (inet_bind K cfg B psock addr addrlen n).ret = (B.udp_bind psock.s_conn addr n.heap).1 ∧
        (SS_ISBOUND K (inet_bind K cfg B psock addr addrlen n).psock.s_flags = true ↔
          (SS_ISBOUND K psock.s_flags = true ∨
            0 ≤ (inet_bind K cfg B psock addr addrlen n).ret)) ∧
        ((inet_bind K cfg B psock addr addrlen n).ret < 0 →
          (inet_bind K cfg B psock addr addrlen n).psock = psock)) ∧
      (cfg.NET_USRSOCK = true → psock.s_type = K.SOCK_USRSOCK_TYPE →
        (inet_bind K cfg B psock addr addrlen n).ret =
          (B.usrsock_bind psock.s_conn addr addrlen n.heap).1 ∧
        (inet_bind K cfg B psock addr addrlen n).psock = psock)) ∧
    (localAddrOk K addr.sa_family addrlen → cfg.NET_UDP = true →
      ((cfg.NET_TCP = true ∧ psock.s_type = K.SOCK_STREAM) ∨ psock.s_type = K.SOCK_DGRAM) →
        (local_bind K cfg B psock addr addrlen n).ret =
          (B.psock_local_bind psock addr addrlen n.heap).ret ∧
        (SS_ISBOUND K (local_bind K cfg B psock addr addrlen n).psock.s_flags = true ↔
          (SS_ISBOUND K (B.psock_local_bind psock addr addrlen n.heap).psock.s_flags = true ∨
            0 ≤ (local_bind K cfg B psock addr addrlen n).ret)) ∧
        ((local_bind K cfg B psock addr addrlen n).ret < 0 →
          (local_bind K cfg B psock addr addrlen n).psock =
            (B.psock_local_bind psock addr addrlen n.heap).psock)) := by
  obtain ⟨hSD, hUS, hUD, hA, -⟩ := hL
  constructor
  · intro hok
    have hpass : ∃ m : Nat, ¬(addrlen < m) ∧
        (if cfg.NET_IPv4 = true ∧ addr.sa_family = K.AF_INET then some K.sizeof_sockaddr_in
          else if cfg.NET_IPv6 = true ∧ addr.sa_family = K.AF_INET6 then
            some K.sizeof_sockaddr_in6
          else none) = some m := by
      rcases hok with ⟨h4, hf, hl⟩ | ⟨h6, hf, hl⟩
      · exact ⟨_, Nat.not_lt.mpr hl, by simp [h4, hf]⟩
      · exact ⟨_, Nat.not_lt.mpr hl, by simp [h6, hf, hA.symm]⟩
    obtain ⟨m, hm, hsel⟩ := hpass
    refine ⟨fun hT hH hS => ?_, fun hD hH hS => ?_, fun hU hS => ?_⟩
    · have hne : ¬(K.SOCK_STREAM = K.SOCK_USRSOCK_TYPE) := fun c => hUS c.symm
      have e : inet_bind K cfg B psock addr addrlen n =
          ⟨(B.tcp_bind psock.s_conn addr n.heap).1,
            if (B.tcp_bind psock.s_conn addr n.heap).1 ≥ 0 then
              { psock with s_flags := psock.s_flags ||| K.SF_BOUND } else psock,
            n.called ⟨Fn.tcp_bind, [psock.s_conn, addr.sa_family],
              (B.tcp_bind psock.s_conn addr n.heap).1⟩ (B.tcp_bind psock.s_conn addr n.heap).2⟩ := by
        simp only [inet_bind, hsel]
        simp [hm, hT, hH, hS, hne]
      rw [e]
      refine ⟨rfl, ?_, ?_⟩
      · rw [← bound_after K psock.s_flags _ hB]
        by_cases h : (B.tcp_bind psock.s_conn addr n.heap).1 ≥ 0 <;> simp [h]
      · intro h
        have h' : ¬((B.tcp_bind psock.s_conn addr n.heap).1 ≥ 0) := by
          simp only [ge_iff_le, not_le]; exact h
        simp [h']
    · have hne : ¬(K.SOCK_DGRAM = K.SOCK_USRSOCK_TYPE) := fun c => hUD c.symm
      have e : inet_bind K cfg B psock addr addrlen n =
          ⟨(B.udp_bind psock.s_conn addr n.heap).1,
            if (B.udp_bind psock.s_conn addr n.heap).1 ≥ 0 then
              { psock with s_flags := psock.s_flags ||| K.SF_BOUND } else psock,
            n.called ⟨Fn.udp_bind, [psock.s_conn, addr.sa_family],
              (B.udp_bind psock.s_conn addr n.heap).1⟩ (B.udp_bind psock.s_conn addr n.heap).2⟩ := by
        simp only [inet_bind, hsel]
        simp [hm, hD, hH, hS, hne, hSD.symm]
      rw [e]
      refine ⟨rfl, ?_, ?_⟩
      · rw [← bound_after K psock.s_flags _ hB]
        by_cases h : (B.udp_bind psock.s_conn addr n.heap).1 ≥ 0 <;> simp [h]
      · intro h
        have h' : ¬((B.udp_bind psock.s_conn addr n.heap).1 ≥ 0) := by
          simp only [ge_iff_le, not_le]; exact h
        simp [h']
    · have e : inet_bind K cfg B psock addr addrlen n =
          ⟨(B.usrsock_bind psock.s_conn addr addrlen n.heap).1, psock,
            n.called ⟨Fn.usrsock_bind, [psock.s_conn, addr.sa_family, addrlen],
              (B.usrsock_bind psock.s_conn addr addrlen n.heap).1⟩
              (B.usrsock_bind psock.s_conn addr addrlen n.heap).2⟩ := by
        simp only [inet_bind, hsel]
        simp [hm, hU, hS]
      rw [e]
      exact ⟨rfl, rfl⟩
  · intro hok hD hty
    have hv : ¬(addr.sa_family ≠ K.AF_LOCAL ∨ addrlen < K.sizeof_sa_family_t) := by
      rintro (c | c)
      · exact c hok.1
      · exact Nat.not_lt.mpr hok.2 c
    have hcase : cfg.NET_UDP = true ∧
        ((cfg.NET_TCP = true ∧ psock.s_type = K.SOCK_STREAM) ∨
          (cfg.NET_UDP = true ∧ psock.s_type = K.SOCK_DGRAM)) := by
      rcases hty with h | h
      · exact ⟨hD, Or.inl h⟩
      · exact ⟨hD, Or.inr ⟨hD, h⟩⟩
    have e : local_bind K cfg B psock addr addrlen n =
        ⟨(B.psock_local_bind psock addr addrlen n.heap).ret,
          if (B.psock_local_bind psock addr addrlen n.heap).ret ≥ 0 then
            { (B.psock_local_bind psock addr addrlen n.heap).psock with
              s_flags := (B.psock_local_bind psock addr addrlen n.heap).psock.s_flags |||
                K.SF_BOUND }
          else (B.psock_local_bind psock addr addrlen n.heap).psock,
          n.called ⟨Fn.psock_local_bind, [addr.sa_family, addrlen],
            (B.psock_local_bind psock addr addrlen n.heap).ret⟩
            (B.psock_local_bind psock addr addrlen n.heap).heap⟩ := by
      simp only [local_bind, if_neg hv, if_pos hcase]
    rw [e]
    refine ⟨rfl, ?_, ?_⟩
    · rw [← bound_after K _ _ hB]
      by_cases h : (B.psock_local_bind psock addr addrlen n.heap).ret ≥ 0 <;> simp [h]
    · intro h
      have h' : ¬((B.psock_local_bind psock addr addrlen n.heap).ret ≥ 0) := by
        simp only [ge_iff_le, not_le]; exact h
      simp [h']

theorem bind_result_and_bound_flag_witness :
    refPlat.labelsDistinct ∧ refPlat.SF_BOUND ≠ 0 ∧
    inetAddrOk refPlat cfgLocal addrV4.sa_family 16 ∧
    (inet_bind refPlat cfgLocal beOK (sockInet 1) addrV4 16 net0).ret =
      (beOK.tcp_bind (sockInet 1).s_conn addrV4 net0.heap).1 ∧
    (SS_ISBOUND refPlat (inet_bind refPlat cfgLocal beOK (sockInet 1) addrV4 16 net0).psock.s_flags
        = true ↔
      (SS_ISBOUND refPlat (sockInet 1).s_flags = true ∨
        0 ≤ (inet_bind refPlat cfgLocal beOK (sockInet 1) addrV4 16 net0).ret)) :=
  have hok : inetAddrOk refPlat cfgLocal addrV4.sa_family 16 := by
    unfold inetAddrOk; decide
  have h := ((bind_result_and_bound_flag refPlat cfgLocal beOK (sockInet 1) addrV4 16 net0
    (by decide) (by decide)).1 hok).1 rfl rfl rfl
  ⟨by decide, by decide, hok, h.1, h.2.1⟩
/-- The guard of line 224 of `local_sockif.c` names `ONFIG_NET_TCP`: in a
build with `CONFIG_NET_TCP` but without `CONFIG_NET_UDP` neither case label of
`local_bind` is compiled, and a stream socket with a valid address gets
`-EBADF` from the `default` branch without `psock_local_bind` being called. -/
theorem local_bind_without_udp (K : Plat) (cfg : Config) (B : BackEnd) (psock : Socket)
    (addr : Sockaddr) (addrlen : Nat) (n : Net) (hD : cfg.NET_UDP = false) :
    local_bind K cfg B psock addr addrlen n = ⟨-K.EBADF, psock, n⟩ := by
  by_cases hv : addr.sa_family ≠ K.AF_LOCAL ∨ addrlen < K.sizeof_sa_family_t
  · exact local_bind_invalid K cfg B psock addr addrlen n hv
  · simp only [local_bind, if_neg hv]
    simp [hD]

theorem local_valid_cond (K : Plat) (family : Int) (len : Nat)
    (hok : localAddrOk K family len) :
    ¬(family ≠ K.AF_LOCAL ∨ len < K.sizeof_sa_family_t) := by
  rintro (c | c)
  · exact c hok.1
  · exact Nat.not_lt.mpr hok.2 c

/-- The datagram case of `local_connect` for an address that passes
validation: the call is handed to `psock_local_connect` whatever the flags of
the socket, and its result and the socket it leaves are returned. -/
theorem local_connect_dgram (K : Plat) (cfg : Config) (B : BackEnd) (psock : Socket)
    (addr : Sockaddr) (addrlen : Nat) (n : Net)
    (hok : localAddrOk K addr.sa_family addrlen) (hD : cfg.NET_UDP = true)
    (hS : psock.s_type = K.SOCK_DGRAM) (hL : K.SOCK_STREAM ≠ K.SOCK_DGRAM) :
    local_connect K cfg B psock addr addrlen n =
      ⟨(B.psock_local_connect psock addr n.heap).ret,
        (B.psock_local_connect psock addr n.heap).psock,
        n.called ⟨Fn.psock_local_connect, [addr.sa_family],
          (B.psock_local_connect psock addr n.heap).ret⟩
          (B.psock_local_connect psock addr n.heap).heap⟩ := by
  have hv := local_valid_cond K addr.sa_family addrlen hok
  simp only [local_connect, if_neg hv]
  simp [hD, hS, hL.symm]

/-- C11: in a build with stream support, for a stream socket and an address
that passes validation, `local_connect` returns `-EISCONN` when the connected
flag is set, with the socket and the network state (call trace included:
`psock_local_connect` is not called) unchanged; when the flag is clear it
calls `psock_local_connect` once and returns exactly its result. -/
theorem local_connect_stream (K : Plat) (cfg : Config) (B : BackEnd) (psock : Socket)
    (addr : Sockaddr) (addrlen : Nat) (n : Net)
    (hok : localAddrOk K addr.sa_family addrlen) (hT : cfg.NET_TCP = true)
    (hS : psock.s_type = K.SOCK_STREAM) :
    (SS_ISCONNECTED K psock.s_flags = true →
      local_connect K cfg B psock addr addrlen n = ⟨-K.EISCONN, psock, n⟩) ∧
    (SS_ISCONNECTED K psock.s_flags = false →
      (local_connect K cfg B psock addr addrlen n).ret =
        (B.psock_local_connect psock addr n.heap).ret ∧
      (local_connect K cfg B psock addr addrlen n).net.trace =
        n.trace ++ [⟨Fn.psock_local_connect, [addr.sa_family],
          (B.psock_local_connect psock addr n.heap).ret⟩]) := by
  have hv := local_valid_cond K addr.sa_family addrlen hok
  constructor
  · intro hc
    simp only [local_connect, if_neg hv]
    simp [hT, hS, hc]
  · intro hc
    simp only [local_connect, if_neg hv]
    simp [hT, hS, hc, Net.called]

theorem local_connect_stream_witness :
    localAddrOk refPlat addrLocal.sa_family 6 ∧
    SS_ISCONNECTED refPlat (sockLocal 1).s_flags = false ∧
    local_connect refPlat cfgLocal beOK ⟨1, 1, 64, 7, 2⟩ addrLocal 6 net0 =
      ⟨-refPlat.EISCONN, ⟨1, 1, 64, 7, 2⟩, net0⟩ ∧
    (local_connect refPlat cfgLocal beOK (sockLocal 1) addrLocal 6 net0).ret =
      (beOK.psock_local_connect (sockLocal 1) addrLocal net0.heap).ret :=
  have hok : localAddrOk refPlat addrLocal.sa_family 6 := by
    unfold localAddrOk; decide
  ⟨hok, by decide,
    (local_connect_stream refPlat cfgLocal beOK ⟨1, 1, 64, 7, 2⟩ addrLocal 6 net0
      hok rfl rfl).1 (by decide),
    ((local_connect_stream refPlat cfgLocal beOK (sockLocal 1) addrLocal 6 net0
      hok rfl rfl).2 (by decide)).1⟩

/-- C12: for every build, socket, address, length and collaborator,
`local_connect` either does not reach the back end, and then the socket (its
state flags included) and the call trace are those before the call, or it
calls `psock_local_connect` once, and then the socket (its state flags
included) is exactly the one `psock_local_connect` left and the result is
exactly its result: `local_connect` itself writes no flag. -/
theorem local_connect_flags_frame (K : Plat) (cfg : Config) (B : BackEnd) (psock : Socket)
    (addr : Sockaddr) (addrlen : Nat) (n : Net) :
    ((local_connect K cfg B psock addr addrlen n).net.trace = n.trace ∧
      (local_connect K cfg B psock addr addrlen n).psock = psock ∧
      (local_connect K cfg B psock addr addrlen n).psock.s_flags = psock.s_flags) ∨
    ((local_connect K cfg B psock addr addrlen n).net.trace =
        n.trace ++ [⟨Fn.psock_local_connect, [addr.sa_family],
          (B.psock_local_connect psock addr n.heap).ret⟩] ∧
      (local_connect K cfg B psock addr addrlen n).ret =
        (B.psock_local_connect psock addr n.heap).ret ∧
      (local_connect K cfg B psock addr addrlen n).psock =
        (B.psock_local_connect psock addr n.heap).psock ∧
      (local_connect K cfg B psock addr addrlen n).psock.s_flags =
        (B.psock_local_connect psock addr n.heap).psock.s_flags) := by
  unfold local_connect
  split_ifs
  all_goals first
    | (left; exact ⟨rfl, rfl, rfl⟩)
    | (right; exact ⟨by simp [Net.called], rfl, rfl, rfl⟩)

/-- C13 (the code at the failing input): a connected local datagram socket
and an address whose family tag is `AF_UNSPEC` (0), of length
`sizeof(sa_family_t)`.  `local_connect` does not hand the call to
`psock_local_connect`: the test of line 291, `addr->sa_family != AF_LOCAL`,
rejects the address with `-EBADF` (-9), and the socket keeps its connected
flag.  With an `AF_LOCAL` address the same socket is handed to
`psock_local_connect` and its result is returned. -/
theorem local_connect_unspec_rejected :
    addrUnspec.sa_family = refPlat.AF_UNSPEC ∧
    (local_connect refPlat cfgLocal beOK sockLocalDgram addrUnspec 2 net0).ret =
      -refPlat.EBADF ∧
    (local_connect refPlat cfgLocal beOK sockLocalDgram addrUnspec 2 net0).net.trace = [] ∧
    (local_connect refPlat cfgLocal beOK sockLocalDgram addrUnspec 2 net0).psock =
      sockLocalDgram ∧
    (local_connect refPlat cfgLocal beOK sockLocalDgram addrLocal 2 net0).ret = 0 ∧
    (local_connect refPlat cfgLocal beOK sockLocalDgram addrLocal 2 net0).net.trace =
      [⟨Fn.psock_local_connect, [1], 0⟩] := by
  decide

/-- C14: for every socket whose type is not stream and every backlog value,
`inet_listen` returns `-EOPNOTSUPP` and hands back the socket and the network
state it was given (no call in the trace: no backlog is created, `tcp_listen`
is not called); the result is the same for every content of the heap, so the
connection structure is not consulted. -/
theorem inet_listen_not_stream (K : Plat) (cfg : Config) (B : BackEnd) (psock : Socket)
    (backlog : Int) (n : Net) (hS : psock.s_type ≠ K.SOCK_STREAM) :
    inet_listen K cfg B psock backlog n = ⟨-K.EOPNOTSUPP, psock, n⟩ ∧
    ∀ h : Heap, (inet_listen K cfg B psock backlog ⟨h, n.lock, n.trace⟩).ret =
      -K.EOPNOTSUPP := by
  constructor
  · simp [inet_listen, hS]
  · intro h
    simp [inet_listen, hS]

theorem inet_listen_not_stream_witness :
    (sockInet 2).s_type ≠ refPlat.SOCK_STREAM ∧
    inet_listen refPlat cfgLocal beOK (sockInet 2) 4 netBound =
      ⟨-refPlat.EOPNOTSUPP, sockInet 2, netBound⟩ :=
  ⟨by decide, (inet_listen_not_stream refPlat cfgLocal beOK (sockInet 2) 4 netBound
    (by decide)).1⟩

/-- C15: for every build, every stream socket whose connection structure has
no bound local port and every backlog value, `inet_listen` returns
`-EOPNOTSUPP` and hands back the socket and the network state it was given:
the trace is unchanged, so neither `tcp_backlogcreate` nor `tcp_listen` is
called. -/
theorem inet_listen_unbound (K : Plat) (cfg : Config) (B : BackEnd) (psock : Socket)
    (backlog : Int) (n : Net) (hU : unboundStream K psock n) :
    inet_listen K cfg B psock backlog n = ⟨-K.EOPNOTSUPP, psock, n⟩ := by
  obtain ⟨hS, -, hp⟩ := hU
  have hp0 : (n.heap psock.s_conn).lport = 0 := Nat.le_zero.mp hp
  unfold inet_listen
  simp [hS, hp0]

theorem inet_listen_unbound_witness :
    unboundStream refPlat ⟨2, 1, 0, 7, 1⟩ net0 ∧
    inet_listen refPlat cfgLocal beOK ⟨2, 1, 0, 7, 1⟩ 4 net0 =
      ⟨-refPlat.EOPNOTSUPP, ⟨2, 1, 0, 7, 1⟩, net0⟩ :=
  have hU : unboundStream refPlat ⟨2, 1, 0, 7, 1⟩ net0 := by
    unfold unboundStream; decide
  ⟨hU, inet_listen_unbound refPlat cfgLocal beOK ⟨2, 1, 0, 7, 1⟩ 4 net0 hU⟩

/-- The shape of `inet_listen` on a bound stream socket in a build with the
TCP stack: the code after the port test. -/
theorem inet_listen_bound (K : Plat) (cfg : Config) (B : BackEnd) (psock : Socket)
    (backlog : Int) (n : Net) (hb : boundStream K psock n)
    (hT : cfg.NET_TCP = true) (hH : cfg.NET_TCP_HAVE_STACK = true) :
    inet_listen K cfg B psock backlog n =
      if cfg.NET_TCPBACKLOG = true then
        if (B.tcp_backlogcreate psock.s_conn backlog n.heap).1 < 0 then
          ⟨(B.tcp_backlogcreate psock.s_conn backlog n.heap).1, psock,
            n.called ⟨Fn.tcp_backlogcreate, [psock.s_conn, backlog],
              (B.tcp_backlogcreate psock.s_conn backlog n.heap).1⟩
              (B.tcp_backlogcreate psock.s_conn backlog n.heap).2⟩
        else
          ⟨(B.tcp_listen psock.s_conn (B.tcp_backlogcreate psock.s_conn backlog n.heap).2).1,
            psock,
            (n.called ⟨Fn.tcp_backlogcreate, [psock.s_conn, backlog],
              (B.tcp_backlogcreate psock.s_conn backlog n.heap).1⟩
              (B.tcp_backlogcreate psock.s_conn backlog n.heap).2).called
              ⟨Fn.tcp_listen, [psock.s_conn],
                (B.tcp_listen psock.s_conn
                  (B.tcp_backlogcreate psock.s_conn backlog n.heap).2).1⟩
              (B.tcp_listen psock.s_conn (B.tcp_backlogcreate psock.s_conn backlog n.heap).2).2⟩
      else
        ⟨(B.tcp_listen psock.s_conn n.heap).1, psock,
          n.called ⟨Fn.tcp_listen, [psock.s_conn], (B.tcp_listen psock.s_conn n.heap).1⟩
            (B.tcp_listen psock.s_conn n.heap).2⟩ := by
  obtain ⟨hS, -, hp⟩ := hb
  have hp0 : ¬((n.heap psock.s_conn).lport = 0) := Nat.pos_iff_ne_zero.mp hp
  unfold inet_listen
  simp [hS, hT, hH, hp0, Net.called]

/-- C16: with backlog tracking compiled in (and the TCP stack), for every
bound stream socket the first call `inet_listen` makes is
`tcp_backlogcreate` with the socket's connection and exactly the caller's
backlog argument; if that call returns a negative value, `inet_listen`
returns exactly that value, the trace ends with that one call (`tcp_listen`
is not called) and the socket is unchanged; otherwise `tcp_listen` is the
next and last call. -/
theorem inet_listen_backlog (K : Plat) (cfg : Config) (B : BackEnd) (psock : Socket)
    (backlog : Int) (n : Net) (hb : boundStream K psock n)
    (hT : cfg.NET_TCP = true) (hH : cfg.NET_TCP_HAVE_STACK = true)
    (hBL : cfg.NET_TCPBACKLOG = true) :
    ((B.tcp_backlogcreate psock.s_conn backlog n.heap).1 < 0 →
      (inet_listen K cfg B psock backlog n).ret =
        (B.tcp_backlogcreate psock.s_conn backlog n.heap).1 ∧
      (inet_listen K cfg B psock backlog n).psock = psock ∧
      (inet_listen K cfg B psock backlog n).net.trace =
        n.trace ++ [⟨Fn.tcp_backlogcreate, [psock.s_conn, backlog],
          (B.tcp_backlogcreate psock.s_conn backlog n.heap).1⟩]) ∧
    (0 ≤ (B.tcp_backlogcreate psock.s_conn backlog n.heap).1 →
      (inet_listen K cfg B psock backlog n).net.trace =
        n.trace ++ [⟨Fn.tcp_backlogcreate, [psock.s_conn, backlog],
            (B.tcp_backlogcreate psock.s_conn backlog n.heap).1⟩,
          ⟨Fn.tcp_listen, [psock.s_conn],
            (B.tcp_listen psock.s_conn
              (B.tcp_backlogcreate psock.s_conn backlog n.heap).2).1⟩]) := by
  rw [inet_listen_bound K cfg B psock backlog n hb hT hH]
  constructor
  · intro hneg
    simp [hBL, hneg, Net.called]
  · intro hpos
    have hn : ¬((B.tcp_backlogcreate psock.s_conn backlog n.heap).1 < 0) := not_lt.mpr hpos
    simp [hBL, hn, Net.called]

theorem inet_listen_backlog_witness :
    boundStream refPlat sockBound netBound ∧
    (beBacklogFail.tcp_backlogcreate sockBound.s_conn 4 netBound.heap).1 < 0 ∧
    (inet_listen refPlat cfgLocal beBacklogFail sockBound 4 netBound).ret =
      (beBacklogFail.tcp_backlogcreate sockBound.s_conn 4 netBound.heap).1 ∧
    (inet_listen refPlat cfgLocal beBacklogFail sockBound 4 netBound).psock = sockBound ∧
    (inet_listen refPlat cfgLocal beBacklogFail sockBound 4 netBound).net.trace =
      netBound.trace ++ [⟨Fn.tcp_backlogcreate, [sockBound.s_conn, 4],
        (beBacklogFail.tcp_backlogcreate sockBound.s_conn 4 netBound.heap).1⟩] :=
  have hb : boundStream refPlat sockBound netBound := by
    unfold boundStream; decide
  ⟨hb, by decide,
    (inet_listen_backlog refPlat cfgLocal beBacklogFail sockBound 4 netBound hb rfl rfl rfl).1
      (by decide)⟩

/-- C17: in a build with the TCP stack, for every bound stream socket for
which backlog creation, when compiled in, does not fail, `inet_listen`
returns exactly the value `tcp_listen` returns for the socket's connection,
negative or not, and leaves the socket as it was. -/
theorem inet_listen_result (K : Plat) (cfg : Config) (B : BackEnd) (psock : Socket)
    (backlog : Int) (n : Net) (hb : boundStream K psock n)
    (hT : cfg.NET_TCP = true) (hH : cfg.NET_TCP_HAVE_STACK = true) :
    (cfg.NET_TCPBACKLOG = true →
      0 ≤ (B.tcp_backlogcreate psock.s_conn backlog n.heap).1 →
      (inet_listen K cfg B psock backlog n).ret =
        (B.tcp_listen psock.s_conn (B.tcp_backlogcreate psock.s_conn backlog n.heap).2).1 ∧
      (inet_listen K cfg B psock backlog n).psock = psock) ∧
    (cfg.NET_TCPBACKLOG = false →
      (inet_listen K cfg B psock backlog n).ret = (B.tcp_listen psock.s_conn n.heap).1 ∧
      (inet_listen K cfg B psock backlog n).psock = psock) := by
  rw [inet_listen_bound K cfg B psock backlog n hb hT hH]
  constructor
  · intro hBL hpos
    have hn : ¬((B.tcp_backlogcreate psock.s_conn backlog n.heap).1 < 0) := not_lt.mpr hpos
    simp [hBL, hn]
  · intro hBL
    simp [hBL]

theorem inet_listen_result_witness :
    boundStream refPlat sockBound netBound ∧
    0 ≤ (beListenFail.tcp_backlogcreate sockBound.s_conn 4 netBound.heap).1 ∧
    (inet_listen refPlat cfgLocal beListenFail sockBound 4 netBound).ret =
      (beListenFail.tcp_listen sockBound.s_conn
        (beListenFail.tcp_backlogcreate sockBound.s_conn 4 netBound.heap).2).1 ∧
    (inet_listen refPlat cfgLocal beListenFail sockBound 4 netBound).ret = -98 :=
  have hb : boundStream refPlat sockBound netBound := by
    unfold boundStream; decide
  ⟨hb, by decide,
    ((inet_listen_result refPlat cfgLocal beListenFail sockBound 4 netBound hb rfl rfl).1 rfl
      (by decide)).1,
    by decide⟩
/-- The capacity check of `inet_accept` (lines 599-635) lets the call pass
when the precondition checks hold. -/
theorem accept_check_none (K : Plat) (cfg : Config) (psock : Socket)
    (addr : Option Sockaddr) (addrlen : Nat) (hL : K.PF_INET ≠ K.PF_INET6)
    (h : acceptChecksPass K cfg psock addr addrlen) :
    (if addr.isSome = true then
        if cfg.NET_IPv4 = true ∧ psock.s_domain = K.PF_INET then
          if addrlen < K.sizeof_sockaddr_in then some (-K.EBADF) else none
        else if cfg.NET_IPv6 = true ∧ psock.s_domain = K.PF_INET6 then
          if addrlen < K.sizeof_sockaddr_in6 then some (-K.EBADF) else none
        else some (-K.EINVAL)
      else (none : Option Int)) = none := by
  rcases h.2 with h0 | ⟨h4, hd, hl⟩ | ⟨h6, hd, hl⟩
  · simp [h0]
  · simp [h4, hd, Nat.not_lt.mpr hl]
  · simp [h6, hd, Nat.not_lt.mpr hl, hL.symm]

/-- The shape of `inet_accept` once the precondition checks have passed, in a
build with the TCP stack: the output socket is initialised, the lock is
taken, and `psock_tcp_accept`, `net_startmonitor` and, after a failed
registration, `psock_close` are called in this order. -/
theorem inet_accept_passed (K : Plat) (cfg : Config) (B : BackEnd) (psock : Socket)
    (addr : Option Sockaddr) (addrlen : Nat) (newsock : Socket) (n : Net)
    (hL : K.PF_INET ≠ K.PF_INET6) (h : acceptChecksPass K cfg psock addr addrlen)
    (hT : cfg.NET_TCP = true) (hH : cfg.NET_TCP_HAVE_STACK = true) :
    inet_accept K cfg B psock addr addrlen newsock n =
      let a := B.psock_tcp_accept psock addr addrlen newsock.s_conn n.heap
      let ns := acceptedSocket K psock newsock a.conn
      let n2 := (net_lock n).called ⟨Fn.psock_tcp_accept, [addrlen], a.ret⟩ a.heap
      let m := B.net_startmonitor ns a.heap
      let n3 := n2.called ⟨Fn.net_startmonitor, [], m.ret⟩ m.heap
      let c := B.psock_close m.psock m.heap
      let n4 := n3.called ⟨Fn.psock_close, [], c.ret⟩ c.heap
      if a.ret < 0 then ⟨a.ret, a.psock, ns, a.addr, a.addrlen, net_unlock n2⟩
      else if m.ret < 0 then ⟨m.ret, a.psock, c.psock, a.addr, a.addrlen, net_unlock n4⟩
      else ⟨0, a.psock, m.psock, a.addr, a.addrlen, net_unlock n3⟩ := by
  have hS : ¬(psock.s_type ≠ K.SOCK_STREAM) := fun c => c h.1
  have hc := accept_check_none K cfg psock addr addrlen hL h
  simp only [inet_accept, if_neg hS, hc]
  simp only [hT, hH, and_self, if_true]
  rfl
/-- C18: for every listening socket whose type is not stream, `inet_accept`
returns `-EOPNOTSUPP` and hands back everything as it was given: the network
state (lock depth and call trace: the lock is not taken, `psock_tcp_accept` is
not called), the listening socket, the address buffer and every field of the
output socket. -/
theorem inet_accept_not_stream (K : Plat) (cfg : Config) (B : BackEnd) (psock : Socket)
    (addr : Option Sockaddr) (addrlen : Nat) (newsock : Socket) (n : Net)
    (hS : psock.s_type ≠ K.SOCK_STREAM) :
    inet_accept K cfg B psock addr addrlen newsock n =
      ⟨-K.EOPNOTSUPP, psock, newsock, addr, addrlen, n⟩ := by
  simp only [inet_accept, if_pos hS]

theorem inet_accept_not_stream_witness :
    (sockInet 2).s_type ≠ refPlat.SOCK_STREAM ∧
    inet_accept refPlat cfgLocal beOK (sockInet 2) none 0 sockBlank netBound =
      ⟨-refPlat.EOPNOTSUPP, sockInet 2, sockBlank, none, 0, netBound⟩ :=
  ⟨by decide,
    inet_accept_not_stream refPlat cfgLocal beOK (sockInet 2) none 0 sockBlank netBound
      (by decide)⟩

/-- C19: for a stream socket of family INET in a build with IPv4 (resp. of
family INET6 in a build with IPv6), a supplied address buffer whose declared
capacity is below `sizeof(struct sockaddr_in)` (resp.
`sizeof(struct sockaddr_in6)`) makes `inet_accept` return `-EBADF`, the code's
"bad address" value, with the network state (lock, call trace), the
listening socket and the output socket as they were given.  Without an
address buffer, for every capacity value and every family, in a build with the
TCP stack, `inet_accept` takes the lock and calls `psock_tcp_accept`. -/
theorem inet_accept_capacity_check (K : Plat) (cfg : Config) (B : BackEnd) (psock : Socket)
    (a : Sockaddr) (addrlen : Nat) (newsock : Socket) (n : Net)
    (hL : K.PF_INET ≠ K.PF_INET6) (hS : psock.s_type = K.SOCK_STREAM) :
    (cfg.NET_IPv4 = true → psock.s_domain = K.PF_INET → addrlen < K.sizeof_sockaddr_in →
      inet_accept K cfg B psock (some a) addrlen newsock n =
        ⟨-K.EBADF, psock, newsock, some a, addrlen, n⟩) ∧
    (cfg.NET_IPv6 = true → psock.s_domain = K.PF_INET6 → addrlen < K.sizeof_sockaddr_in6 →
      inet_accept K cfg B psock (some a) addrlen newsock n =
        ⟨-K.EBADF, psock, newsock, some a, addrlen, n⟩) ∧
    (cfg.NET_TCP = true → cfg.NET_TCP_HAVE_STACK = true →
      ∃ rest : List Call,
        (inet_accept K cfg B psock none addrlen newsock n).net.trace =
          n.trace ++ [⟨Fn.net_lock, [], 0⟩,
            ⟨Fn.psock_tcp_accept, [addrlen],
              (B.psock_tcp_accept psock none addrlen newsock.s_conn n.heap).ret⟩] ++ rest) := by
  have hS' : ¬(psock.s_type ≠ K.SOCK_STREAM) := fun c => c hS
  refine ⟨fun h4 hd hl => ?_, fun h6 hd hl => ?_, fun hT hH => ?_⟩
  · simp only [inet_accept, if_neg hS']
    simp [h4, hd, hl]
  · simp only [inet_accept, if_neg hS']
    simp [h6, hd, hl, hL.symm]
  · have hp : acceptChecksPass K cfg psock none addrlen := ⟨hS, Or.inl rfl⟩
    rw [inet_accept_passed K cfg B psock none addrlen newsock n hL hp hT hH]
    simp only
    split_ifs
    · exact ⟨[⟨Fn.net_unlock, [], 0⟩], by simp [net_unlock, net_lock, Net.called]⟩
    · exact ⟨_, by simp [net_unlock, net_lock, Net.called]; rfl⟩
    · exact ⟨_, by simp [net_unlock, net_lock, Net.called]; rfl⟩

theorem inet_accept_capacity_check_witness :
    refPlat.PF_INET ≠ refPlat.PF_INET6 ∧ sockBound.s_type = refPlat.SOCK_STREAM ∧
    inet_accept refPlat cfgLocal beOK sockBound (some addrV4) 3 sockBlank netBound =
      ⟨-refPlat.EBADF, sockBound, sockBlank, some addrV4, 3, netBound⟩ ∧
    (∃ rest : List Call,
      (inet_accept refPlat cfgLocal beOK sockBound none 3 sockBlank netBound).net.trace =
        netBound.trace ++ [⟨Fn.net_lock, [], 0⟩,
          ⟨Fn.psock_tcp_accept, [3],
            (beOK.psock_tcp_accept sockBound none 3 sockBlank.s_conn netBound.heap).ret⟩] ++
          rest) :=
  have h := inet_accept_capacity_check refPlat cfgLocal beOK sockBound addrV4 3 sockBlank
    netBound (by decide) rfl
  ⟨by decide, rfl, h.1 rfl rfl (by decide), h.2.2 rfl rfl⟩
/-- C20: whenever `inet_accept` passes its precondition checks, the output
socket's family, type and interface-table reference are set from the
listening socket before anything else happens: in a build without the TCP
stack the output socket is returned so initialised; with the stack, when
`psock_tcp_accept` fails the output socket is the initialised one (with the
connection `psock_tcp_accept` stored), and otherwise it is the initialised
one that `net_startmonitor` receives.  `inet_accept` returns 0 only when both
calls succeed, and then the output socket is the one `net_startmonitor` left;
so when `net_startmonitor` does not write these three fields, after every
successful accept the output socket's family, type and interface-table
reference equal the listening socket's. -/
theorem inet_accept_initialises_newsock (K : Plat) (cfg : Config) (B : BackEnd)
    (psock : Socket) (addr : Option Sockaddr) (addrlen : Nat) (newsock : Socket) (n : Net)
    (hL : K.PF_INET ≠ K.PF_INET6) (hp : acceptChecksPass K cfg psock addr addrlen) :
    (∀ conn : Nat,
      (acceptedSocket K psock newsock conn).s_domain = psock.s_domain ∧
      (acceptedSocket K psock newsock conn).s_type = psock.s_type ∧
      (acceptedSocket K psock newsock conn).s_sockif = psock.s_sockif) ∧
    (¬(cfg.NET_TCP = true ∧ cfg.NET_TCP_HAVE_STACK = true) →
      (inet_accept K cfg B psock addr addrlen newsock n).newsock =
        acceptedSocket K psock newsock newsock.s_conn) ∧
    (cfg.NET_TCP = true → cfg.NET_TCP_HAVE_STACK = true →
      ((B.psock_tcp_accept psock addr addrlen newsock.s_conn n.heap).ret < 0 →
        (inet_accept K cfg B psock addr addrlen newsock n).newsock =
          acceptedSocket K psock newsock
            (B.psock_tcp_accept psock addr addrlen newsock.s_conn n.heap).conn) ∧
      ((inet_accept K cfg B psock addr addrlen newsock n).ret = 0 →
        (inet_accept K cfg B psock addr addrlen newsock n).newsock =
          (B.net_startmonitor
            (acceptedSocket K psock newsock
              (B.psock_tcp_accept psock addr addrlen newsock.s_conn n.heap).conn)
            (B.psock_tcp_accept psock addr addrlen newsock.s_conn n.heap).heap).psock) ∧
      ((∀ (s : Socket) (h : Heap),
          (B.net_startmonitor s h).psock.s_domain = s.s_domain ∧
          (B.net_startmonitor s h).psock.s_type = s.s_type ∧
          (B.net_startmonitor s h).psock.s_sockif = s.s_sockif) →
        (inet_accept K cfg B psock addr addrlen newsock n).ret = 0 →
        (inet_accept K cfg B psock addr addrlen newsock n).newsock.s_domain = psock.s_domain ∧
        (inet_accept K cfg B psock addr addrlen newsock n).newsock.s_type = psock.s_type ∧
        (inet_accept K cfg B psock addr addrlen newsock n).newsock.s_sockif =
          psock.s_sockif)) := by
  have hinit : ∀ conn : Nat,
      (acceptedSocket K psock newsock conn).s_domain = psock.s_domain ∧
      (acceptedSocket K psock newsock conn).s_type = psock.s_type ∧
      (acceptedSocket K psock newsock conn).s_sockif = psock.s_sockif :=
    fun conn => ⟨rfl, hp.1.symm, rfl⟩
  refine ⟨hinit, fun hno => ?_, fun hT hH => ?_⟩
  · have hS : ¬(psock.s_type ≠ K.SOCK_STREAM) := fun c => c hp.1
    have hc := accept_check_none K cfg psock addr addrlen hL hp
    simp only [inet_accept, if_neg hS, hc, if_neg hno]
    rfl
  · have e := inet_accept_passed K cfg B psock addr addrlen newsock n hL hp hT hH
    simp only at e
    have hsucc : (inet_accept K cfg B psock addr addrlen newsock n).ret = 0 →
        (inet_accept K cfg B psock addr addrlen newsock n).newsock =
          (B.net_startmonitor
            (acceptedSocket K psock newsock
              (B.psock_tcp_accept psock addr addrlen newsock.s_conn n.heap).conn)
            (B.psock_tcp_accept psock addr addrlen newsock.s_conn n.heap).heap).psock := by
      rw [e]
      split_ifs with h1 h2
      · intro h0
        simp only at h0
        omega
      · intro h0
        simp only at h0
        omega
      · intro _
        rfl
    refine ⟨fun hneg => ?_, hsucc, fun hmon h0 => ?_⟩
    · rw [e, if_pos hneg]
    · rw [hsucc h0]
      obtain ⟨m1, m2, m3⟩ := hmon
        (acceptedSocket K psock newsock
          (B.psock_tcp_accept psock addr addrlen newsock.s_conn n.heap).conn)
        (B.psock_tcp_accept psock addr addrlen newsock.s_conn n.heap).heap
      obtain ⟨i1, i2, i3⟩ := hinit
        (B.psock_tcp_accept psock addr addrlen newsock.s_conn n.heap).conn
      exact ⟨m1.trans i1, m2.trans i2, m3.trans i3⟩

theorem inet_accept_initialises_newsock_witness :
    refPlat.PF_INET ≠ refPlat.PF_INET6 ∧
    acceptChecksPass refPlat cfgLocal sockBound (some addrV4) 16 ∧
    (inet_accept refPlat cfgLocal beOK sockBound (some addrV4) 16 sockBlank netBound).ret = 0 ∧
    (inet_accept refPlat cfgLocal beOK sockBound (some addrV4) 16 sockBlank
        netBound).newsock.s_domain = sockBound.s_domain ∧
    (inet_accept refPlat cfgLocal beOK sockBound (some addrV4) 16 sockBlank
        netBound).newsock.s_type = sockBound.s_type ∧
    (inet_accept refPlat cfgLocal beOK sockBound (some addrV4) 16 sockBlank
        netBound).newsock.s_sockif = sockBound.s_sockif :=
  have hp : acceptChecksPass refPlat cfgLocal sockBound (some addrV4) 16 := by
    unfold acceptChecksPass; decide
  have h0 : (inet_accept refPlat cfgLocal beOK sockBound (some addrV4) 16 sockBlank
      netBound).ret = 0 := by decide
  ⟨by decide, hp, h0,
    ((inet_accept_initialises_newsock refPlat cfgLocal beOK sockBound (some addrV4) 16
      sockBlank netBound (by decide) hp).2.2 rfl rfl).2.2
      (fun _ _ => ⟨rfl, rfl, rfl⟩) h0⟩

/-- The three ways `inet_accept` can run: it returns at a precondition check
with everything as given; or, in a build without the TCP stack, it returns
`-EOPNOTSUPP` after initialising the output socket; or it runs its critical
section. -/
theorem inet_accept_cases (K : Plat) (cfg : Config) (B : BackEnd) (psock : Socket)
    (addr : Option Sockaddr) (addrlen : Nat) (newsock : Socket) (n : Net) :
    (∃ e : Int, inet_accept K cfg B psock addr addrlen newsock n =
      ⟨e, psock, newsock, addr, addrlen, n⟩) ∨
    inet_accept K cfg B psock addr addrlen newsock n =
      ⟨-K.EOPNOTSUPP, psock, acceptedSocket K psock newsock newsock.s_conn, addr, addrlen, n⟩ ∨
    inet_accept K cfg B psock addr addrlen newsock n =
      inet_accept_locked K B psock addr addrlen newsock n := by
  by_cases hS : psock.s_type ≠ K.SOCK_STREAM
  · left
    exact ⟨-K.EOPNOTSUPP, by simp only [inet_accept, if_pos hS]⟩
  · simp only [inet_accept, if_neg hS]
    split
    · left
      exact ⟨_, rfl⟩
    · right
      by_cases hT : cfg.NET_TCP = true ∧ cfg.NET_TCP_HAVE_STACK = true
      · right
        simp only [if_pos hT]
        rfl
      · left
        simp only [if_neg hT]
        rfl

theorem inet_accept_passed_locked (K : Plat) (cfg : Config) (B : BackEnd) (psock : Socket)
    (addr : Option Sockaddr) (addrlen : Nat) (newsock : Socket) (n : Net)
    (hL : K.PF_INET ≠ K.PF_INET6) (h : acceptChecksPass K cfg psock addr addrlen)
    (hT : cfg.NET_TCP = true) (hH : cfg.NET_TCP_HAVE_STACK = true) :
    inet_accept K cfg B psock addr addrlen newsock n =
      inet_accept_locked K B psock addr addrlen newsock n :=
  inet_accept_passed K cfg B psock addr addrlen newsock n hL h hT hH

/-- The calls of the critical section of `inet_accept`, its result, the
sockets and the lock depth it leaves, on each of its three paths. -/
theorem inet_accept_locked_paths (K : Plat) (B : BackEnd) (psock : Socket)
    (addr : Option Sockaddr) (addrlen : Nat) (newsock : Socket) (n : Net) :
    ((acceptOut B psock addr addrlen newsock n).ret < 0 →
      (inet_accept_locked K B psock addr addrlen newsock n).ret =
        (acceptOut B psock addr addrlen newsock n).ret ∧
      (inet_accept_locked K B psock addr addrlen newsock n).newsock =
        acceptedSocket K psock newsock (acceptOut B psock addr addrlen newsock n).conn ∧
      (inet_accept_locked K B psock addr addrlen newsock n).net.trace =
        n.trace ++ [⟨Fn.net_lock, [], 0⟩,
          ⟨Fn.psock_tcp_accept, [addrlen], (acceptOut B psock addr addrlen newsock n).ret⟩,
          ⟨Fn.net_unlock, [], 0⟩]) ∧
    (0 ≤ (acceptOut B psock addr addrlen newsock n).ret →
      (monitorOut K B psock addr addrlen newsock n).ret < 0 →
      (inet_accept_locked K B psock addr addrlen newsock n).ret =
        (monitorOut K B psock addr addrlen newsock n).ret ∧
      (inet_accept_locked K B psock addr addrlen newsock n).newsock =
        (closeOut K B psock addr addrlen newsock n).psock ∧
      (inet_accept_locked K B psock addr addrlen newsock n).net.trace =
        n.trace ++ [⟨Fn.net_lock, [], 0⟩,
          ⟨Fn.psock_tcp_accept, [addrlen], (acceptOut B psock addr addrlen newsock n).ret⟩,
          ⟨Fn.net_startmonitor, [], (monitorOut K B psock addr addrlen newsock n).ret⟩,
          ⟨Fn.psock_close, [], (closeOut K B psock addr addrlen newsock n).ret⟩,
          ⟨Fn.net_unlock, [], 0⟩]) ∧
    (0 ≤ (acceptOut B psock addr addrlen newsock n).ret →
      0 ≤ (monitorOut K B psock addr addrlen newsock n).ret →
      (inet_accept_locked K B psock addr addrlen newsock n).ret = 0 ∧
      (inet_accept_locked K B psock addr addrlen newsock n).newsock =
        (monitorOut K B psock addr addrlen newsock n).psock ∧
      (inet_accept_locked K B psock addr addrlen newsock n).net.trace =
        n.trace ++ [⟨Fn.net_lock, [], 0⟩,
          ⟨Fn.psock_tcp_accept, [addrlen], (acceptOut B psock addr addrlen newsock n).ret⟩,
          ⟨Fn.net_startmonitor, [], (monitorOut K B psock addr addrlen newsock n).ret⟩,
          ⟨Fn.net_unlock, [], 0⟩]) ∧
    (inet_accept_locked K B psock addr addrlen newsock n).net.lock = n.lock ∧
    (inet_accept_locked K B psock addr addrlen newsock n).psock =
      (acceptOut B psock addr addrlen newsock n).psock := by
  refine ⟨fun h1 => ?_, fun h1 h2 => ?_, fun h1 h2 => ?_, ?_, ?_⟩
  · unfold acceptOut at h1
    simp [inet_accept_locked, acceptOut, h1, net_lock, net_unlock, Net.called]
  · have h1' := not_lt.mpr h1
    unfold monitorOut at h2
    unfold acceptOut at h1' h2
    simp [inet_accept_locked, acceptOut, monitorOut, closeOut, h1', h2, net_lock, net_unlock,
      Net.called]
  · have h1' := not_lt.mpr h1
    have h2' := not_lt.mpr h2
    unfold monitorOut at h2'
    unfold acceptOut at h1' h2'
    simp [inet_accept_locked, acceptOut, monitorOut, h1', h2', net_lock, net_unlock,
      Net.called]
  · unfold inet_accept_locked
    simp only
    split_ifs <;> simp [net_lock, net_unlock, Net.called]
  · unfold inet_accept_locked acceptOut
    simp only
    split_ifs <;> rfl

/-- C21: with the network lock as a counter, for every build, every input and
every result of `psock_tcp_accept` and `net_startmonitor`, `inet_accept` returns
with the lock at the depth it had on entry, and the calls it made, replayed
from depth 0, never release a lock that is not held, end at depth 0 (each
`net_lock` is matched by one `net_unlock`) and contain no call of
`psock_tcp_accept`, `net_startmonitor` or `psock_close` at depth 0: these are
called only while the lock is held. -/
theorem inet_accept_lock_balanced (K : Plat) (cfg : Config) (B : BackEnd) (psock : Socket)
    (addr : Option Sockaddr) (addrlen : Nat) (newsock : Socket) (n : Net) :
    (inet_accept K cfg B psock addr addrlen newsock n).net.lock = n.lock ∧
    ∃ delta : List Call,
      (inet_accept K cfg B psock addr addrlen newsock n).net.trace = n.trace ++ delta ∧
      lockReplay [Fn.psock_tcp_accept, Fn.net_startmonitor, Fn.psock_close] 0 delta =
        some 0 := by
  rcases inet_accept_cases K cfg B psock addr addrlen newsock n with ⟨e, h⟩ | h | h
  · rw [h]
    exact ⟨rfl, [], by simp, rfl⟩
  · rw [h]
    exact ⟨rfl, [], by simp, rfl⟩
  · rw [h]
    obtain ⟨p1, p2, p3, p4, -⟩ := inet_accept_locked_paths K B psock addr addrlen newsock n
    refine ⟨p4, ?_⟩
    by_cases h1 : (acceptOut B psock addr addrlen newsock n).ret < 0
    · exact ⟨_, (p1 h1).2.2, by simp [lockReplay]⟩
    · by_cases h2 : (monitorOut K B psock addr addrlen newsock n).ret < 0
      · exact ⟨_, (p2 (not_lt.mp h1) h2).2.2, by simp [lockReplay]⟩
      · exact ⟨_, (p3 (not_lt.mp h1) (not_lt.mp h2)).2.2, by simp [lockReplay]⟩

/-- C22: once the precondition checks have passed, in a build with the TCP
stack: when `psock_tcp_accept` succeeds and `net_startmonitor` fails with `e`,
`psock_close` is called exactly once, on the output socket as
`net_startmonitor` left it, after `net_startmonitor` and before `net_unlock`,
and `inet_accept` returns `e`; when `psock_tcp_accept` fails with `e`, the
calls are `net_lock`, `psock_tcp_accept`, `net_unlock` (no `psock_close`) and
`e` is returned; when both succeed there is no `psock_close` and 0 is returned. -/
theorem inet_accept_error_paths (K : Plat) (cfg : Config) (B : BackEnd) (psock : Socket)
    (addr : Option Sockaddr) (addrlen : Nat) (newsock : Socket) (n : Net)
    (hL : K.PF_INET ≠ K.PF_INET6) (hp : acceptChecksPass K cfg psock addr addrlen)
    (hT : cfg.NET_TCP = true) (hH : cfg.NET_TCP_HAVE_STACK = true) :
    (0 ≤ (acceptOut B psock addr addrlen newsock n).ret →
      (monitorOut K B psock addr addrlen newsock n).ret < 0 →
      (inet_accept K cfg B psock addr addrlen newsock n).ret =
        (monitorOut K B psock addr addrlen newsock n).ret ∧
      (inet_accept K cfg B psock addr addrlen newsock n).newsock =
        (closeOut K B psock addr addrlen newsock n).psock ∧
      (inet_accept K cfg B psock addr addrlen newsock n).net.trace =
        n.trace ++ [⟨Fn.net_lock, [], 0⟩,
          ⟨Fn.psock_tcp_accept, [addrlen], (acceptOut B psock addr addrlen newsock n).ret⟩,
          ⟨Fn.net_startmonitor, [], (monitorOut K B psock addr addrlen newsock n).ret⟩,
          ⟨Fn.psock_close, [], (closeOut K B psock addr addrlen newsock n).ret⟩,
          ⟨Fn.net_unlock, [], 0⟩]) ∧
    ((acceptOut B psock addr addrlen newsock n).ret < 0 →
      (inet_accept K cfg B psock addr addrlen newsock n).ret =
        (acceptOut B psock addr addrlen newsock n).ret ∧
      (inet_accept K cfg B psock addr addrlen newsock n).net.trace =
        n.trace ++ [⟨Fn.net_lock, [], 0⟩,
          ⟨Fn.psock_tcp_accept, [addrlen], (acceptOut B psock addr addrlen newsock n).ret⟩,
          ⟨Fn.net_unlock, [], 0⟩]) ∧
    (0 ≤ (acceptOut B psock addr addrlen newsock n).ret →
      0 ≤ (monitorOut K B psock addr addrlen newsock n).ret →
      (inet_accept K cfg B psock addr addrlen newsock n).ret = 0 ∧
      (inet_accept K cfg B psock addr addrlen newsock n).net.trace =
        n.trace ++ [⟨Fn.net_lock, [], 0⟩,
          ⟨Fn.psock_tcp_accept, [addrlen], (acceptOut B psock addr addrlen newsock n).ret⟩,
          ⟨Fn.net_startmonitor, [], (monitorOut K B psock addr addrlen newsock n).ret⟩,
          ⟨Fn.net_unlock, [], 0⟩]) := by
  rw [inet_accept_passed_locked K cfg B psock addr addrlen newsock n hL hp hT hH]
  obtain ⟨p1, p2, p3, -, -⟩ := inet_accept_locked_paths K B psock addr addrlen newsock n
  exact ⟨fun h1 h2 => p2 h1 h2, fun h1 => ⟨(p1 h1).1, (p1 h1).2.2⟩,
    fun h1 h2 => ⟨(p3 h1 h2).1, (p3 h1 h2).2.2⟩⟩

theorem inet_accept_error_paths_witness :
    refPlat.PF_INET ≠ refPlat.PF_INET6 ∧
    acceptChecksPass refPlat cfgLocal sockBound none 0 ∧
    0 ≤ (acceptOut beMonitorFail sockBound none 0 sockBlank netBound).ret ∧
    (monitorOut refPlat beMonitorFail sockBound none 0 sockBlank netBound).ret < 0 ∧
    (inet_accept refPlat cfgLocal beMonitorFail sockBound none 0 sockBlank netBound).ret =
      (monitorOut refPlat beMonitorFail sockBound none 0 sockBlank netBound).ret ∧
    (inet_accept refPlat cfgLocal beMonitorFail sockBound none 0 sockBlank netBound).newsock =
      (closeOut refPlat beMonitorFail sockBound none 0 sockBlank netBound).psock ∧
    (inet_accept refPlat cfgLocal beMonitorFail sockBound none 0 sockBlank netBound).net.trace =
      netBound.trace ++ [⟨Fn.net_lock, [], 0⟩,
        ⟨Fn.psock_tcp_accept, [0], (acceptOut beMonitorFail sockBound none 0 sockBlank
          netBound).ret⟩,
        ⟨Fn.net_startmonitor, [], (monitorOut refPlat beMonitorFail sockBound none 0
          sockBlank netBound).ret⟩,
        ⟨Fn.psock_close, [], (closeOut refPlat beMonitorFail sockBound none 0 sockBlank
          netBound).ret⟩,
        ⟨Fn.net_unlock, [], 0⟩] :=
  have hp : acceptChecksPass refPlat cfgLocal sockBound none 0 := by
    unfold acceptChecksPass; decide
  ⟨by decide, hp, by decide, by decide,
    (inet_accept_error_paths refPlat cfgLocal beMonitorFail sockBound none 0 sockBlank
      netBound (by decide) hp rfl rfl).1 (by decide) (by decide)⟩

/-- C23: for every build and every input, the listening socket that
`inet_accept` hands back is the one it was given when `psock_tcp_accept` is not
reached, and otherwise exactly the one `psock_tcp_accept` left: `inet_accept`
itself writes none of its fields.  So when `psock_tcp_accept` leaves the
listening socket as it is, its family, type, state flags, connection pointer
and interface-table reference after the call are those before the call. -/
theorem inet_accept_listener_frame (K : Plat) (cfg : Config) (B : BackEnd) (psock : Socket)
    (addr : Option Sockaddr) (addrlen : Nat) (newsock : Socket) (n : Net) :
    (((inet_accept K cfg B psock addr addrlen newsock n).psock = psock ∧
        (inet_accept K cfg B psock addr addrlen newsock n).net.trace = n.trace) ∨
      (inet_accept K cfg B psock addr addrlen newsock n).psock =
        (acceptOut B psock addr addrlen newsock n).psock) ∧
    ((acceptOut B psock addr addrlen newsock n).psock = psock →
      (inet_accept K cfg B psock addr addrlen newsock n).psock = psock) := by
  rcases inet_accept_cases K cfg B psock addr addrlen newsock n with ⟨e, h⟩ | h | h
  · rw [h]
    exact ⟨Or.inl ⟨rfl, rfl⟩, fun _ => rfl⟩
  · rw [h]
    exact ⟨Or.inl ⟨rfl, rfl⟩, fun _ => rfl⟩
  · rw [h]
    obtain ⟨-, -, -, -, p5⟩ := inet_accept_locked_paths K B psock addr addrlen newsock n
    exact ⟨Or.inr p5, fun hk => p5.trans hk⟩

theorem inet_accept_listener_frame_witness :
    (acceptOut beOK sockBound none 0 sockBlank netBound).psock = sockBound ∧
    (inet_accept refPlat cfgLocal beOK sockBound none 0 sockBlank netBound).psock =
      sockBound :=
  ⟨rfl,
    (inet_accept_listener_frame refPlat cfgLocal beOK sockBound none 0 sockBlank netBound).2
      rfl⟩

/-- C24: for every build, every socket whose type is not stream, not datagram
and, when the provider is configured, not the external-provider type, and
every buffer, length and flags, `inet_send` and `local_send` return
`-EDESTADDRREQ` and hand back the socket and the network state they were
given: no collaborator is called. -/
theorem send_other_type (K : Plat) (cfg : Config) (B : BackEnd) (psock : Socket)
    (buf : List Nat) (len : Nat) (flags : Int) (n : Net)
    (hS : psock.s_type ≠ K.SOCK_STREAM) (hD : psock.s_type ≠ K.SOCK_DGRAM)
    (hU : cfg.NET_USRSOCK = true → psock.s_type ≠ K.SOCK_USRSOCK_TYPE) :
    inet_send K cfg B psock buf len flags n = ⟨-K.EDESTADDRREQ, psock, n⟩ ∧
    local_send K cfg B psock buf len flags n = ⟨-K.EDESTADDRREQ, psock, n⟩ := by
  constructor
  · have hU' : ¬(cfg.NET_USRSOCK = true ∧ psock.s_type = K.SOCK_USRSOCK_TYPE) :=
      fun c => hU c.1 c.2
    simp [inet_send, hS, hD, hU']
  · simp [local_send, hS, hD]

theorem send_other_type_witness :
    (sockInet 3).s_type ≠ refPlat.SOCK_STREAM ∧ (sockInet 3).s_type ≠ refPlat.SOCK_DGRAM ∧
    inet_send refPlat cfgUsrsock beOK (sockInet 3) [1, 2] 2 0 net0 =
      ⟨-refPlat.EDESTADDRREQ, sockInet 3, net0⟩ ∧
    local_send refPlat cfgUsrsock beOK (sockInet 3) [1, 2] 2 0 net0 =
      ⟨-refPlat.EDESTADDRREQ, sockInet 3, net0⟩ :=
  ⟨by decide, by decide,
    send_other_type refPlat cfgUsrsock beOK (sockInet 3) [1, 2] 2 0 net0
      (by decide) (by decide) (fun _ => by decide)⟩

/-- C25 (counterexample): a build with TCP and UDP enabled, without 6LoWPAN
and without the native stacks: `inet_send` on a stream socket and on a
datagram socket returns `-ENOSYS` (-38), not `-EOPNOTSUPP` (-95); so does
`local_send` on a datagram socket in the full build. -/
theorem send_no_backend_not_EOPNOTSUPP :
    (inet_send refPlat cfgNoStack beOK (sockInet 1) [1, 2] 2 0 net0).ret = -refPlat.ENOSYS ∧
    (inet_send refPlat cfgNoStack beOK (sockInet 1) [1, 2] 2 0 net0).ret ≠
      -refPlat.EOPNOTSUPP ∧
    (inet_send refPlat cfgNoStack beOK (sockInet 2) [1, 2] 2 0 net0).ret = -refPlat.ENOSYS ∧
    (local_send refPlat cfgLocal beOK (sockLocal 2) [1, 2] 2 0 net0).ret = -refPlat.ENOSYS ∧
    (local_send refPlat cfgLocal beOK (sockLocal 2) [1, 2] 2 0 net0).ret ≠
      -refPlat.EOPNOTSUPP := by
  decide

/-- C25 (as amended): for a socket type that is enabled but has no send back
end compiled in (stream, resp. datagram, in `inet_send` in a build with
neither 6LoWPAN nor the native TCP, resp. UDP, stack; datagram in
`local_send`), send returns `-ENOSYS` for every buffer, length and flags and
hands back the socket and the network state it was given. -/
theorem send_no_backend (K : Plat) (cfg : Config) (B : BackEnd) (psock : Socket)
    (buf : List Nat) (len : Nat) (flags : Int) (n : Net)
    (hL : K.SOCK_STREAM ≠ K.SOCK_DGRAM) :
    (cfg.NET_TCP = true → cfg.NET_6LOWPAN = false → cfg.NET_TCP_HAVE_STACK = false →
      psock.s_type = K.SOCK_STREAM →
      inet_send K cfg B psock buf len flags n = ⟨-K.ENOSYS, psock, n⟩) ∧
    (cfg.NET_UDP = true → cfg.NET_6LOWPAN = false → cfg.NET_UDP_HAVE_STACK = false →
      psock.s_type = K.SOCK_DGRAM →
      inet_send K cfg B psock buf len flags n = ⟨-K.ENOSYS, psock, n⟩) ∧
    (cfg.NET_UDP = true → psock.s_type = K.SOCK_DGRAM →
      local_send K cfg B psock buf len flags n = ⟨-K.ENOSYS, psock, n⟩) := by
  refine ⟨fun hT h6 hH hS => ?_, fun hD h6 hH hS => ?_, fun hD hS => ?_⟩
  · simp [inet_send, hT, h6, hH, hS]
  · simp [inet_send, hD, h6, hH, hS, hL.symm]
  · simp [local_send, hD, hS, hL.symm]

theorem send_no_backend_witness :
    refPlat.SOCK_STREAM ≠ refPlat.SOCK_DGRAM ∧
    inet_send refPlat cfgNoStack beOK (sockInet 1) [1, 2] 2 0 net0 =
      ⟨-refPlat.ENOSYS, sockInet 1, net0⟩ ∧
    local_send refPlat cfgLocal beOK (sockLocal 2) [1, 2] 2 0 net0 =
      ⟨-refPlat.ENOSYS, sockLocal 2, net0⟩ :=
  ⟨by decide,
    (send_no_backend refPlat cfgNoStack beOK (sockInet 1) [1, 2] 2 0 net0 (by decide)).1
      rfl rfl rfl rfl,
    (send_no_backend refPlat cfgLocal beOK (sockLocal 2) [1, 2] 2 0 net0 (by decide)).2.2
      rfl rfl⟩

/-- The selection of the minimum length in `inet_bind` and `inet_sendto`
succeeds, with a minimum that the length reaches, for an address that passes
the test of the specification. -/
theorem inet_minlen_ok (K : Plat) (cfg : Config) (family : Int) (len : Nat)
    (hA : K.AF_INET ≠ K.AF_INET6) (hok : inetAddrOk K cfg family len) :
    ∃ m : Nat, ¬(len < m) ∧
      (if cfg.NET_IPv4 = true ∧ family = K.AF_INET then some K.sizeof_sockaddr_in
        else if cfg.NET_IPv6 = true ∧ family = K.AF_INET6 then some K.sizeof_sockaddr_in6
        else none) = some m := by
  rcases hok with ⟨h4, hf, hl⟩ | ⟨h6, hf, hl⟩
  · exact ⟨_, Nat.not_lt.mpr hl, by simp [h4, hf]⟩
  · exact ⟨_, Nat.not_lt.mpr hl, by simp [h6, hf, hA.symm]⟩

/-- The shape of `inet_sendto` in a build with UDP, for a socket that is not
of the external-provider type and a destination that passes validation: the
code from the test of the socket type on (lines 862-891). -/
theorem inet_sendto_valid (K : Plat) (cfg : Config) (B : BackEnd) (psock : Socket)
    (buf : List Nat) (len : Nat) (flags : Int) (toaddr : Sockaddr) (tolen : Nat) (n : Net)
    (hA : K.AF_INET ≠ K.AF_INET6) (hok : inetAddrOk K cfg toaddr.sa_family tolen)
    (hU : ¬(cfg.NET_USRSOCK = true ∧ psock.s_type = K.SOCK_USRSOCK_TYPE))
    (hD : cfg.NET_UDP = true) :
    inet_sendto K cfg B psock buf len flags toaddr tolen n =
      if psock.s_type ≠ K.SOCK_DGRAM then
        ⟨-K.EBADF, psock, n⟩
      else if cfg.NET_6LOWPAN = true then
        if cfg.NETDEV_MULTINIC = true ∧ cfg.NET_UDP_HAVE_STACK = true ∧
            (B.psock_6lowpan_udp_sendto psock buf len flags toaddr tolen n.heap).ret < 0 then
          ⟨(B.psock_udp_sendto
              (B.psock_6lowpan_udp_sendto psock buf len flags toaddr tolen n.heap).psock
              buf len flags toaddr tolen
              (B.psock_6lowpan_udp_sendto psock buf len flags toaddr tolen n.heap).heap).ret,
            (B.psock_udp_sendto
              (B.psock_6lowpan_udp_sendto psock buf len flags toaddr tolen n.heap).psock
              buf len flags toaddr tolen
              (B.psock_6lowpan_udp_sendto psock buf len flags toaddr tolen n.heap).heap).psock,
            ⟨(B.psock_udp_sendto
              (B.psock_6lowpan_udp_sendto psock buf len flags toaddr tolen n.heap).psock
              buf len flags toaddr tolen
              (B.psock_6lowpan_udp_sendto psock buf len flags toaddr tolen n.heap).heap).heap,
              n.lock,
              n.trace ++ [⟨Fn.psock_6lowpan_udp_sendto, [len, flags, toaddr.sa_family, tolen],
                  (B.psock_6lowpan_udp_sendto psock buf len flags toaddr tolen n.heap).ret⟩,
                ⟨Fn.psock_udp_sendto, [len, flags, toaddr.sa_family, tolen],
                  (B.psock_udp_sendto
                    (B.psock_6lowpan_udp_sendto psock buf len flags toaddr tolen n.heap).psock
                    buf len flags toaddr tolen
                    (B.psock_6lowpan_udp_sendto psock buf len flags toaddr tolen
                      n.heap).heap).ret⟩]⟩⟩
        else
          ⟨(B.psock_6lowpan_udp_sendto psock buf len flags toaddr tolen n.heap).ret,
            (B.psock_6lowpan_udp_sendto psock buf len flags toaddr tolen n.heap).psock,
            ⟨(B.psock_6lowpan_udp_sendto psock buf len flags toaddr tolen n.heap).heap, n.lock,
              n.trace ++ [⟨Fn.psock_6lowpan_udp_sendto, [len, flags, toaddr.sa_family, tolen],
                (B.psock_6lowpan_udp_sendto psock buf len flags toaddr tolen n.heap).ret⟩]⟩⟩
      else if cfg.NET_UDP_HAVE_STACK = true then
        ⟨(B.psock_udp_sendto psock buf len flags toaddr tolen n.heap).ret,
          (B.psock_udp_sendto psock buf len flags toaddr tolen n.heap).psock,
          ⟨(B.psock_udp_sendto psock buf len flags toaddr tolen n.heap).heap, n.lock,
            n.trace ++ [⟨Fn.psock_udp_sendto, [len, flags, toaddr.sa_family, tolen],
              (B.psock_udp_sendto psock buf len flags toaddr tolen n.heap).ret⟩]⟩⟩
      else
        ⟨-K.ENOSYS, psock, n⟩ := by
  obtain ⟨m, hm, hsel⟩ := inet_minlen_ok K cfg toaddr.sa_family tolen hA hok
  simp only [inet_sendto, if_neg hU, hsel]
  simp only [if_neg hm, hD, if_true, Net.called]
  split_ifs <;> simp_all

/-- C26: in a build with the 6LoWPAN encoding, multi-NIC support and the
native stack, for stream and datagram sockets in `inet_send` and for datagram
sockets (with a destination that passes validation) in `inet_sendto`: the
6LoWPAN send is the first call; when it returns a value `r >= 0` it is the
only call and the result is `r`; when it returns a negative value, whichever,
the generic send is called once, with the same buffer and length (and flags
and destination), and its return value is the result. -/
theorem send_fallback (K : Plat) (cfg : Config) (B : BackEnd) (psock : Socket)
    (buf : List Nat) (len : Nat) (flags : Int) (toaddr : Sockaddr) (tolen : Nat) (n : Net)
    (hL : K.labelsDistinct) (h6 : cfg.NET_6LOWPAN = true) (hM : cfg.NETDEV_MULTINIC = true) :
    (cfg.NET_TCP = true → cfg.NET_TCP_HAVE_STACK = true → psock.s_type = K.SOCK_STREAM →
      (0 ≤ (B.psock_6lowpan_tcp_send psock buf len n.heap).ret →
        (inet_send K cfg B psock buf len flags n).ret =
          (B.psock_6lowpan_tcp_send psock buf len n.heap).ret ∧
        (inet_send K cfg B psock buf len flags n).net.trace =
          n.trace ++ [⟨Fn.psock_6lowpan_tcp_send, [len],
            (B.psock_6lowpan_tcp_send psock buf len n.heap).ret⟩]) ∧
      ((B.psock_6lowpan_tcp_send psock buf len n.heap).ret < 0 →
        (inet_send K cfg B psock buf len flags n).ret =
          (B.psock_tcp_send (B.psock_6lowpan_tcp_send psock buf len n.heap).psock buf len
            (B.psock_6lowpan_tcp_send psock buf len n.heap).heap).ret ∧
        (inet_send K cfg B psock buf len flags n).net.trace =
          n.trace ++ [⟨Fn.psock_6lowpan_tcp_send, [len],
              (B.psock_6lowpan_tcp_send psock buf len n.heap).ret⟩,
            ⟨Fn.psock_tcp_send, [len],
              (B.psock_tcp_send (B.psock_6lowpan_tcp_send psock buf len n.heap).psock buf len
                (B.psock_6lowpan_tcp_send psock buf len n.heap).heap).ret⟩])) ∧
    (cfg.NET_UDP = true → cfg.NET_UDP_HAVE_STACK = true → psock.s_type = K.SOCK_DGRAM →
      (0 ≤ (B.psock_6lowpan_udp_send psock buf len n.heap).ret →
        (inet_send K cfg B psock buf len flags n).ret =
          (B.psock_6lowpan_udp_send psock buf len n.heap).ret ∧
        (inet_send K cfg B psock buf len flags n).net.trace =
          n.trace ++ [⟨Fn.psock_6lowpan_udp_send, [len],
            (B.psock_6lowpan_udp_send psock buf len n.heap).ret⟩]) ∧
      ((B.psock_6lowpan_udp_send psock buf len n.heap).ret < 0 →
        (inet_send K cfg B psock buf len flags n).ret =
          (B.psock_udp_send (B.psock_6lowpan_udp_send psock buf len n.heap).psock buf len
            (B.psock_6lowpan_udp_send psock buf len n.heap).heap).ret ∧
        (inet_send K cfg B psock buf len flags n).net.trace =
          n.trace ++ [⟨Fn.psock_6lowpan_udp_send, [len],
              (B.psock_6lowpan_udp_send psock buf len n.heap).ret⟩,
            ⟨Fn.psock_udp_send, [len],
              (B.psock_udp_send (B.psock_6lowpan_udp_send psock buf len n.heap).psock buf len
                (B.psock_6lowpan_udp_send psock buf len n.heap).heap).ret⟩])) ∧
    (cfg.NET_UDP = true → cfg.NET_UDP_HAVE_STACK = true → psock.s_type = K.SOCK_DGRAM →
      inetAddrOk K cfg toaddr.sa_family tolen →
      (0 ≤ (B.psock_6lowpan_udp_sendto psock buf len flags toaddr tolen n.heap).ret →
        (inet_sendto K cfg B psock buf len flags toaddr tolen n).ret =
          (B.psock_6lowpan_udp_sendto psock buf len flags toaddr tolen n.heap).ret ∧
        (inet_sendto K cfg B psock buf len flags toaddr tolen n).net.trace =
          n.trace ++ [⟨Fn.psock_6lowpan_udp_sendto, [len, flags, toaddr.sa_family, tolen],
            (B.psock_6lowpan_udp_sendto psock buf len flags toaddr tolen n.heap).ret⟩]) ∧
      ((B.psock_6lowpan_udp_sendto psock buf len flags toaddr tolen n.heap).ret < 0 →
        (inet_sendto K cfg B psock buf len flags toaddr tolen n).ret =
          (B.psock_udp_sendto
            (B.psock_6lowpan_udp_sendto psock buf len flags toaddr tolen n.heap).psock
            buf len flags toaddr tolen
            (B.psock_6lowpan_udp_sendto psock buf len flags toaddr tolen n.heap).heap).ret ∧
        (inet_sendto K cfg B psock buf len flags toaddr tolen n).net.trace =
          n.trace ++ [⟨Fn.psock_6lowpan_udp_sendto, [len, flags, toaddr.sa_family, tolen],
              (B.psock_6lowpan_udp_sendto psock buf len flags toaddr tolen n.heap).ret⟩,
            ⟨Fn.psock_udp_sendto, [len, flags, toaddr.sa_family, tolen],
              (B.psock_udp_sendto
                (B.psock_6lowpan_udp_sendto psock buf len flags toaddr tolen n.heap).psock
                buf len flags toaddr tolen
                (B.psock_6lowpan_udp_sendto psock buf len flags toaddr tolen
                  n.heap).heap).ret⟩])) := by
  obtain ⟨hSD, hUS, hUD, hA, -⟩ := hL
  refine ⟨fun hT hH hS => ⟨fun hr => ?_, fun hr => ?_⟩,
    fun hD hH hS => ⟨fun hr => ?_, fun hr => ?_⟩,
    fun hD hH hS hok => ⟨fun hr => ?_, fun hr => ?_⟩⟩
  · have hr' := not_lt.mpr hr
    simp [inet_send, hT, hS, h6, hM, hH, hr', Net.called]
  · simp [inet_send, hT, hS, h6, hM, hH, hr, Net.called]
  · have hr' := not_lt.mpr hr
    simp [inet_send, hD, hS, h6, hM, hH, hr', hSD.symm, Net.called]
  · simp [inet_send, hD, hS, h6, hM, hH, hr, hSD.symm, Net.called]
  · have hr' := not_lt.mpr hr
    have hU : ¬(cfg.NET_USRSOCK = true ∧ psock.s_type = K.SOCK_USRSOCK_TYPE) :=
      fun c => hUD (c.2.symm.trans hS)
    rw [inet_sendto_valid K cfg B psock buf len flags toaddr tolen n hA hok hU hD]
    simp [hS, h6, hM, hH, hr']
  · have hU : ¬(cfg.NET_USRSOCK = true ∧ psock.s_type = K.SOCK_USRSOCK_TYPE) :=
      fun c => hUD (c.2.symm.trans hS)
    rw [inet_sendto_valid K cfg B psock buf len flags toaddr tolen n hA hok hU hD]
    simp [hS, h6, hM, hH, hr]

theorem send_fallback_witness :
    refPlat.labelsDistinct ∧
    (be6loFail.psock_6lowpan_tcp_send (sockInet 1) [1, 2] 2 net0.heap).ret < 0 ∧
    (inet_send refPlat cfg6lo be6loFail (sockInet 1) [1, 2] 2 0 net0).ret =
      (be6loFail.psock_tcp_send
        (be6loFail.psock_6lowpan_tcp_send (sockInet 1) [1, 2] 2 net0.heap).psock [1, 2] 2
        (be6loFail.psock_6lowpan_tcp_send (sockInet 1) [1, 2] 2 net0.heap).heap).ret ∧
    (inet_send refPlat cfg6lo be6loFail (sockInet 1) [1, 2] 2 0 net0).net.trace =
      net0.trace ++ [⟨Fn.psock_6lowpan_tcp_send, [2],
          (be6loFail.psock_6lowpan_tcp_send (sockInet 1) [1, 2] 2 net0.heap).ret⟩,
        ⟨Fn.psock_tcp_send, [2],
          (be6loFail.psock_tcp_send
            (be6loFail.psock_6lowpan_tcp_send (sockInet 1) [1, 2] 2 net0.heap).psock [1, 2] 2
            (be6loFail.psock_6lowpan_tcp_send (sockInet 1) [1, 2] 2 net0.heap).heap).ret⟩] :=
  ⟨by decide, by decide,
    ((send_fallback refPlat cfg6lo be6loFail (sockInet 1) [1, 2] 2 0 addrV4 16 net0
      (by decide) rfl rfl).1 rfl rfl rfl).2 (by decide)⟩

/-- C27 (the code at the failing input): a build with UDP, an IPv4 stream
socket and a valid 16-byte `AF_INET` destination.  `inet_sendto` calls no back
end but returns `-EBADF` (-9), not `-EISCONN` (-106): line 868 returns `-EBADF`
under the comment "If this is a connected socket, then return EISCONN".  The
same call in a build without UDP (line 894) and `local_sendto` on a local
stream socket (line 434) return `-EISCONN`. -/
theorem inet_sendto_stream_not_EISCONN :
    inetAddrOk refPlat cfgLocal addrV4.sa_family 16 ∧
    (inet_sendto refPlat cfgLocal beOK (sockInet 1) [1, 2] 2 0 addrV4 16 net0).ret =
      -refPlat.EBADF ∧
    (inet_sendto refPlat cfgLocal beOK (sockInet 1) [1, 2] 2 0 addrV4 16 net0).ret ≠
      -refPlat.EISCONN ∧
    (inet_sendto refPlat cfgLocal beOK (sockInet 1) [1, 2] 2 0 addrV4 16 net0).net.trace = [] ∧
    (inet_sendto refPlat cfgTcpOnly beOK (sockInet 1) [1, 2] 2 0 addrV4 16 net0).ret =
      -refPlat.EISCONN ∧
    (local_sendto refPlat cfgLocal beOK (sockLocal 1) [1, 2] 2 0 addrLocal 6 net0).ret =
      -refPlat.EISCONN := by
  refine ⟨?_, ?_⟩
  · unfold inetAddrOk; decide
  · decide

/-- The non-datagram case of `local_sendto` for a destination that passes
validation: `-EISCONN`, no call, socket and network state as given. -/
theorem local_sendto_not_dgram (K : Plat) (cfg : Config) (B : BackEnd) (psock : Socket)
    (buf : List Nat) (len : Nat) (flags : Int) (toaddr : Sockaddr) (tolen : Nat) (n : Net)
    (hok : localAddrOk K toaddr.sa_family tolen) (hS : psock.s_type ≠ K.SOCK_DGRAM) :
    local_sendto K cfg B psock buf len flags toaddr tolen n = ⟨-K.EISCONN, psock, n⟩ := by
  have hv := local_valid_cond K toaddr.sa_family tolen hok
  simp only [local_sendto, if_neg hv]
  split_ifs <;> simp_all

/-- The validation step of `inet_bind` and `inet_sendto` written as nested
tests. -/
theorem inet_bind_validate_eq (K : Plat) (cfg : Config) (addr : Sockaddr) (addrlen : Nat) :
    inet_bind_validate K cfg addr addrlen =
      if cfg.NET_IPv4 = true ∧ addr.sa_family = K.AF_INET then
        if addrlen < K.sizeof_sockaddr_in then some (-K.EBADF) else none
      else if cfg.NET_IPv6 = true ∧ addr.sa_family = K.AF_INET6 then
        if addrlen < K.sizeof_sockaddr_in6 then some (-K.EBADF) else none
      else some (-K.EAFNOSUPPORT) := by
  unfold inet_bind_validate
  by_cases h4 : cfg.NET_IPv4 = true ∧ addr.sa_family = K.AF_INET
  · simp only [if_pos h4]
  · by_cases h6 : cfg.NET_IPv6 = true ∧ addr.sa_family = K.AF_INET6
    · simp only [if_neg h4, if_pos h6]
    · simp only [if_neg h4, if_neg h6]

/-! ### `bind` and `sendto` after the address validation -/

theorem inet_bind_validate_ok (K : Plat) (cfg : Config) (addr : Sockaddr) (addrlen : Nat)
    (hA : K.AF_INET ≠ K.AF_INET6) (hok : inetAddrOk K cfg addr.sa_family addrlen) :
    inet_bind_validate K cfg addr addrlen = none := by
  obtain ⟨m, hm, hsel⟩ := inet_minlen_ok K cfg addr.sa_family addrlen hA hok
  simp only [inet_bind_validate, hsel, if_neg hm]

/-- The datagram case of the switch of `inet_bind` in a build with the UDP
stack: one call of `udp_bind`, whose result is returned. -/
theorem inet_bind_switch_dgram (K : Plat) (cfg : Config) (B : BackEnd) (psock : Socket)
    (addr : Sockaddr) (addrlen : Nat) (n : Net) (hS : K.SOCK_STREAM ≠ K.SOCK_DGRAM)
    (hU : ¬(cfg.NET_USRSOCK = true ∧ psock.s_type = K.SOCK_USRSOCK_TYPE))
    (hD : cfg.NET_UDP = true) (hH : cfg.NET_UDP_HAVE_STACK = true)
    (hT : psock.s_type = K.SOCK_DGRAM) :
    inet_bind_switch K cfg B psock addr addrlen n =
      ⟨(B.udp_bind psock.s_conn addr n.heap).1,
        if (B.udp_bind psock.s_conn addr n.heap).1 ≥ 0 then
          { psock with s_flags := psock.s_flags ||| K.SF_BOUND } else psock,
        ⟨(B.udp_bind psock.s_conn addr n.heap).2, n.lock,
          n.trace ++ [⟨Fn.udp_bind, [psock.s_conn, addr.sa_family],
            (B.udp_bind psock.s_conn addr n.heap).1⟩]⟩⟩ := by
  have hns : ¬(cfg.NET_TCP = true ∧ psock.s_type = K.SOCK_STREAM) :=
    fun c => hS (c.2.symm.trans hT)
  simp only [inet_bind_switch, if_neg hU, if_neg hns, if_pos (And.intro hD hT), hH, if_true,
    Net.called]

/-- The stream case of the switch of `inet_bind` in a build with the TCP
stack: one call of `tcp_bind`, whose result is returned. -/
theorem inet_bind_switch_stream (K : Plat) (cfg : Config) (B : BackEnd) (psock : Socket)
    (addr : Sockaddr) (addrlen : Nat) (n : Net)
    (hU : ¬(cfg.NET_USRSOCK = true ∧ psock.s_type = K.SOCK_USRSOCK_TYPE))
    (hD : cfg.NET_TCP = true) (hH : cfg.NET_TCP_HAVE_STACK = true)
    (hT : psock.s_type = K.SOCK_STREAM) :
    inet_bind_switch K cfg B psock addr addrlen n =
      ⟨(B.tcp_bind psock.s_conn addr n.heap).1,
        if (B.tcp_bind psock.s_conn addr n.heap).1 ≥ 0 then
          { psock with s_flags := psock.s_flags ||| K.SF_BOUND } else psock,
        ⟨(B.tcp_bind psock.s_conn addr n.heap).2, n.lock,
          n.trace ++ [⟨Fn.tcp_bind, [psock.s_conn, addr.sa_family],
            (B.tcp_bind psock.s_conn addr n.heap).1⟩]⟩⟩ := by
  simp only [inet_bind_switch, if_neg hU, if_pos (And.intro hD hT), hH, if_true, Net.called]

/-- The datagram case of the send step of `inet_sendto` in a build with the
UDP stack: at least one call is made. -/
theorem inet_sendto_switch_dgram_called (K : Plat) (cfg : Config) (B : BackEnd)
    (psock : Socket) (buf : List Nat) (len : Nat) (flags : Int) (toaddr : Sockaddr)
    (tolen : Nat) (n : Net) (hD : cfg.NET_UDP = true) (hH : cfg.NET_UDP_HAVE_STACK = true)
    (hT : psock.s_type = K.SOCK_DGRAM) :
    (inet_sendto_switch K cfg B psock buf len flags toaddr tolen n).net.trace ≠ n.trace := by
  unfold inet_sendto_switch
  simp only [hD, hH, hT, if_true, ne_eq, not_true_eq_false, if_false, true_and]
  split_ifs <;> simp [Net.called]

/-- The datagram case of the switch of `local_bind` in a build with UDP: one
call of `psock_local_bind`. -/
theorem local_bind_switch_dgram_called (K : Plat) (cfg : Config) (B : BackEnd)
    (psock : Socket) (addr : Sockaddr) (addrlen : Nat) (n : Net) (hD : cfg.NET_UDP = true)
    (hT : psock.s_type = K.SOCK_DGRAM) :
    (local_bind_switch K cfg B psock addr addrlen n).net.trace ≠ n.trace := by
  have hc : cfg.NET_UDP = true ∧
      ((cfg.NET_TCP = true ∧ psock.s_type = K.SOCK_STREAM) ∨
       (cfg.NET_UDP = true ∧ psock.s_type = K.SOCK_DGRAM)) := ⟨hD, Or.inr ⟨hD, hT⟩⟩
  simp only [local_bind_switch, if_pos hc, Net.called]
  simp

/-- The datagram case of the send step of `local_sendto` in a build with UDP:
one call of `psock_local_sendto`. -/
theorem local_sendto_switch_dgram_called (K : Plat) (cfg : Config) (B : BackEnd)
    (psock : Socket) (buf : List Nat) (len : Nat) (flags : Int) (toaddr : Sockaddr)
    (tolen : Nat) (n : Net) (hD : cfg.NET_UDP = true) (hT : psock.s_type = K.SOCK_DGRAM) :
    (local_sendto_switch K cfg B psock buf len flags toaddr tolen n).net.trace ≠ n.trace := by
  simp [local_sendto_switch, hD, hT, Net.called]

/-- C28 (counterexample): an `AF_INET` address of 16 bytes given to the local
dispatcher.  `local_bind` and `local_sendto` both reject it at validation, but
`local_bind` with `-EBADF` (-9) and `local_sendto` with `-EAFNOSUPPORT` (-97). -/
theorem local_sendto_bind_codes_differ :
    (local_bind refPlat cfgLocal beOK (sockLocal 2) addrV4 16 net0).ret = -refPlat.EBADF ∧
    (local_bind refPlat cfgLocal beOK (sockLocal 2) addrV4 16 net0).net.trace = [] ∧
    (local_sendto refPlat cfgLocal beOK (sockLocal 2) [1, 2] 2 0 addrV4 16 net0).ret =
      -refPlat.EAFNOSUPPORT ∧
    (local_sendto refPlat cfgLocal beOK (sockLocal 2) [1, 2] 2 0 addrV4 16 net0).net.trace =
      [] ∧
    (local_sendto refPlat cfgLocal beOK (sockLocal 2) [1, 2] 2 0 addrV4 16 net0).ret ≠
      (local_bind refPlat cfgLocal beOK (sockLocal 2) addrV4 16 net0).ret ∧
    local_bind_validate refPlat addrV4 16 = some (-refPlat.EBADF) ∧
    local_sendto_validate refPlat addrV4 16 = some (-refPlat.EAFNOSUPPORT) := by
  decide

/-- C28 (as amended): `inet_sendto` (on a socket that is not of the
external-provider type) validates its destination exactly as `inet_bind`
validates its address: for every address and length the two validation steps
give the same verdict with the same error value; a rejection is what the two
functions return, with no call made, and after a pass each function is
exactly its part after the validation, so that neither rejects at validation
an address the other lets through.  On a datagram socket in a build with the
UDP stack, `inet_bind` makes no call exactly when `inet_sendto` makes none,
exactly for the addresses that fail the test of the specification.
`local_sendto` rejects at validation exactly when `local_bind` does, but with
`-EAFNOSUPPORT` where `local_bind` returns `-EBADF`; after a pass each is its
part after the validation, and on a datagram socket in a build with UDP
`local_bind` makes no call exactly when `local_sendto` makes none. -/
theorem sendto_validates_like_bind (K : Plat) (cfg : Config) (B : BackEnd) (psock : Socket)
    (buf : List Nat) (len : Nat) (flags : Int) (addr : Sockaddr) (addrlen : Nat) (n : Net)
    (hA : K.AF_INET ≠ K.AF_INET6) (hT : psock.s_type ≠ K.SOCK_USRSOCK_TYPE) :
    inet_sendto_validate K cfg addr addrlen = inet_bind_validate K cfg addr addrlen ∧
    (inet_bind_validate K cfg addr addrlen = none ↔ inetAddrOk K cfg addr.sa_family addrlen) ∧
    (∀ e : Int, inet_bind_validate K cfg addr addrlen = some e →
      inet_bind K cfg B psock addr addrlen n = ⟨e, psock, n⟩ ∧
      inet_sendto K cfg B psock buf len flags addr addrlen n = ⟨e, psock, n⟩) ∧
    ((local_sendto_validate K addr addrlen = none ↔ local_bind_validate K addr addrlen = none) ∧
      (local_bind_validate K addr addrlen = none ↔ localAddrOk K addr.sa_family addrlen)) ∧
    (local_bind_validate K addr addrlen ≠ none →
      local_bind_validate K addr addrlen = some (-K.EBADF) ∧
      local_sendto_validate K addr addrlen = some (-K.EAFNOSUPPORT) ∧
      local_bind K cfg B psock addr addrlen n = ⟨-K.EBADF, psock, n⟩ ∧
      local_sendto K cfg B psock buf len flags addr addrlen n =
        ⟨-K.EAFNOSUPPORT, psock, n⟩) ∧
    (inet_bind_validate K cfg addr addrlen = none →
      inet_bind K cfg B psock addr addrlen n =
        inet_bind_switch K cfg B psock addr addrlen n ∧
      inet_sendto K cfg B psock buf len flags addr addrlen n =
        inet_sendto_switch K cfg B psock buf len flags addr addrlen n) ∧
    (local_bind_validate K addr addrlen = none →
      local_bind K cfg B psock addr addrlen n =
        local_bind_switch K cfg B psock addr addrlen n ∧
      local_sendto K cfg B psock buf len flags addr addrlen n =
        local_sendto_switch K cfg B psock buf len flags addr addrlen n) ∧
    (K.SOCK_STREAM ≠ K.SOCK_DGRAM → cfg.NET_UDP = true → cfg.NET_UDP_HAVE_STACK = true →
      psock.s_type = K.SOCK_DGRAM →
      ((inet_bind K cfg B psock addr addrlen n).net.trace = n.trace ↔
        (inet_sendto K cfg B psock buf len flags addr addrlen n).net.trace = n.trace) ∧
      ((inet_bind K cfg B psock addr addrlen n).net.trace = n.trace ↔
        ¬inetAddrOk K cfg addr.sa_family addrlen)) ∧
    (cfg.NET_UDP = true → psock.s_type = K.SOCK_DGRAM →
      ((local_bind K cfg B psock addr addrlen n).net.trace = n.trace ↔
        (local_sendto K cfg B psock buf len flags addr addrlen n).net.trace = n.trace) ∧
      ((local_bind K cfg B psock addr addrlen n).net.trace = n.trace ↔
        ¬localAddrOk K addr.sa_family addrlen)) := by
  have hv := inet_bind_validate_eq K cfg addr addrlen
  have hU : ¬(cfg.NET_USRSOCK = true ∧ psock.s_type = K.SOCK_USRSOCK_TYPE) := fun c => hT c.2
  have hiok : inet_bind_validate K cfg addr addrlen = none ↔
      inetAddrOk K cfg addr.sa_family addrlen := by
    refine ⟨fun hnone => ?_, fun hok => ?_⟩
    · rw [hv] at hnone
      unfold inetAddrOk
      by_cases h4 : cfg.NET_IPv4 = true ∧ addr.sa_family = K.AF_INET
      · by_cases hl : addrlen < K.sizeof_sockaddr_in
        · simp [if_pos h4, hl] at hnone
        · exact Or.inl ⟨h4.1, h4.2, Nat.not_lt.mp hl⟩
      · by_cases h6 : cfg.NET_IPv6 = true ∧ addr.sa_family = K.AF_INET6
        · by_cases hl : addrlen < K.sizeof_sockaddr_in6
          · simp only [if_neg h4, if_pos h6, if_pos hl] at hnone
            exact absurd hnone (by simp)
          · exact Or.inr ⟨h6.1, h6.2, Nat.not_lt.mp hl⟩
        · simp only [if_neg h4, if_neg h6] at hnone
          exact absurd hnone (by simp)
    · obtain ⟨m, hm, hsel⟩ := inet_minlen_ok K cfg addr.sa_family addrlen hA hok
      simp only [inet_bind_validate, hsel, if_neg hm]
  have hlok : local_bind_validate K addr addrlen = none ↔
      localAddrOk K addr.sa_family addrlen := by
    unfold local_bind_validate localAddrOk
    by_cases hf : addr.sa_family = K.AF_LOCAL
    · by_cases hl : addrlen < K.sizeof_sa_family_t
      · simp [hf, hl]
      · simp [hf, hl, Nat.not_lt.mp hl]
    · simp [hf]
  have hls : local_sendto_validate K addr addrlen = none ↔
      local_bind_validate K addr addrlen = none := by
    unfold local_sendto_validate local_bind_validate
    split_ifs <;> simp
  have hpb : ∀ l : Nat, inet_bind_validate K cfg addr l = none →
      inet_bind K cfg B psock addr l n = inet_bind_switch K cfg B psock addr l n := by
    intro l hp
    unfold inet_bind_validate at hp
    unfold inet_bind inet_bind_switch
    simp only at hp ⊢
    split at hp
    · exact absurd hp (by simp)
    · rename_i m hsel
      by_cases hl : l < m
      · simp only [if_pos hl] at hp
        exact absurd hp (by simp)
      · simp only [hsel, if_neg hl]
  have hps : ∀ l : Nat, inet_sendto_validate K cfg addr l = none →
      inet_sendto K cfg B psock buf len flags addr l n =
        inet_sendto_switch K cfg B psock buf len flags addr l n := by
    intro l hp
    unfold inet_sendto_validate at hp
    unfold inet_sendto inet_sendto_switch
    simp only [if_neg hU]
    simp only at hp
    split at hp
    · exact absurd hp (by simp)
    · rename_i m hsel
      by_cases hl : l < m
      · simp only [if_pos hl] at hp
        exact absurd hp (by simp)
      · simp only [hsel, if_neg hl]
  have hplb : local_bind_validate K addr addrlen = none →
      local_bind K cfg B psock addr addrlen n =
        local_bind_switch K cfg B psock addr addrlen n := by
    intro hp
    have hc : ¬(addr.sa_family ≠ K.AF_LOCAL ∨ addrlen < K.sizeof_sa_family_t) := by
      intro hc
      simp only [local_bind_validate, if_pos hc] at hp
      exact absurd hp (by simp)
    simp only [local_bind, local_bind_switch, if_neg hc]
  have hpls : local_sendto_validate K addr addrlen = none →
      local_sendto K cfg B psock buf len flags addr addrlen n =
        local_sendto_switch K cfg B psock buf len flags addr addrlen n := by
    intro hp
    have hc : ¬(addr.sa_family ≠ K.AF_LOCAL ∨ addrlen < K.sizeof_sa_family_t) := by
      intro hc
      simp only [local_sendto_validate, if_pos hc] at hp
      exact absurd hp (by simp)
    simp only [local_sendto, local_sendto_switch, if_neg hc]
  refine ⟨rfl, hiok, fun e he => ?_, ⟨hls, hlok⟩, fun hne => ?_, fun hnone => ?_,
    fun hnone => ?_, fun hS hD hH hG => ?_, fun hD hG => ?_⟩
  · have hbad : ¬inetAddrOk K cfg addr.sa_family addrlen := by
      intro hok
      obtain ⟨m, hm, hsel⟩ := inet_minlen_ok K cfg addr.sa_family addrlen hA hok
      simp only [inet_bind_validate, hsel, if_neg hm] at he
      exact absurd he (by simp)
    have hcode : e = (if (cfg.NET_IPv4 = true ∧ addr.sa_family = K.AF_INET) ∨
        (cfg.NET_IPv6 = true ∧ addr.sa_family = K.AF_INET6) then -K.EBADF
        else -K.EAFNOSUPPORT) := by
      rw [hv] at he
      by_cases h4 : cfg.NET_IPv4 = true ∧ addr.sa_family = K.AF_INET
      · by_cases hl : addrlen < K.sizeof_sockaddr_in
        · simp only [if_pos h4, if_pos hl, Option.some.injEq] at he
          rw [if_pos (Or.inl h4)]
          exact he.symm
        · simp only [if_pos h4, if_neg hl] at he
          exact absurd he (by simp)
      · by_cases h6 : cfg.NET_IPv6 = true ∧ addr.sa_family = K.AF_INET6
        · by_cases hl : addrlen < K.sizeof_sockaddr_in6
          · simp only [if_neg h4, if_pos h6, if_pos hl, Option.some.injEq] at he
            rw [if_pos (Or.inr h6)]
            exact he.symm
          · simp only [if_neg h4, if_pos h6, if_neg hl] at he
            exact absurd he (by simp)
        · simp only [if_neg h4, if_neg h6, Option.some.injEq] at he
          have hno : ¬((cfg.NET_IPv4 = true ∧ addr.sa_family = K.AF_INET) ∨
              (cfg.NET_IPv6 = true ∧ addr.sa_family = K.AF_INET6)) := by
            rintro (c | c)
            · exact h4 c
            · exact h6 c
          rw [if_neg hno]
          exact he.symm
    rw [hcode]
    exact ⟨inet_bind_invalid K cfg B psock addr addrlen n hA hbad,
      inet_sendto_invalid K cfg B psock buf len flags addr addrlen n hA hT hbad⟩
  · have hc : addr.sa_family ≠ K.AF_LOCAL ∨ addrlen < K.sizeof_sa_family_t := by
      by_contra hc
      exact hne (by simp only [local_bind_validate, if_neg hc])
    exact ⟨by simp only [local_bind_validate, if_pos hc],
      by simp only [local_sendto_validate, if_pos hc],
      local_bind_invalid K cfg B psock addr addrlen n hc,
      local_sendto_invalid K cfg B psock buf len flags addr addrlen n hc⟩
  · exact ⟨hpb addrlen hnone,
      hps addrlen hnone⟩
  · exact ⟨hplb hnone,
      hpls (hls.mpr hnone)⟩
  · have hb : (inet_bind K cfg B psock addr addrlen n).net.trace = n.trace ↔
        ¬inetAddrOk K cfg addr.sa_family addrlen := by
      constructor
      · intro ht hok
        rw [hpb addrlen (hiok.mpr hok),
          inet_bind_switch_dgram K cfg B psock addr addrlen n hS hU hD hH hG] at ht
        simp at ht
      · intro hbad
        rw [inet_bind_invalid K cfg B psock addr addrlen n hA hbad]
    have hs : (inet_sendto K cfg B psock buf len flags addr addrlen n).net.trace = n.trace ↔
        ¬inetAddrOk K cfg addr.sa_family addrlen := by
      constructor
      · intro ht hok
        rw [hps addrlen (hiok.mpr hok)] at ht
        exact inet_sendto_switch_dgram_called K cfg B psock buf len flags addr addrlen n
          hD hH hG ht
      · intro hbad
        rw [inet_sendto_invalid K cfg B psock buf len flags addr addrlen n hA hT hbad]
    exact ⟨hb.trans hs.symm, hb⟩
  · have hb : (local_bind K cfg B psock addr addrlen n).net.trace = n.trace ↔
        ¬localAddrOk K addr.sa_family addrlen := by
      constructor
      · intro ht hok
        rw [hplb (hlok.mpr hok)] at ht
        exact local_bind_switch_dgram_called K cfg B psock addr addrlen n hD hG ht
      · intro hbad
        rw [local_bind_invalid K cfg B psock addr addrlen n
          (local_invalid_cond K addr.sa_family addrlen hbad)]
    have hs : (local_sendto K cfg B psock buf len flags addr addrlen n).net.trace = n.trace ↔
        ¬localAddrOk K addr.sa_family addrlen := by
      constructor
      · intro ht hok
        rw [hpls (hls.mpr (hlok.mpr hok))] at ht
        exact local_sendto_switch_dgram_called K cfg B psock buf len flags addr addrlen n
          hD hG ht
      · intro hbad
        rw [local_sendto_invalid K cfg B psock buf len flags addr addrlen n
          (local_invalid_cond K addr.sa_family addrlen hbad)]
    exact ⟨hb.trans hs.symm, hb⟩

theorem sendto_validates_like_bind_witness :
    refPlat.AF_INET ≠ refPlat.AF_INET6 ∧ (sockInet 2).s_type ≠ refPlat.SOCK_USRSOCK_TYPE ∧
    inet_bind_validate refPlat cfgLocal addrV4 3 = some (-refPlat.EBADF) ∧
    (inet_bind refPlat cfgLocal beOK (sockInet 2) addrV4 3 net0 =
        ⟨-refPlat.EBADF, sockInet 2, net0⟩ ∧
      inet_sendto refPlat cfgLocal beOK (sockInet 2) [1, 2] 2 0 addrV4 3 net0 =
        ⟨-refPlat.EBADF, sockInet 2, net0⟩) ∧
    inet_bind_validate refPlat cfgLocal addrV4 16 = none ∧
    (inet_bind refPlat cfgLocal beOK (sockInet 2) addrV4 16 net0 =
        inet_bind_switch refPlat cfgLocal beOK (sockInet 2) addrV4 16 net0 ∧
      inet_sendto refPlat cfgLocal beOK (sockInet 2) [1, 2] 2 0 addrV4 16 net0 =
        inet_sendto_switch refPlat cfgLocal beOK (sockInet 2) [1, 2] 2 0 addrV4 16 net0) ∧
    (inet_bind refPlat cfgLocal beOK (sockInet 2) addrV4 16 net0).net.trace =
      [⟨Fn.udp_bind, [0, 2], 0⟩] ∧
    (inet_sendto refPlat cfgLocal beOK (sockInet 2) [1, 2] 2 0 addrV4 16 net0).net.trace =
      [⟨Fn.psock_udp_sendto, [2, 0, 2, 16], 2⟩] :=
  ⟨by decide, by decide, by decide,
    (sendto_validates_like_bind refPlat cfgLocal beOK (sockInet 2) [1, 2] 2 0 addrV4 3 net0
      (by decide) (by decide)).2.2.1 (-refPlat.EBADF) (by decide),
    by decide,
    (sendto_validates_like_bind refPlat cfgLocal beOK (sockInet 2) [1, 2] 2 0 addrV4 16 net0
      (by decide) (by decide)).2.2.2.2.2.1 (by decide),
    by decide, by decide⟩

/-- C29: with the external provider configured, for every socket of the
external-provider type and every destination address and length, whatever
the family tag and however short, `inet_sendto` makes exactly one call,
`usrsock_sendto` with the same socket, buffer, length, address and address
length, and returns exactly its result and the socket it left: no
validation takes place. -/
theorem inet_sendto_usrsock (K : Plat) (cfg : Config) (B : BackEnd) (psock : Socket)
    (buf : List Nat) (len : Nat) (flags : Int) (toaddr : Sockaddr) (tolen : Nat) (n : Net)
    (hU : cfg.NET_USRSOCK = true) (hT : psock.s_type = K.SOCK_USRSOCK_TYPE) :
    inet_sendto K cfg B psock buf len flags toaddr tolen n =
      ⟨(B.usrsock_sendto psock buf len (some toaddr) tolen n.heap).ret,
        (B.usrsock_sendto psock buf len (some toaddr) tolen n.heap).psock,
        ⟨(B.usrsock_sendto psock buf len (some toaddr) tolen n.heap).heap, n.lock,
          n.trace ++ [⟨Fn.usrsock_sendto, [len, toaddr.sa_family, tolen],
            (B.usrsock_sendto psock buf len (some toaddr) tolen n.heap).ret⟩]⟩⟩ := by
  simp [inet_sendto, hU, hT, Net.called]

theorem inet_sendto_usrsock_witness :
    ¬inetAddrOk refPlat cfgUsrsock addrUnspec.sa_family 0 ∧
    inet_sendto refPlat cfgUsrsock beOK ⟨2, 127, 0, 9, 1⟩ [1, 2] 2 0 addrUnspec 0 net0 =
      ⟨(beOK.usrsock_sendto ⟨2, 127, 0, 9, 1⟩ [1, 2] 2 (some addrUnspec) 0 net0.heap).ret,
        (beOK.usrsock_sendto ⟨2, 127, 0, 9, 1⟩ [1, 2] 2 (some addrUnspec) 0 net0.heap).psock,
        ⟨(beOK.usrsock_sendto ⟨2, 127, 0, 9, 1⟩ [1, 2] 2 (some addrUnspec) 0 net0.heap).heap,
          net0.lock,
          net0.trace ++ [⟨Fn.usrsock_sendto, [2, addrUnspec.sa_family, 0],
            (beOK.usrsock_sendto ⟨2, 127, 0, 9, 1⟩ [1, 2] 2 (some addrUnspec) 0
              net0.heap).ret⟩]⟩⟩ :=
  ⟨by unfold inetAddrOk; decide,
    inet_sendto_usrsock refPlat cfgUsrsock beOK ⟨2, 127, 0, 9, 1⟩ [1, 2] 2 0 addrUnspec 0 net0
      rfl rfl⟩

/-! ### The field `s_sockif` across each operation -/

theorem inet_tcp_alloc_sockif (K : Plat) (B : BackEnd) (psock : Socket) (n : Net) :
    (inet_tcp_alloc K B psock n).psock.s_sockif = psock.s_sockif := by
  unfold inet_tcp_alloc
  simp only
  split_ifs <;> rfl

theorem inet_udp_alloc_sockif (K : Plat) (B : BackEnd) (psock : Socket) (n : Net) :
    (inet_udp_alloc K B psock n).psock.s_sockif = psock.s_sockif := by
  unfold inet_udp_alloc
  simp only
  split_ifs <;> rfl

theorem local_sockif_alloc_sockif (K : Plat) (B : BackEnd) (psock : Socket) (n : Net) :
    (local_sockif_alloc K B psock n).psock.s_sockif = psock.s_sockif := by
  unfold local_sockif_alloc
  simp only
  split_ifs <;> rfl

theorem inet_setup_switch_sockif (K : Plat) (cfg : Config) (B : BackEnd) (psock : Socket)
    (protocol : Int) (n : Net) :
    (inet_setup_switch K cfg B psock protocol n).psock.s_sockif = psock.s_sockif := by
  unfold inet_setup_switch
  split_ifs
  all_goals first
    | rfl
    | exact inet_tcp_alloc_sockif K B psock n
    | exact inet_udp_alloc_sockif K B psock n

theorem usrsock_socket_setup_sockif (K : Plat) (cfg : Config) (B : BackEnd)
    (domain type protocol : Int) (psock : Socket) (n : Net) (hB : keepsSockif B) :
    (usrsock_socket_setup K cfg B domain type protocol psock n).psock.s_sockif =
      psock.s_sockif := by
  unfold usrsock_socket_setup
  split_ifs
  all_goals first
    | rfl
    | exact hB.1 _ _ _ _ _

theorem inet_setup_sockif (K : Plat) (cfg : Config) (B : BackEnd) (psock : Socket)
    (protocol : Int) (n : Net) (hB : keepsSockif B) :
    (inet_setup K cfg B psock protocol n).psock.s_sockif = psock.s_sockif := by
  have hu := usrsock_socket_setup_sockif K cfg B psock.s_domain psock.s_type protocol psock n hB
  unfold inet_setup
  simp only
  split_ifs
  all_goals first
    | exact (inet_setup_switch_sockif K cfg B _ protocol _).trans hu
    | exact hu
    | exact inet_setup_switch_sockif K cfg B psock protocol n

theorem local_setup_sockif (K : Plat) (cfg : Config) (B : BackEnd) (psock : Socket)
    (protocol : Int) (n : Net) :
    (local_setup K cfg B psock protocol n).psock.s_sockif = psock.s_sockif := by
  unfold local_setup
  split_ifs
  all_goals first
    | rfl
    | exact local_sockif_alloc_sockif K B psock n

theorem inet_bind_sockif (K : Plat) (cfg : Config) (B : BackEnd) (psock : Socket)
    (addr : Sockaddr) (addrlen : Nat) (n : Net) :
    (inet_bind K cfg B psock addr addrlen n).psock.s_sockif = psock.s_sockif := by
  unfold inet_bind
  simp only
  split
  · rfl
  · split_ifs <;> rfl

theorem local_bind_sockif (K : Plat) (cfg : Config) (B : BackEnd) (psock : Socket)
    (addr : Sockaddr) (addrlen : Nat) (n : Net) (hB : keepsSockif B) :
    (local_bind K cfg B psock addr addrlen n).psock.s_sockif = psock.s_sockif := by
  have h := hB.2.1 psock addr addrlen n.heap
  unfold local_bind
  simp only
  split_ifs
  all_goals first
    | rfl
    | exact h

theorem inet_listen_sockif (K : Plat) (cfg : Config) (B : BackEnd) (psock : Socket)
    (backlog : Int) (n : Net) :
    (inet_listen K cfg B psock backlog n).psock.s_sockif = psock.s_sockif := by
  unfold inet_listen
  simp only
  split_ifs <;> rfl

theorem local_connect_sockif (K : Plat) (cfg : Config) (B : BackEnd) (psock : Socket)
    (addr : Sockaddr) (addrlen : Nat) (n : Net) (hB : keepsSockif B) :
    (local_connect K cfg B psock addr addrlen n).psock.s_sockif = psock.s_sockif := by
  have h := hB.2.2.1 psock addr n.heap
  unfold local_connect
  simp only
  split_ifs
  all_goals first
    | rfl
    | exact h

theorem inet_send_sockif (K : Plat) (cfg : Config) (B : BackEnd) (psock : Socket)
    (buf : List Nat) (len : Nat) (flags : Int) (n : Net) (hB : keepsSockif B) :
    (inet_send K cfg B psock buf len flags n).psock.s_sockif = psock.s_sockif := by
  obtain ⟨-, -, -, -, -, -, h6t, ht, h6u, hu, hus, -⟩ := hB
  unfold inet_send
  simp only
  split_ifs
  all_goals first
    | rfl
    | exact h6t _ _ _ _
    | exact ht _ _ _ _
    | exact h6u _ _ _ _
    | exact hu _ _ _ _
    | exact hus _ _ _ _ _ _
    | exact (ht _ _ _ _).trans (h6t _ _ _ _)
    | exact (hu _ _ _ _).trans (h6u _ _ _ _)

theorem local_send_sockif (K : Plat) (cfg : Config) (B : BackEnd) (psock : Socket)
    (buf : List Nat) (len : Nat) (flags : Int) (n : Net) (hB : keepsSockif B) :
    (local_send K cfg B psock buf len flags n).psock.s_sockif = psock.s_sockif := by
  have h := hB.2.2.2.2.2.2.2.2.2.2.2.2.2.1 psock buf len flags n.heap
  unfold local_send
  simp only
  split_ifs
  all_goals first
    | rfl
    | exact h

theorem inet_sendto_sockif (K : Plat) (cfg : Config) (B : BackEnd) (psock : Socket)
    (buf : List Nat) (len : Nat) (flags : Int) (toaddr : Sockaddr) (tolen : Nat) (n : Net)
    (hB : keepsSockif B) :
    (inet_sendto K cfg B psock buf len flags toaddr tolen n).psock.s_sockif =
      psock.s_sockif := by
  obtain ⟨-, -, -, -, -, -, -, -, -, -, hus, h6, hu, -⟩ := hB
  unfold inet_sendto
  simp only
  by_cases h0 : cfg.NET_USRSOCK = true ∧ psock.s_type = K.SOCK_USRSOCK_TYPE
  · rw [if_pos h0]
    exact hus _ _ _ _ _ _
  · rw [if_neg h0]
    split
    · rfl
    · split_ifs
      all_goals first
        | rfl
        | exact h6 _ _ _ _ _ _ _
        | exact hu _ _ _ _ _ _ _
        | exact (hu _ _ _ _ _ _ _).trans (h6 _ _ _ _ _ _ _)

theorem local_sendto_sockif (K : Plat) (cfg : Config) (B : BackEnd) (psock : Socket)
    (buf : List Nat) (len : Nat) (flags : Int) (toaddr : Sockaddr) (tolen : Nat) (n : Net)
    (hB : keepsSockif B) :
    (local_sendto K cfg B psock buf len flags toaddr tolen n).psock.s_sockif =
      psock.s_sockif := by
  have h := hB.2.2.2.2.2.2.2.2.2.2.2.2.2.2 psock buf len flags toaddr tolen n.heap
  unfold local_sendto
  simp only
  split_ifs
  all_goals first
    | rfl
    | exact h

theorem inet_accept_sockif (K : Plat) (cfg : Config) (B : BackEnd) (psock : Socket)
    (addr : Option Sockaddr) (addrlen : Nat) (newsock : Socket) (n : Net)
    (hB : keepsSockif B) :
    (inet_accept K cfg B psock addr addrlen newsock n).psock.s_sockif = psock.s_sockif ∧
    (((inet_accept K cfg B psock addr addrlen newsock n).newsock = newsock ∧
        (inet_accept K cfg B psock addr addrlen newsock n).net.trace = n.trace) ∨
      (inet_accept K cfg B psock addr addrlen newsock n).newsock.s_sockif =
        psock.s_sockif) := by
  obtain ⟨-, -, -, hacc, hmon, hclose, -⟩ := hB
  rcases inet_accept_cases K cfg B psock addr addrlen newsock n with ⟨e, h⟩ | h | h
  · rw [h]
    exact ⟨rfl, Or.inl ⟨rfl, rfl⟩⟩
  · rw [h]
    exact ⟨rfl, Or.inr rfl⟩
  · rw [h]
    obtain ⟨p1, p2, p3, -, p5⟩ := inet_accept_locked_paths K B psock addr addrlen newsock n
    refine ⟨by rw [p5]; exact hacc _ _ _ _ _, Or.inr ?_⟩
    by_cases h1 : (acceptOut B psock addr addrlen newsock n).ret < 0
    · rw [(p1 h1).2.1]
      rfl
    · by_cases h2 : (monitorOut K B psock addr addrlen newsock n).ret < 0
      · rw [(p2 (not_lt.mp h1) h2).2.1]
        exact (hclose _ _).trans (hmon _ _)
      · rw [(p3 (not_lt.mp h1) (not_lt.mp h2)).2.1]
        exact hmon _ _

theorem keepsSockif_beOK : keepsSockif beOK := by
  unfold keepsSockif beOK
  simp

/-- C30: dispatcher-reference invariant.  For every build, constants and
input, and collaborators that leave the `s_sockif` field of the socket
they are handed as it was, each operation of the two dispatchers present in the
source (`inet_setup`, `inet_bind`, `inet_listen`, `inet_accept`, `inet_send`,
`inet_sendto`, `local_setup`, `local_bind`, `local_connect`, `local_send`,
`local_sendto`) returns the socket it was invoked on with the same `s_sockif`.
The output socket of `inet_accept` is either the one passed in, with no call
made (a check failed), or carries the `s_sockif` of the listening socket. -/
theorem sockif_invariant (K : Plat) (cfg : Config) (B : BackEnd) (hB : keepsSockif B)
    (psock newsock : Socket) (protocol backlog flags : Int) (addr : Sockaddr)
    (oaddr : Option Sockaddr) (addrlen len : Nat) (buf : List Nat) (n : Net) :
    (inet_setup K cfg B psock protocol n).psock.s_sockif = psock.s_sockif ∧
    (inet_bind K cfg B psock addr addrlen n).psock.s_sockif = psock.s_sockif ∧
    (inet_listen K cfg B psock backlog n).psock.s_sockif = psock.s_sockif ∧
    (inet_accept K cfg B psock oaddr addrlen newsock n).psock.s_sockif = psock.s_sockif ∧
    (((inet_accept K cfg B psock oaddr addrlen newsock n).newsock = newsock ∧
        (inet_accept K cfg B psock oaddr addrlen newsock n).net.trace = n.trace) ∨
      (inet_accept K cfg B psock oaddr addrlen newsock n).newsock.s_sockif =
        psock.s_sockif) ∧
    (inet_send K cfg B psock buf len flags n).psock.s_sockif = psock.s_sockif ∧
    (inet_sendto K cfg B psock buf len flags addr addrlen n).psock.s_sockif =
      psock.s_sockif ∧
    (local_setup K cfg B psock protocol n).psock.s_sockif = psock.s_sockif ∧
    (local_bind K cfg B psock addr addrlen n).psock.s_sockif = psock.s_sockif ∧
    (local_connect K cfg B psock addr addrlen n).psock.s_sockif = psock.s_sockif ∧
    (local_send K cfg B psock buf len flags n).psock.s_sockif = psock.s_sockif ∧
    (local_sendto K cfg B psock buf len flags addr addrlen n).psock.s_sockif =
      psock.s_sockif :=
  ⟨inet_setup_sockif K cfg B psock protocol n hB,
    inet_bind_sockif K cfg B psock addr addrlen n,
    inet_listen_sockif K cfg B psock backlog n,
    (inet_accept_sockif K cfg B psock oaddr addrlen newsock n hB).1,
    (inet_accept_sockif K cfg B psock oaddr addrlen newsock n hB).2,
    inet_send_sockif K cfg B psock buf len flags n hB,
    inet_sendto_sockif K cfg B psock buf len flags addr addrlen n hB,
    local_setup_sockif K cfg B psock protocol n,
    local_bind_sockif K cfg B psock addr addrlen n hB,
    local_connect_sockif K cfg B psock addr addrlen n hB,
    local_send_sockif K cfg B psock buf len flags n hB,
    local_sendto_sockif K cfg B psock buf len flags addr addrlen n hB⟩

theorem sockif_invariant_witness :
    keepsSockif beOK ∧
    (inet_accept refPlat cfgLocal beOK sockBound none 0 sockBlank netBound).ret = 0 ∧
    (inet_accept refPlat cfgLocal beOK sockBound none 0 sockBlank netBound).newsock.s_sockif
      ≠ sockBlank.s_sockif ∧
    (inet_accept refPlat cfgLocal beOK sockBound none 0 sockBlank netBound).psock.s_sockif =
      sockBound.s_sockif ∧
    (((inet_accept refPlat cfgLocal beOK sockBound none 0 sockBlank netBound).newsock =
          sockBlank ∧
        (inet_accept refPlat cfgLocal beOK sockBound none 0 sockBlank netBound).net.trace =
          netBound.trace) ∨
      (inet_accept refPlat cfgLocal beOK sockBound none 0 sockBlank netBound).newsock.s_sockif =
        sockBound.s_sockif) :=
  ⟨keepsSockif_beOK, by decide, by decide,
    (sockif_invariant refPlat cfgLocal beOK keepsSockif_beOK sockBound sockBlank 0 0 0
      ⟨0, []⟩ none 0 0 [] netBound).2.2.2.1,
    (sockif_invariant refPlat cfgLocal beOK keepsSockif_beOK sockBound sockBlank 0 0 0
      ⟨0, []⟩ none 0 0 [] netBound).2.2.2.2.1⟩

/-- The validation step of `inet_sendto` decides the result for a destination
that fails it, on every socket that does not take the external-provider
branch. -/
theorem inet_sendto_rejected (K : Plat) (cfg : Config) (B : BackEnd) (psock : Socket)
    (buf : List Nat) (len : Nat) (flags : Int) (toaddr : Sockaddr) (tolen : Nat) (n : Net)
    (hU : ¬(cfg.NET_USRSOCK = true ∧ psock.s_type = K.SOCK_USRSOCK_TYPE)) (e : Int)
    (hv : inet_sendto_validate K cfg toaddr tolen = some e) :
    inet_sendto K cfg B psock buf len flags toaddr tolen n = ⟨e, psock, n⟩ := by
  unfold inet_sendto_validate at hv
  unfold inet_sendto
  simp only [if_neg hU]
  simp only at hv
  split at hv
  · rename_i hsel
    simp only [Option.some.injEq] at hv
    simp only [hsel, hv]
  · rename_i m hsel
    by_cases hl : tolen < m
    · simp only [if_pos hl, Option.some.injEq] at hv
      simp only [hsel, if_pos hl, hv]
    · simp only [if_neg hl] at hv
      exact absurd hv (by simp)

/-- The validation step of `inet_bind` decides the result for an address that
fails it. -/
theorem inet_bind_rejected (K : Plat) (cfg : Config) (B : BackEnd) (psock : Socket)
    (addr : Sockaddr) (addrlen : Nat) (n : Net) (e : Int)
    (hv : inet_bind_validate K cfg addr addrlen = some e) :
    inet_bind K cfg B psock addr addrlen n = ⟨e, psock, n⟩ := by
  unfold inet_bind_validate at hv
  unfold inet_bind
  simp only at hv ⊢
  split at hv
  · rename_i hsel
    simp only [Option.some.injEq] at hv
    simp only [hsel, hv]
  · rename_i m hsel
    by_cases hl : addrlen < m
    · simp only [if_pos hl, Option.some.injEq] at hv
      simp only [hsel, if_pos hl, hv]
    · simp only [if_neg hl] at hv
      exact absurd hv (by simp)

/-- The validation step of `inet_bind` rejects exactly the addresses that fail
the address test, with `-EBADF` or `-EAFNOSUPPORT`. -/
theorem inet_bind_validate_some (K : Plat) (cfg : Config) (addr : Sockaddr) (addrlen : Nat)
    (hbad : ¬inetAddrOk K cfg addr.sa_family addrlen) :
    inet_bind_validate K cfg addr addrlen = some (-K.EBADF) ∨
    inet_bind_validate K cfg addr addrlen = some (-K.EAFNOSUPPORT) := by
  rw [inet_bind_validate_eq]
  unfold inetAddrOk at hbad
  by_cases h4 : cfg.NET_IPv4 = true ∧ addr.sa_family = K.AF_INET
  · have hl : addrlen < K.sizeof_sockaddr_in := by
      by_contra hc
      exact hbad (Or.inl ⟨h4.1, h4.2, Nat.le_of_not_lt hc⟩)
    exact Or.inl (by simp only [if_pos h4, if_pos hl])
  · by_cases h6 : cfg.NET_IPv6 = true ∧ addr.sa_family = K.AF_INET6
    · have hl : addrlen < K.sizeof_sockaddr_in6 := by
        by_contra hc
        exact hbad (Or.inr ⟨h6.1, h6.2, Nat.le_of_not_lt hc⟩)
      exact Or.inl (by simp only [if_neg h4, if_pos h6, if_pos hl])
    · exact Or.inr (by simp only [if_neg h4, if_neg h6])

/-- C31: in `inet_sendto` and `local_sendto` the destination is validated
before the socket type is looked at.  For every socket that is not of the
external-provider type, whatever its type, and every destination that fails
the address test, the function returns the error of its validation step,
which is not `-EISCONN`, and makes no call.  For a datagram socket and an
`AF_INET` destination of at least `sizeof(struct sockaddr_in)` bytes, in a
build with IPv4 and UDP, the validation step of `inet_sendto` passes and the
result is that of the back end: of `psock_udp_sendto` in a build with the UDP
stack and without 6LoWPAN, of `psock_6lowpan_udp_sendto` or of the
`psock_udp_sendto` that follows its failure in a build with 6LoWPAN. -/
theorem sendto_validation_first (K : Plat) (cfg : Config) (B : BackEnd) (psock : Socket)
    (buf : List Nat) (len : Nat) (flags : Int) (toaddr : Sockaddr) (tolen : Nat) (n : Net)
    (hA : K.AF_INET ≠ K.AF_INET6)
    (hE : K.EISCONN ≠ K.EAFNOSUPPORT ∧ K.EISCONN ≠ K.EBADF)
    (hU : cfg.NET_USRSOCK = true → psock.s_type ≠ K.SOCK_USRSOCK_TYPE) :
    (¬inetAddrOk K cfg toaddr.sa_family tolen →
      ∃ e : Int, inet_sendto_validate K cfg toaddr tolen = some e ∧ e ≠ -K.EISCONN ∧
        inet_sendto K cfg B psock buf len flags toaddr tolen n = ⟨e, psock, n⟩) ∧
    (¬localAddrOk K toaddr.sa_family tolen →
      ∃ e : Int, local_sendto_validate K toaddr tolen = some e ∧ e ≠ -K.EISCONN ∧
        local_sendto K cfg B psock buf len flags toaddr tolen n = ⟨e, psock, n⟩) ∧
    (cfg.NET_IPv4 = true → cfg.NET_UDP = true → psock.s_type = K.SOCK_DGRAM →
      toaddr.sa_family = K.AF_INET → K.sizeof_sockaddr_in ≤ tolen →
      inet_sendto_validate K cfg toaddr tolen = none ∧
      (cfg.NET_6LOWPAN = false → cfg.NET_UDP_HAVE_STACK = true →
        (inet_sendto K cfg B psock buf len flags toaddr tolen n).ret =
          (B.psock_udp_sendto psock buf len flags toaddr tolen n.heap).ret ∧
        (inet_sendto K cfg B psock buf len flags toaddr tolen n).net.trace =
          n.trace ++ [⟨Fn.psock_udp_sendto, [len, flags, toaddr.sa_family, tolen],
            (B.psock_udp_sendto psock buf len flags toaddr tolen n.heap).ret⟩]) ∧
      (cfg.NET_6LOWPAN = true →
        (inet_sendto K cfg B psock buf len flags toaddr tolen n).ret =
          (B.psock_6lowpan_udp_sendto psock buf len flags toaddr tolen n.heap).ret ∨
        (inet_sendto K cfg B psock buf len flags toaddr tolen n).ret =
          (B.psock_udp_sendto
            (B.psock_6lowpan_udp_sendto psock buf len flags toaddr tolen n.heap).psock
            buf len flags toaddr tolen
            (B.psock_6lowpan_udp_sendto psock buf len flags toaddr tolen n.heap).heap).ret)) := by
  have hU' : ¬(cfg.NET_USRSOCK = true ∧ psock.s_type = K.SOCK_USRSOCK_TYPE) :=
    fun c => hU c.1 c.2
  refine ⟨fun hbad => ?_, fun hbad => ?_, fun h4 hD hT hf hl => ?_⟩
  · rcases inet_bind_validate_some K cfg toaddr tolen hbad with hv | hv
    · exact ⟨_, hv, fun c => hE.2 (neg_injective c).symm,
        inet_sendto_rejected K cfg B psock buf len flags toaddr tolen n hU' _ hv⟩
    · exact ⟨_, hv, fun c => hE.1 (neg_injective c).symm,
        inet_sendto_rejected K cfg B psock buf len flags toaddr tolen n hU' _ hv⟩
  · have hc := local_invalid_cond K toaddr.sa_family tolen hbad
    exact ⟨_, by simp only [local_sendto_validate, if_pos hc],
      fun c => hE.1 (neg_injective c).symm,
      local_sendto_invalid K cfg B psock buf len flags toaddr tolen n hc⟩
  · have hok : inetAddrOk K cfg toaddr.sa_family tolen := Or.inl ⟨h4, hf, hl⟩
    have hnl : ¬(tolen < K.sizeof_sockaddr_in) := Nat.not_lt.mpr hl
    refine ⟨?_, fun h6 hH => ?_, fun h6 => ?_⟩
    · simp only [inet_sendto_validate, if_pos (And.intro h4 hf), if_neg hnl]
    · rw [inet_sendto_valid K cfg B psock buf len flags toaddr tolen n hA hok hU' hD]
      simp [hT, h6, hH]
    · rw [inet_sendto_valid K cfg B psock buf len flags toaddr tolen n hA hok hU' hD]
      simp only [hT, ne_eq, not_true_eq_false, if_false, h6, if_true]
      split_ifs
      · exact Or.inr rfl
      · exact Or.inl rfl

theorem sendto_validation_first_witness :
    refPlat.AF_INET ≠ refPlat.AF_INET6 ∧
    (refPlat.EISCONN ≠ refPlat.EAFNOSUPPORT ∧ refPlat.EISCONN ≠ refPlat.EBADF) ∧
    ¬inetAddrOk refPlat cfgLocal addrV4.sa_family 3 ∧
    (∃ e : Int, inet_sendto_validate refPlat cfgLocal addrV4 3 = some e ∧
      e ≠ -refPlat.EISCONN ∧
      inet_sendto refPlat cfgLocal beOK (sockInet 1) [1, 2] 2 0 addrV4 3 net0 =
        ⟨e, sockInet 1, net0⟩) ∧
    (inet_sendto refPlat cfgLocal beOK (sockInet 2) [1, 2] 2 0 addrV4 16 net0).ret =
      (beOK.psock_udp_sendto (sockInet 2) [1, 2] 2 0 addrV4 16 net0.heap).ret :=
  ⟨by decide, by decide, by unfold inetAddrOk; decide,
    (sendto_validation_first refPlat cfgLocal beOK (sockInet 1) [1, 2] 2 0 addrV4 3 net0
      (by decide) (by decide) (fun _ => by decide)).1 (by unfold inetAddrOk; decide),
    (((sendto_validation_first refPlat cfgLocal beOK (sockInet 2) [1, 2] 2 0 addrV4 16 net0
      (by decide) (by decide) (fun _ => by decide)).2.2 rfl rfl rfl rfl (by decide)).2.1
      rfl rfl).1⟩

/-- C32: in `inet_bind` and `inet_sendto` the family is tested before the
length.  An address whose family tag is neither `AF_INET` nor `AF_INET6` (or
is not a family of the build) is rejected with `-EAFNOSUPPORT` for every
length, with no call made.  An address of a family of the build with a length
below that family's own minimum is rejected with `-EBADF`, with no call made.
For every other address each function is exactly its part after the
validation: it returns at the validation step in no other case.  So an
`AF_INET` address of `sizeof(struct sockaddr_in)` bytes passes (on a stream
socket `inet_bind` calls `tcp_bind`, on a datagram socket `inet_sendto` calls
`psock_udp_sendto`, and their results are returned), an `AF_INET6` address of
that length is rejected with `-EBADF` when `struct sockaddr_in6` is longer, and
on a datagram socket in a build with the UDP stack each function returns
`-EBADF` without a call exactly for a family of the build with a length below
that family's minimum. -/
theorem family_check_before_length (K : Plat) (cfg : Config) (B : BackEnd) (psock : Socket)
    (buf : List Nat) (len : Nat) (flags : Int) (addr : Sockaddr) (addrlen : Nat) (n : Net)
    (hA : K.AF_INET ≠ K.AF_INET6) (hE : K.EBADF ≠ K.EAFNOSUPPORT)
    (hU : cfg.NET_USRSOCK = true → psock.s_type ≠ K.SOCK_USRSOCK_TYPE) :
    (addr.sa_family ≠ K.AF_INET → addr.sa_family ≠ K.AF_INET6 →
      inet_bind K cfg B psock addr addrlen n = ⟨-K.EAFNOSUPPORT, psock, n⟩ ∧
      inet_sendto K cfg B psock buf len flags addr addrlen n = ⟨-K.EAFNOSUPPORT, psock, n⟩) ∧
    (inet_bind_validate K cfg addr addrlen = some (-K.EBADF) ↔
      (cfg.NET_IPv4 = true ∧ addr.sa_family = K.AF_INET ∧ addrlen < K.sizeof_sockaddr_in) ∨
      (cfg.NET_IPv6 = true ∧ addr.sa_family = K.AF_INET6 ∧
        addrlen < K.sizeof_sockaddr_in6)) ∧
    (inet_sendto_validate K cfg addr addrlen = some (-K.EBADF) ↔
      (cfg.NET_IPv4 = true ∧ addr.sa_family = K.AF_INET ∧ addrlen < K.sizeof_sockaddr_in) ∨
      (cfg.NET_IPv6 = true ∧ addr.sa_family = K.AF_INET6 ∧
        addrlen < K.sizeof_sockaddr_in6)) ∧
    (cfg.NET_IPv4 = true → addr.sa_family = K.AF_INET →
      inet_bind_validate K cfg addr K.sizeof_sockaddr_in = none ∧
      inet_sendto_validate K cfg addr K.sizeof_sockaddr_in = none) ∧
    (cfg.NET_IPv6 = true → addr.sa_family = K.AF_INET6 →
      K.sizeof_sockaddr_in < K.sizeof_sockaddr_in6 →
      inet_bind K cfg B psock addr K.sizeof_sockaddr_in n = ⟨-K.EBADF, psock, n⟩ ∧
      inet_sendto K cfg B psock buf len flags addr K.sizeof_sockaddr_in n =
        ⟨-K.EBADF, psock, n⟩) ∧
    (¬((cfg.NET_IPv4 = true ∧ addr.sa_family = K.AF_INET) ∨
        (cfg.NET_IPv6 = true ∧ addr.sa_family = K.AF_INET6)) →
      inet_bind K cfg B psock addr addrlen n = ⟨-K.EAFNOSUPPORT, psock, n⟩ ∧
      inet_sendto K cfg B psock buf len flags addr addrlen n = ⟨-K.EAFNOSUPPORT, psock, n⟩) ∧
    ((cfg.NET_IPv4 = true ∧ addr.sa_family = K.AF_INET ∧ addrlen < K.sizeof_sockaddr_in) ∨
        (cfg.NET_IPv6 = true ∧ addr.sa_family = K.AF_INET6 ∧
          addrlen < K.sizeof_sockaddr_in6) →
      inet_bind K cfg B psock addr addrlen n = ⟨-K.EBADF, psock, n⟩ ∧
      inet_sendto K cfg B psock buf len flags addr addrlen n = ⟨-K.EBADF, psock, n⟩) ∧
    (inetAddrOk K cfg addr.sa_family addrlen →
      inet_bind K cfg B psock addr addrlen n =
        inet_bind_switch K cfg B psock addr addrlen n ∧
      inet_sendto K cfg B psock buf len flags addr addrlen n =
        inet_sendto_switch K cfg B psock buf len flags addr addrlen n) ∧
    (cfg.NET_IPv4 = true → addr.sa_family = K.AF_INET →
      inet_bind K cfg B psock addr K.sizeof_sockaddr_in n =
        inet_bind_switch K cfg B psock addr K.sizeof_sockaddr_in n ∧
      inet_sendto K cfg B psock buf len flags addr K.sizeof_sockaddr_in n =
        inet_sendto_switch K cfg B psock buf len flags addr K.sizeof_sockaddr_in n ∧
      (cfg.NET_TCP = true → cfg.NET_TCP_HAVE_STACK = true → psock.s_type = K.SOCK_STREAM →
        (inet_bind K cfg B psock addr K.sizeof_sockaddr_in n).ret =
          (B.tcp_bind psock.s_conn addr n.heap).1 ∧
        (inet_bind K cfg B psock addr K.sizeof_sockaddr_in n).net.trace =
          n.trace ++ [⟨Fn.tcp_bind, [psock.s_conn, addr.sa_family],
            (B.tcp_bind psock.s_conn addr n.heap).1⟩]) ∧
      (cfg.NET_UDP = true → cfg.NET_6LOWPAN = false → cfg.NET_UDP_HAVE_STACK = true →
        psock.s_type = K.SOCK_DGRAM →
        (inet_sendto K cfg B psock buf len flags addr K.sizeof_sockaddr_in n).ret =
          (B.psock_udp_sendto psock buf len flags addr K.sizeof_sockaddr_in n.heap).ret ∧
        (inet_sendto K cfg B psock buf len flags addr K.sizeof_sockaddr_in n).net.trace =
          n.trace ++ [⟨Fn.psock_udp_sendto,
            [len, flags, addr.sa_family, K.sizeof_sockaddr_in],
            (B.psock_udp_sendto psock buf len flags addr K.sizeof_sockaddr_in
              n.heap).ret⟩])) ∧
    (K.SOCK_STREAM ≠ K.SOCK_DGRAM → cfg.NET_UDP = true → cfg.NET_UDP_HAVE_STACK = true →
      psock.s_type = K.SOCK_DGRAM →
      (((inet_bind K cfg B psock addr addrlen n).ret = -K.EBADF ∧
          (inet_bind K cfg B psock addr addrlen n).net.trace = n.trace) ↔
        (cfg.NET_IPv4 = true ∧ addr.sa_family = K.AF_INET ∧
            addrlen < K.sizeof_sockaddr_in) ∨
          (cfg.NET_IPv6 = true ∧ addr.sa_family = K.AF_INET6 ∧
            addrlen < K.sizeof_sockaddr_in6)) ∧
      (((inet_sendto K cfg B psock buf len flags addr addrlen n).ret = -K.EBADF ∧
          (inet_sendto K cfg B psock buf len flags addr addrlen n).net.trace = n.trace) ↔
        (cfg.NET_IPv4 = true ∧ addr.sa_family = K.AF_INET ∧
            addrlen < K.sizeof_sockaddr_in) ∨
          (cfg.NET_IPv6 = true ∧ addr.sa_family = K.AF_INET6 ∧
            addrlen < K.sizeof_sockaddr_in6))) := by
  have hU' : ¬(cfg.NET_USRSOCK = true ∧ psock.s_type = K.SOCK_USRSOCK_TYPE) :=
    fun c => hU c.1 c.2
  have hiff : inet_bind_validate K cfg addr addrlen = some (-K.EBADF) ↔
      (cfg.NET_IPv4 = true ∧ addr.sa_family = K.AF_INET ∧ addrlen < K.sizeof_sockaddr_in) ∨
      (cfg.NET_IPv6 = true ∧ addr.sa_family = K.AF_INET6 ∧
        addrlen < K.sizeof_sockaddr_in6) := by
    rw [inet_bind_validate_eq]
    by_cases h4 : cfg.NET_IPv4 = true ∧ addr.sa_family = K.AF_INET
    · have h6 : ¬(cfg.NET_IPv6 = true ∧ addr.sa_family = K.AF_INET6) :=
        fun c => hA (h4.2.symm.trans c.2)
      by_cases hl : addrlen < K.sizeof_sockaddr_in
      · simp only [if_pos h4, if_pos hl, true_iff]
        exact Or.inl ⟨h4.1, h4.2, hl⟩
      · simp only [if_pos h4, if_neg hl]
        constructor
        · intro c
          exact absurd c (by simp)
        · rintro (c | c)
          · exact absurd c.2.2 hl
          · exact absurd ⟨c.1, c.2.1⟩ h6
    · by_cases h6 : cfg.NET_IPv6 = true ∧ addr.sa_family = K.AF_INET6
      · by_cases hl : addrlen < K.sizeof_sockaddr_in6
        · simp only [if_neg h4, if_pos h6, if_pos hl, true_iff]
          exact Or.inr ⟨h6.1, h6.2, hl⟩
        · simp only [if_neg h4, if_pos h6, if_neg hl]
          constructor
          · intro c
            exact absurd c (by simp)
          · rintro (c | c)
            · exact absurd ⟨c.1, c.2.1⟩ h4
            · exact absurd c.2.2 hl
      · simp only [if_neg h4, if_neg h6, Option.some.injEq, neg_inj]
        constructor
        · intro c
          exact absurd c.symm hE
        · rintro (c | c)
          · exact absurd ⟨c.1, c.2.1⟩ h4
          · exact absurd ⟨c.1, c.2.1⟩ h6
  have hpb : ∀ l : Nat, inet_bind_validate K cfg addr l = none →
      inet_bind K cfg B psock addr l n = inet_bind_switch K cfg B psock addr l n := by
    intro l hp
    unfold inet_bind_validate at hp
    unfold inet_bind inet_bind_switch
    simp only at hp ⊢
    split at hp
    · exact absurd hp (by simp)
    · rename_i m hsel
      by_cases hl : l < m
      · simp only [if_pos hl] at hp
        exact absurd hp (by simp)
      · simp only [hsel, if_neg hl]
  have hps : ∀ l : Nat, inet_sendto_validate K cfg addr l = none →
      inet_sendto K cfg B psock buf len flags addr l n =
        inet_sendto_switch K cfg B psock buf len flags addr l n := by
    intro l hp
    unfold inet_sendto_validate at hp
    unfold inet_sendto inet_sendto_switch
    simp only [if_neg hU']
    simp only at hp
    split at hp
    · exact absurd hp (by simp)
    · rename_i m hsel
      by_cases hl : l < m
      · simp only [if_pos hl] at hp
        exact absurd hp (by simp)
      · simp only [hsel, if_neg hl]
  refine ⟨fun hn4 hn6 => ?_, hiff, hiff, fun h4 hf => ?_, fun h6 hf hlt => ?_,
    fun hno => ?_, fun hshort => ?_, fun hok => ?_, fun h4 hf => ?_,
    fun hS hD hH hG => ?_⟩
  · have hv : inet_bind_validate K cfg addr addrlen = some (-K.EAFNOSUPPORT) := by
      rw [inet_bind_validate_eq]
      rw [if_neg (fun c => hn4 c.2), if_neg (fun c => hn6 c.2)]
    exact ⟨inet_bind_rejected K cfg B psock addr addrlen n _ hv,
      inet_sendto_rejected K cfg B psock buf len flags addr addrlen n hU' _ hv⟩
  · have hv : inet_bind_validate K cfg addr K.sizeof_sockaddr_in = none := by
      rw [inet_bind_validate_eq]
      rw [if_pos (And.intro h4 hf), if_neg (Nat.lt_irrefl _)]
    exact ⟨hv, hv⟩
  · have hv : inet_bind_validate K cfg addr K.sizeof_sockaddr_in = some (-K.EBADF) := by
      rw [inet_bind_validate_eq]
      rw [if_neg (fun c => hA (c.2.symm.trans hf)), if_pos (And.intro h6 hf), if_pos hlt]
    exact ⟨inet_bind_rejected K cfg B psock addr K.sizeof_sockaddr_in n _ hv,
      inet_sendto_rejected K cfg B psock buf len flags addr K.sizeof_sockaddr_in n hU' _ hv⟩
  · have hv : inet_bind_validate K cfg addr addrlen = some (-K.EAFNOSUPPORT) := by
      rw [inet_bind_validate_eq]
      rw [if_neg (fun c => hno (Or.inl c)), if_neg (fun c => hno (Or.inr c))]
    exact ⟨inet_bind_rejected K cfg B psock addr addrlen n _ hv,
      inet_sendto_rejected K cfg B psock buf len flags addr addrlen n hU' _ hv⟩
  · have hv := hiff.mpr hshort
    exact ⟨inet_bind_rejected K cfg B psock addr addrlen n _ hv,
      inet_sendto_rejected K cfg B psock buf len flags addr addrlen n hU' _ hv⟩
  · have hv := inet_bind_validate_ok K cfg addr addrlen hA hok
    exact ⟨hpb addrlen hv,
      hps addrlen hv⟩
  · have hok : inetAddrOk K cfg addr.sa_family K.sizeof_sockaddr_in :=
      Or.inl ⟨h4, hf, Nat.le_refl _⟩
    have hv := inet_bind_validate_ok K cfg addr K.sizeof_sockaddr_in hA hok
    refine ⟨hpb K.sizeof_sockaddr_in hv,
      hps K.sizeof_sockaddr_in hv,
      fun hT hH hG => ?_, fun hD h6 hH hG => ?_⟩
    · rw [hpb K.sizeof_sockaddr_in hv,
        inet_bind_switch_stream K cfg B psock addr K.sizeof_sockaddr_in n hU' hT hH hG]
      exact ⟨rfl, rfl⟩
    · rw [inet_sendto_valid K cfg B psock buf len flags addr K.sizeof_sockaddr_in n hA hok
        hU' hD]
      simp [hG, h6, hH]
  · constructor
    · constructor
      · rintro ⟨hr, ht⟩
        by_cases hok : inetAddrOk K cfg addr.sa_family addrlen
        · rw [hpb addrlen (inet_bind_validate_ok K cfg addr addrlen hA hok),
            inet_bind_switch_dgram K cfg B psock addr addrlen n hS hU' hD hH hG] at ht
          simp at ht
        · rcases inet_bind_validate_some K cfg addr addrlen hok with hv | hv
          · exact hiff.mp hv
          · rw [inet_bind_rejected K cfg B psock addr addrlen n _ hv] at hr
            simp only [neg_inj] at hr
            exact absurd hr.symm hE
      · intro hshort
        rw [inet_bind_rejected K cfg B psock addr addrlen n _ (hiff.mpr hshort)]
        exact ⟨rfl, rfl⟩
    · constructor
      · rintro ⟨hr, ht⟩
        by_cases hok : inetAddrOk K cfg addr.sa_family addrlen
        · rw [hps addrlen (inet_bind_validate_ok K cfg addr addrlen hA hok)] at ht
          exact absurd ht (inet_sendto_switch_dgram_called K cfg B psock buf len flags addr
            addrlen n hD hH hG)
        · rcases inet_bind_validate_some K cfg addr addrlen hok with hv | hv
          · exact hiff.mp hv
          · rw [inet_sendto_rejected K cfg B psock buf len flags addr addrlen n hU' _ hv] at hr
            simp only [neg_inj] at hr
            exact absurd hr.symm hE
      · intro hshort
        rw [inet_sendto_rejected K cfg B psock buf len flags addr addrlen n hU' _
          (hiff.mpr hshort)]
        exact ⟨rfl, rfl⟩

theorem family_check_before_length_witness :
    refPlat.AF_INET ≠ refPlat.AF_INET6 ∧ refPlat.EBADF ≠ refPlat.EAFNOSUPPORT ∧
    addrLocal.sa_family ≠ refPlat.AF_INET ∧ addrLocal.sa_family ≠ refPlat.AF_INET6 ∧
    (inet_bind refPlat cfgLocal beOK (sockInet 1) addrLocal 0 net0 =
        ⟨-refPlat.EAFNOSUPPORT, sockInet 1, net0⟩ ∧
      inet_sendto refPlat cfgLocal beOK (sockInet 1) [1, 2] 2 0 addrLocal 0 net0 =
        ⟨-refPlat.EAFNOSUPPORT, sockInet 1, net0⟩) ∧
    ((inet_bind refPlat cfgLocal beOK (sockInet 1) addrV4 refPlat.sizeof_sockaddr_in
        net0).ret = (beOK.tcp_bind (sockInet 1).s_conn addrV4 net0.heap).1 ∧
      (inet_bind refPlat cfgLocal beOK (sockInet 1) addrV4 refPlat.sizeof_sockaddr_in
        net0).net.trace =
        net0.trace ++ [⟨Fn.tcp_bind, [(sockInet 1).s_conn, addrV4.sa_family],
          (beOK.tcp_bind (sockInet 1).s_conn addrV4 net0.heap).1⟩]) ∧
    (inet_bind refPlat cfgLocal beOK (sockInet 1) addrV4 16 net0).net.trace =
      [⟨Fn.tcp_bind, [0, 2], 0⟩] ∧
    (inet_sendto refPlat cfgLocal beOK (sockInet 2) [1, 2] 2 0 addrV4 16 net0).net.trace =
      [⟨Fn.psock_udp_sendto, [2, 0, 2, 16], 2⟩] ∧
    inet_bind refPlat cfgLocal beOK (sockInet 1) ⟨refPlat.AF_INET6, []⟩ 16 net0 =
      ⟨-refPlat.EBADF, sockInet 1, net0⟩ :=
  ⟨by decide, by decide, by decide, by decide,
    (family_check_before_length refPlat cfgLocal beOK (sockInet 1) [1, 2] 2 0 addrLocal 0 net0
      (by decide) (by decide) (fun _ => by decide)).1 (by decide) (by decide),
    ((family_check_before_length refPlat cfgLocal beOK (sockInet 1) [1, 2] 2 0 addrV4 0 net0
      (by decide) (by decide) (fun _ => by decide)).2.2.2.2.2.2.2.2.1 rfl rfl).2.2.1
      rfl rfl rfl,
    by decide, by decide,
    ((family_check_before_length refPlat cfgLocal beOK (sockInet 1) [1, 2] 2 0
      ⟨refPlat.AF_INET6, []⟩ 0 net0
      (by decide) (by decide) (fun _ => by decide)).2.2.2.2.1 rfl rfl (by decide)).1⟩

theorem lor_two_pow_of_land_ne_zero (f k : Nat) (h : f &&& 2 ^ k ≠ 0) : f ||| 2 ^ k = f := by
  have hk : f.testBit k = true := by
    obtain ⟨i, hi⟩ := Nat.ne_zero_implies_bit_true h
    rw [Nat.testBit_land, Nat.testBit_two_pow] at hi
    simp only [Bool.and_eq_true, decide_eq_true_eq] at hi
    rw [hi.2]
    exact hi.1
  apply Nat.eq_of_testBit_eq
  intro i
  rw [Nat.testBit_lor, Nat.testBit_two_pow]
  by_cases hik : k = i
  · subst hik
    simp [hk]
  · simp [hik]

/-- The socket after `inet_bind`: the one given, or the one given with
`_SF_BOUND` or-ed into the flags (lines 402 and 424). -/
theorem inet_bind_psock_cases (K : Plat) (cfg : Config) (B : BackEnd) (psock : Socket)
    (addr : Sockaddr) (addrlen : Nat) (n : Net) :
    (inet_bind K cfg B psock addr addrlen n).psock = psock ∨
    (inet_bind K cfg B psock addr addrlen n).psock =
      { psock with s_flags := psock.s_flags ||| K.SF_BOUND } := by
  unfold inet_bind
  simp only
  split
  · exact Or.inl rfl
  · split_ifs
    all_goals first
      | exact Or.inl rfl
      | exact Or.inr rfl

/-- The socket after `local_bind`: the one `psock_local_bind` left (the one
given when it is not called), or that one with `_SF_BOUND` or-ed into the
flags (line 240). -/
theorem local_bind_psock_cases (K : Plat) (cfg : Config) (B : BackEnd) (psock : Socket)
    (addr : Sockaddr) (addrlen : Nat) (n : Net)
    (hF : (B.psock_local_bind psock addr addrlen n.heap).psock = psock) :
    (local_bind K cfg B psock addr addrlen n).psock = psock ∨
    (local_bind K cfg B psock addr addrlen n).psock =
      { psock with s_flags := psock.s_flags ||| K.SF_BOUND } := by
  unfold local_bind
  simp only
  split_ifs
  all_goals first
    | exact Or.inl rfl
    | exact Or.inl hF
    | (right; simp only [hF])

theorem bound_flag_frame (K : Plat) (psock after : Socket)
    (h : after = psock ∨ after = { psock with s_flags := psock.s_flags ||| K.SF_BOUND }) :
    after.s_domain = psock.s_domain ∧ after.s_type = psock.s_type ∧
    after.s_conn = psock.s_conn ∧
    (after.s_flags = psock.s_flags ∨ after.s_flags = psock.s_flags ||| K.SF_BOUND) ∧
    (∀ i : Nat, psock.s_flags.testBit i = true → after.s_flags.testBit i = true) ∧
    ((∃ k : Nat, K.SF_BOUND = 2 ^ k) → SS_ISBOUND K psock.s_flags = true →
      after.s_flags = psock.s_flags) := by
  rcases h with h | h
  · subst h
    exact ⟨rfl, rfl, rfl, Or.inl rfl, fun _ hi => hi, fun _ _ => rfl⟩
  · subst h
    refine ⟨rfl, rfl, rfl, Or.inr rfl, fun i hi => ?_, fun hk hb => ?_⟩
    · simp only [Nat.testBit_lor, hi, Bool.true_or]
    · obtain ⟨k, hk⟩ := hk
      have hne : psock.s_flags &&& 2 ^ k ≠ 0 := by
        simpa [SS_ISBOUND, hk] using hb
      simp only [hk]
      exact lor_two_pow_of_land_ne_zero psock.s_flags k hne

/-- C33: for every input, `inet_bind`, and `local_bind` with a
`psock_local_bind` that leaves the socket it is handed as it was, return the
socket with the same family, type and connection pointer, and with flags
that are either the flags before the call or those flags with `_SF_BOUND`
or-ed in; every bit set before the call is set after it; and, `_SF_BOUND`
being a single bit, a socket that was bound before the call has the same
flags after it. -/
theorem bind_flags_frame (K : Plat) (cfg : Config) (B : BackEnd) (psock : Socket)
    (addr : Sockaddr) (addrlen : Nat) (n : Net)
    (hF : (B.psock_local_bind psock addr addrlen n.heap).psock = psock) :
    ((inet_bind K cfg B psock addr addrlen n).psock.s_domain = psock.s_domain ∧
      (inet_bind K cfg B psock addr addrlen n).psock.s_type = psock.s_type ∧
      (inet_bind K cfg B psock addr addrlen n).psock.s_conn = psock.s_conn ∧
      ((inet_bind K cfg B psock addr addrlen n).psock.s_flags = psock.s_flags ∨
        (inet_bind K cfg B psock addr addrlen n).psock.s_flags =
          psock.s_flags ||| K.SF_BOUND) ∧
      (∀ i : Nat, psock.s_flags.testBit i = true →
        (inet_bind K cfg B psock addr addrlen n).psock.s_flags.testBit i = true) ∧
      ((∃ k : Nat, K.SF_BOUND = 2 ^ k) → SS_ISBOUND K psock.s_flags = true →
        (inet_bind K cfg B psock addr addrlen n).psock.s_flags = psock.s_flags)) ∧
    ((local_bind K cfg B psock addr addrlen n).psock.s_domain = psock.s_domain ∧
      (local_bind K cfg B psock addr addrlen n).psock.s_type = psock.s_type ∧
      (local_bind K cfg B psock addr addrlen n).psock.s_conn = psock.s_conn ∧
      ((local_bind K cfg B psock addr addrlen n).psock.s_flags = psock.s_flags ∨
        (local_bind K cfg B psock addr addrlen n).psock.s_flags =
          psock.s_flags ||| K.SF_BOUND) ∧
      (∀ i : Nat, psock.s_flags.testBit i = true →
        (local_bind K cfg B psock addr addrlen n).psock.s_flags.testBit i = true) ∧
      ((∃ k : Nat, K.SF_BOUND = 2 ^ k) → SS_ISBOUND K psock.s_flags = true →
        (local_bind K cfg B psock addr addrlen n).psock.s_flags = psock.s_flags)) :=
  ⟨bound_flag_frame K psock _ (inet_bind_psock_cases K cfg B psock addr addrlen n),
    bound_flag_frame K psock _ (local_bind_psock_cases K cfg B psock addr addrlen n hF)⟩

theorem bind_flags_frame_witness :
    (beOK.psock_local_bind sockBound addrV4 16 netBound.heap).psock = sockBound ∧
    (∃ k : Nat, refPlat.SF_BOUND = 2 ^ k) ∧
    SS_ISBOUND refPlat sockBound.s_flags = true ∧
    (inet_bind refPlat cfgLocal beOK sockBound addrV4 16 netBound).ret = 0 ∧
    (inet_bind refPlat cfgLocal beOK sockBound addrV4 16 netBound).psock.s_flags =
      sockBound.s_flags :=
  ⟨rfl, ⟨5, by decide⟩, by decide, by decide,
    (bind_flags_frame refPlat cfgLocal beOK sockBound addrV4 16 netBound rfl).1.2.2.2.2.2
      ⟨5, by decide⟩ (by decide)⟩

/-- C34: `usrsock_socket_setup` returns 0, with the socket and the network
state as given (no call), for every domain other than `PF_INET` and
`PF_INET6`, for a datagram type when provider UDP support is not configured,
and for a stream type when provider TCP support is not configured.  In every
remaining case it makes exactly one call, `usrsock_socket` with the same
domain, type and protocol, on the socket with `s_type` set to `PF_UNSPEC` and
`s_conn` set to `NULL`, and returns exactly that call's result. -/
theorem usrsock_socket_setup_cases (K : Plat) (cfg : Config) (B : BackEnd)
    (domain type protocol : Int) (psock : Socket) (n : Net) :
    (domain ≠ K.PF_INET → domain ≠ K.PF_INET6 →
      usrsock_socket_setup K cfg B domain type protocol psock n = ⟨0, psock, n⟩) ∧
    (cfg.NET_USRSOCK_UDP = false → type = K.SOCK_DGRAM →
      usrsock_socket_setup K cfg B domain type protocol psock n = ⟨0, psock, n⟩) ∧
    (cfg.NET_USRSOCK_TCP = false → type = K.SOCK_STREAM →
      usrsock_socket_setup K cfg B domain type protocol psock n = ⟨0, psock, n⟩) ∧
    (domain = K.PF_INET ∨ domain = K.PF_INET6 →
      ¬(cfg.NET_USRSOCK_UDP = false ∧ type = K.SOCK_DGRAM) →
      ¬(cfg.NET_USRSOCK_TCP = false ∧ type = K.SOCK_STREAM) →
      usrsock_socket_setup K cfg B domain type protocol psock n =
        ⟨(B.usrsock_socket domain type protocol
            { psock with s_type := K.PF_UNSPEC, s_conn := 0 } n.heap).ret,
          (B.usrsock_socket domain type protocol
            { psock with s_type := K.PF_UNSPEC, s_conn := 0 } n.heap).psock,
          ⟨(B.usrsock_socket domain type protocol
            { psock with s_type := K.PF_UNSPEC, s_conn := 0 } n.heap).heap, n.lock,
            n.trace ++ [⟨Fn.usrsock_socket, [domain, type, protocol],
              (B.usrsock_socket domain type protocol
                { psock with s_type := K.PF_UNSPEC, s_conn := 0 } n.heap).ret⟩]⟩⟩) := by
  refine ⟨fun h4 h6 => ?_, fun hU hT => ?_, fun hS hT => ?_, fun hd hu ht => ?_⟩
  · have hd : ¬(domain = K.PF_INET ∨ domain = K.PF_INET6) := by
      rintro (c | c)
      · exact h4 c
      · exact h6 c
    simp only [usrsock_socket_setup, if_neg hd]
  · by_cases hd : domain = K.PF_INET ∨ domain = K.PF_INET6
    · simp only [usrsock_socket_setup, if_pos hd, if_pos (And.intro hU hT)]
    · simp only [usrsock_socket_setup, if_neg hd]
  · by_cases hd : domain = K.PF_INET ∨ domain = K.PF_INET6
    · by_cases hu : cfg.NET_USRSOCK_UDP = false ∧ type = K.SOCK_DGRAM
      · simp only [usrsock_socket_setup, if_pos hd, if_pos hu]
      · simp only [usrsock_socket_setup, if_pos hd, if_neg hu, if_pos (And.intro hS hT)]
    · simp only [usrsock_socket_setup, if_neg hd]
  · simp only [usrsock_socket_setup, if_pos hd, if_neg hu, if_neg ht, Net.called]

theorem usrsock_socket_setup_cases_witness :
    (sockInet 1).s_domain = refPlat.PF_INET ∧
    usrsock_socket_setup refPlat cfgLocal beOK 2 1 0 (sockInet 1) net0 = ⟨0, sockInet 1, net0⟩ ∧
    (usrsock_socket_setup refPlat cfgUsrsock (beProvider (-12)) 2 1 0 (sockInet 1) net0).ret =
      -12 ∧
    (usrsock_socket_setup refPlat cfgUsrsock (beProvider (-12)) 2 1 0 (sockInet 1)
      net0).net.trace = [⟨Fn.usrsock_socket, [2, 1, 0], -12⟩] :=
  ⟨rfl,
    (usrsock_socket_setup_cases refPlat cfgLocal beOK 2 1 0 (sockInet 1) net0).2.2.1 rfl rfl,
    congrArg Ret.ret
      ((usrsock_socket_setup_cases refPlat cfgUsrsock (beProvider (-12)) 2 1 0 (sockInet 1)
        net0).2.2.2 (Or.inl rfl) (by decide) (by decide)),
    congrArg (fun r => r.net.trace)
      ((usrsock_socket_setup_cases refPlat cfgUsrsock (beProvider (-12)) 2 1 0 (sockInet 1)
        net0).2.2.2 (Or.inl rfl) (by decide) (by decide))⟩

/-- C35 (the code at the failing input): the masks and value macros of the
UTMI Full Speed Trimming register.  `SFR_UTMIFSTRIM_RISE_MASK` is `7 << 16`
(0x70000, bits 16-18), not `7 << SFR_UTMIFSTRIM_RISE_SHIFT` (bits 0-2) as its
comment documents, and `SFR_UTMIFSTRIM_RISE(1)` is `1 << 16`, not `1 << 0`:
lines 162-175 shift by `SFR_UTMIHSTRIM_SLOPE2_SHIFT` (16), the shift of the
last field of the preceding register, in all five fields.  So the masks of
RISE, FALL, ZN and ZP are one and the same value, the mask of XCVR lies inside
it, and only ZN, whose own shift is 16, is where its comment says. -/
theorem utmifstrim_masks_misplaced :
    SFR_UTMIFSTRIM_RISE_MASK = 7 <<< 16 ∧
    SFR_UTMIFSTRIM_RISE_MASK ≠ 7 <<< SFR_UTMIFSTRIM_RISE_SHIFT ∧
    SFR_UTMIFSTRIM_RISE 1 = 1 <<< 16 ∧
    SFR_UTMIFSTRIM_RISE 1 ≠ 1 <<< SFR_UTMIFSTRIM_RISE_SHIFT ∧
    SFR_UTMIFSTRIM_FALL_MASK = 7 <<< 16 ∧
    SFR_UTMIFSTRIM_FALL_MASK ≠ 7 <<< SFR_UTMIFSTRIM_FALL_SHIFT ∧
    SFR_UTMIFSTRIM_FALL 1 ≠ 1 <<< SFR_UTMIFSTRIM_FALL_SHIFT ∧
    SFR_UTMIFSTRIM_XCVR_MASK = 3 <<< 16 ∧
    SFR_UTMIFSTRIM_XCVR_MASK ≠ 3 <<< SFR_UTMIFSTRIM_XCVR_SHIFT ∧
    SFR_UTMIFSTRIM_XCVR 1 ≠ 1 <<< SFR_UTMIFSTRIM_XCVR_SHIFT ∧
    SFR_UTMIFSTRIM_ZP_MASK = 7 <<< 16 ∧
    SFR_UTMIFSTRIM_ZP_MASK ≠ 7 <<< SFR_UTMIFSTRIM_ZP_SHIFT ∧
    SFR_UTMIFSTRIM_ZP 1 ≠ 1 <<< SFR_UTMIFSTRIM_ZP_SHIFT ∧
    SFR_UTMIFSTRIM_ZN_MASK = 7 <<< SFR_UTMIFSTRIM_ZN_SHIFT ∧
    SFR_UTMIFSTRIM_ZN 1 = 1 <<< SFR_UTMIFSTRIM_ZN_SHIFT ∧
    SFR_UTMIFSTRIM_RISE_MASK &&& SFR_UTMIFSTRIM_FALL_MASK = 7 <<< 16 ∧
    SFR_UTMIFSTRIM_RISE_MASK &&& SFR_UTMIFSTRIM_XCVR_MASK = 3 <<< 16 ∧
    SFR_UTMIFSTRIM_ZN_MASK &&& SFR_UTMIFSTRIM_ZP_MASK ≠ 0 := by
  decide

/-- C36: for the fields DRIVE0, PULL0, DRIVE1, PULL1 of the EBI Configuration
register and every `n < 4`, and for the fields SQUELCH, DISC, SLOPE0, SLOPE1,
SLOPE2 of the UTMI High Speed Trimming register and every `n < 8`, as 32-bit
values `F(n) & ~MASK = 0` and `(F(n) & MASK) >> SHIFT = n`; the four masks and
the flags SCH0, SCH1 of the first register are pairwise disjoint, and so are
the five masks of the second. -/
theorem field_insert_extract (n : Nat) :
    (n < 4 →
      (SFR_EBICFG_DRIVE0 n &&& not32 SFR_EBICFG_DRIVE0_MASK = 0 ∧
        (SFR_EBICFG_DRIVE0 n &&& SFR_EBICFG_DRIVE0_MASK) >>> SFR_EBICFG_DRIVE0_SHIFT = n) ∧
      (SFR_EBICFG_PULL0 n &&& not32 SFR_EBICFG_PULL0_MASK = 0 ∧
        (SFR_EBICFG_PULL0 n &&& SFR_EBICFG_PULL0_MASK) >>> SFR_EBICFG_PULL0_SHIFT = n) ∧
      (SFR_EBICFG_DRIVE1 n &&& not32 SFR_EBICFG_DRIVE1_MASK = 0 ∧
        (SFR_EBICFG_DRIVE1 n &&& SFR_EBICFG_DRIVE1_MASK) >>> SFR_EBICFG_DRIVE1_SHIFT = n) ∧
      (SFR_EBICFG_PULL1 n &&& not32 SFR_EBICFG_PULL1_MASK = 0 ∧
        (SFR_EBICFG_PULL1 n &&& SFR_EBICFG_PULL1_MASK) >>> SFR_EBICFG_PULL1_SHIFT = n)) ∧
    (n < 8 →
      (SFR_UTMIHSTRIM_SQUELCH n &&& not32 SFR_UTMIHSTRIM_SQUELCH_MASK = 0 ∧
        (SFR_UTMIHSTRIM_SQUELCH n &&& SFR_UTMIHSTRIM_SQUELCH_MASK) >>>
          SFR_UTMIHSTRIM_SQUELCH_SHIFT = n) ∧
      (SFR_UTMIHSTRIM_DISC n &&& not32 SFR_UTMIHSTRIM_DISC_MASK = 0 ∧
        (SFR_UTMIHSTRIM_DISC n &&& SFR_UTMIHSTRIM_DISC_MASK) >>>
          SFR_UTMIHSTRIM_DISC_SHIFT = n) ∧
      (SFR_UTMIHSTRIM_SLOPE0 n &&& not32 SFR_UTMIHSTRIM_SLOPE0_MASK = 0 ∧
        (SFR_UTMIHSTRIM_SLOPE0 n &&& SFR_UTMIHSTRIM_SLOPE0_MASK) >>>
          SFR_UTMIHSTRIM_SLOPE0_SHIFT = n) ∧
      (SFR_UTMIHSTRIM_SLOPE1 n &&& not32 SFR_UTMIHSTRIM_SLOPE1_MASK = 0 ∧
        (SFR_UTMIHSTRIM_SLOPE1 n &&& SFR_UTMIHSTRIM_SLOPE1_MASK) >>>
          SFR_UTMIHSTRIM_SLOPE1_SHIFT = n) ∧
      (SFR_UTMIHSTRIM_SLOPE2 n &&& not32 SFR_UTMIHSTRIM_SLOPE2_MASK = 0 ∧
        (SFR_UTMIHSTRIM_SLOPE2 n &&& SFR_UTMIHSTRIM_SLOPE2_MASK) >>>
          SFR_UTMIHSTRIM_SLOPE2_SHIFT = n)) ∧
    List.Pairwise (fun a b : Nat => a &&& b = 0)
      [SFR_EBICFG_DRIVE0_MASK, SFR_EBICFG_PULL0_MASK, SFR_EBICFG_SCH0,
        SFR_EBICFG_DRIVE1_MASK, SFR_EBICFG_PULL1_MASK, SFR_EBICFG_SCH1] ∧
    List.Pairwise (fun a b : Nat => a &&& b = 0)
      [SFR_UTMIHSTRIM_SQUELCH_MASK, SFR_UTMIHSTRIM_DISC_MASK, SFR_UTMIHSTRIM_SLOPE0_MASK,
        SFR_UTMIHSTRIM_SLOPE1_MASK, SFR_UTMIHSTRIM_SLOPE2_MASK] := by
  refine ⟨fun h => ?_, fun h => ?_, by decide, by decide⟩
  · interval_cases n <;> decide
  · interval_cases n <;> decide

theorem field_insert_extract_witness :
    (3 : Nat) < 4 ∧
    SFR_EBICFG_PULL1 3 = 3072 ∧
    SFR_EBICFG_PULL1 3 &&& not32 SFR_EBICFG_PULL1_MASK = 0 ∧
    (SFR_EBICFG_PULL1 3 &&& SFR_EBICFG_PULL1_MASK) >>> SFR_EBICFG_PULL1_SHIFT = 3 :=
  ⟨by decide, by decide, ((field_insert_extract 3).1 (by decide)).2.2.2⟩

end Nuttx
